import Mathlib

/-!
# pwnsat_sensor_lib: BME280 / MPU6050 drivers over a shared I2C bus

A shallow embedding of `lib/i2c_tools`, `lib/bme280` and `lib/mpu6050`.

* C integers are `Int`/`Nat`; every arithmetic operation of a fixed-width type is followed by
  an explicit two's-complement wrap (`wrap16`, `wrap32`, `wrap64`), so a computation that stays
  in range equals the unbounded one and a computation that leaves the range is still defined.
* C `/` on signed integers truncates toward zero: `Int.tdiv`.  A division whose divisor is a
  run-time value is fallible (`div64` returns `none` on a zero divisor).
* A `float` result is represented by the exact rational value of the expression that produces
  it; the rounding of the final float conversion and division is not modelled.
* The bcm2835 library and the devices behind it are external: their behaviour is an arbitrary
  function of the history of calls (`Env`), and every call is appended to `State.trace`.
* File-scope variables of the three modules are the fields of `State`.
* The unbounded wait loop of `bme280_begin` takes a fuel argument (the number of polls of the
  status register); the call is `none` when the fuel does not suffice.
* Diagnostic output (`printf`, `fprintf`) is not modelled.
* The power function of the C library, which `bme280_read_altitude` calls, is external: it is
  a parameter `pow : ℚ → ℚ → ℚ` of the embedded function.
-/

-- Evaluating the definitions below in the interpreter requires in-place reuse to be off.
set_option compiler.reuse false

namespace Pwnsat

/-! ## Fixed-width integers -/

/-- Conversion to `uint8_t`. -/
def toU8 (x : Int) : Nat := (x % 256).toNat

/-- Conversion to `int8_t` (two's complement). -/
def wrap8 (x : Int) : Int := (x + 128) % 256 - 128

/-- Conversion to `uint16_t`. -/
def toU16 (x : Int) : Nat := (x % 65536).toNat

/-- Conversion to `int16_t` (two's complement). -/
def wrap16 (x : Int) : Int := (x + 32768) % 65536 - 32768

/-- Conversion to `uint32_t`. -/
def toU32 (x : Int) : Nat := (x % 4294967296).toNat

/-- Conversion to `int32_t` (two's complement). -/
def wrap32 (x : Int) : Int := (x + 2147483648) % 4294967296 - 2147483648

/-- Conversion to `int64_t` (two's complement). -/
def wrap64 (x : Int) : Int :=
  (x + 9223372036854775808) % 18446744073709551616 - 9223372036854775808

/-- The range of `int32_t`. -/
def inInt32 (x : Int) : Prop := -2147483648 ≤ x ∧ x ≤ 2147483647

instance (x : Int) : Decidable (inInt32 x) := by unfold inInt32; infer_instance

/-- Addition of two `int32_t`. -/
def add32 (a b : Int) : Int := wrap32 (a + b)
/-- Subtraction of two `int32_t`. -/
def sub32 (a b : Int) : Int := wrap32 (a - b)
/-- Multiplication of two `int32_t`. -/
def mul32 (a b : Int) : Int := wrap32 (a * b)
/-- Division of an `int32_t` by a non-zero constant, truncating toward zero. -/
def div32 (a b : Int) : Int := wrap32 (Int.tdiv a b)
/-- Left shift of an `int`. -/
def shl32 (a : Int) (k : Nat) : Int := wrap32 (a * 2 ^ k)
/-- Bitwise or of two `int`, on their 32-bit two's-complement patterns. -/
def or32 (a b : Int) : Int := wrap32 ((toU32 a ||| toU32 b : Nat) : Int)

/-- Addition of two `int64_t`. -/
def add64 (a b : Int) : Int := wrap64 (a + b)
/-- Subtraction of two `int64_t`. -/
def sub64 (a b : Int) : Int := wrap64 (a - b)
/-- Multiplication of two `int64_t`. -/
def mul64 (a b : Int) : Int := wrap64 (a * b)
/-- Division of an `int64_t` by a non-zero constant, truncating toward zero. -/
def cdiv64 (a b : Int) : Int := wrap64 (Int.tdiv a b)
/-- Division of an `int64_t` by a run-time value: undefined (`none`) on a zero divisor. -/
def div64 (a b : Int) : Option Int := if b = 0 then none else some (wrap64 (Int.tdiv a b))

/-! ## The bus transport (bcm2835 library), an external collaborator -/

/-- One call into the bcm2835 library. -/
inductive BusOp where
  | init
  | close
  | i2c_begin
  | i2c_end
  | setSlaveAddress (addr : Nat)
  | set_baudrate (baudrate : Nat)
  | write (bytes : List Nat)
  | read (len : Nat)
  | delay (ms : Nat)
  deriving DecidableEq, Repr

/-- Whether a call is a bus transaction (bytes on the wire). -/
def BusOp.isTransaction : BusOp → Bool
  | .write _ => true
  | .read _ => true
  | _ => false

/-- Whether a call is a write transaction. -/
def BusOp.isWrite : BusOp → Bool
  | .write _ => true
  | _ => false

/-- Behaviour of everything outside the three modules, as a function of the calls made so far
(newest first): the status codes of the library, the bytes a read delivers, and the
indeterminate content of a local buffer that is declared without an initialiser. -/
structure Env where
  init_ret : List BusOp → Int
  begin_ret : List BusOp → Int
  write_ret : List BusOp → List Nat → Nat
  read_ret : List BusOp → Nat → Nat
  read_data : List BusOp → Nat → Nat → Nat
  uninit : List BusOp → Nat → Nat

/-- Status code of a successful transfer (`bcm2835I2CReasonCodes`, bcm2835.h). -/
def BCM2835_I2C_REASON_OK : Nat := 0

/-! ## Data model (bme280.h) -/

/-- Calibration data of the BME280. -/
structure bme280_calib_data_t where
  dig_T1 : Int
  dig_T2 : Int
  dig_T3 : Int
  dig_P1 : Int
  dig_P2 : Int
  dig_P3 : Int
  dig_P4 : Int
  dig_P5 : Int
  dig_P6 : Int
  dig_P7 : Int
  dig_P8 : Int
  dig_P9 : Int
  dig_H1 : Int
  dig_H2 : Int
  dig_H3 : Int
  dig_H4 : Int
  dig_H5 : Int
  dig_H6 : Int

/-- Every field holds a value of its declared C type. -/
def bme280_calib_data_t.wellTyped (c : bme280_calib_data_t) : Prop :=
  (0 ≤ c.dig_T1 ∧ c.dig_T1 ≤ 65535) ∧ (-32768 ≤ c.dig_T2 ∧ c.dig_T2 ≤ 32767) ∧
  (-32768 ≤ c.dig_T3 ∧ c.dig_T3 ≤ 32767) ∧ (0 ≤ c.dig_P1 ∧ c.dig_P1 ≤ 65535) ∧
  (-32768 ≤ c.dig_P2 ∧ c.dig_P2 ≤ 32767) ∧ (-32768 ≤ c.dig_P3 ∧ c.dig_P3 ≤ 32767) ∧
  (-32768 ≤ c.dig_P4 ∧ c.dig_P4 ≤ 32767) ∧ (-32768 ≤ c.dig_P5 ∧ c.dig_P5 ≤ 32767) ∧
  (-32768 ≤ c.dig_P6 ∧ c.dig_P6 ≤ 32767) ∧ (-32768 ≤ c.dig_P7 ∧ c.dig_P7 ≤ 32767) ∧
  (-32768 ≤ c.dig_P8 ∧ c.dig_P8 ≤ 32767) ∧ (-32768 ≤ c.dig_P9 ∧ c.dig_P9 ≤ 32767) ∧
  (0 ≤ c.dig_H1 ∧ c.dig_H1 ≤ 255) ∧ (-32768 ≤ c.dig_H2 ∧ c.dig_H2 ≤ 32767) ∧
  (0 ≤ c.dig_H3 ∧ c.dig_H3 ≤ 255) ∧ (-32768 ≤ c.dig_H4 ∧ c.dig_H4 ≤ 32767) ∧
  (-32768 ≤ c.dig_H5 ∧ c.dig_H5 ≤ 32767) ∧ (-128 ≤ c.dig_H6 ∧ c.dig_H6 ≤ 127)

instance (c : bme280_calib_data_t) : Decidable c.wellTyped := by
  unfold bme280_calib_data_t.wellTyped; infer_instance

def BME280_REGISTER_DIG_T1 : Nat := 0x88
def BME280_REGISTER_DIG_T2 : Nat := 0x8A
def BME280_REGISTER_DIG_T3 : Nat := 0x8C
def BME280_REGISTER_DIG_P1 : Nat := 0x8E
def BME280_REGISTER_DIG_P2 : Nat := 0x90
def BME280_REGISTER_DIG_P3 : Nat := 0x92
def BME280_REGISTER_DIG_P4 : Nat := 0x94
def BME280_REGISTER_DIG_P5 : Nat := 0x96
def BME280_REGISTER_DIG_P6 : Nat := 0x98
def BME280_REGISTER_DIG_P7 : Nat := 0x9A
def BME280_REGISTER_DIG_P8 : Nat := 0x9C
def BME280_REGISTER_DIG_P9 : Nat := 0x9E
def BME280_REGISTER_DIG_H1 : Nat := 0xA1
def BME280_REGISTER_DIG_H2 : Nat := 0xE1
def BME280_REGISTER_DIG_H3 : Nat := 0xE3
def BME280_REGISTER_DIG_H4 : Nat := 0xE4
def BME280_REGISTER_DIG_H5 : Nat := 0xE5
def BME280_REGISTER_DIG_H6 : Nat := 0xE7
def BME280_REGISTER_CHIPID : Nat := 0xD0
def BME280_REGISTER_SOFTRESET : Nat := 0xE0
def BME280_REGISTER_CONTROLHUMID : Nat := 0xF2
def BME280_REGISTER_STATUS : Nat := 0xF3
def BME280_REGISTER_CONTROL : Nat := 0xF4
def BME280_REGISTER_CONFIG : Nat := 0xF5
def BME280_REGISTER_PRESSUREDATA : Nat := 0xF7
def BME280_REGISTER_TEMPDATA : Nat := 0xFA
def BME280_REGISTER_HUMIDDATA : Nat := 0xFD

def SAMPLING_NONE : Nat := 0
def SAMPLING_X16 : Nat := 5
def MODE_SLEEP : Nat := 0
def MODE_NORMAL : Nat := 2
def FILTER_OFF : Nat := 0
def STANDBY_MS_0_5 : Nat := 0

/-- Bit-field struct `config_reg`. -/
structure config_reg where
  t_sb : Nat
  filter : Nat
  none : Nat
  spi3w_en : Nat
  deriving DecidableEq, Repr

/-- Bit-field struct `ctrl_meas`. -/
structure ctrl_meas where
  osrs_t : Nat
  osrs_p : Nat
  mode : Nat
  deriving DecidableEq, Repr

/-- Bit-field struct `ctrl_hum`. -/
structure ctrl_hum where
  none : Nat
  osrs_h : Nat
  deriving DecidableEq, Repr

/-- The file-scope variables of `i2c_tools.c`, `bme280.c` and `mpu6050.c`, the environment and
the calls made into the bcm2835 library so far (newest first). -/
structure State where
  env : Env
  trace : List BusOp
  slave_address : Nat
  ret : Int
  bme280_calib : bme280_calib_data_t
  t_fine : Int
  configReg : config_reg
  meas_reg : ctrl_meas
  hum_reg : ctrl_hum
  bme280_slave_addr : Nat
  mpu6050_slave_addr : Nat

/-- The static `t_fine_adjust` of `bme280.c`: initialised to 0 and never assigned. -/
def t_fine_adjust : Int := 0

/-- The bus transactions issued so far, oldest first. -/
def State.transactions (s : State) : List BusOp :=
  (s.trace.filter BusOp.isTransaction).reverse

/-- The write transactions issued so far, oldest first. -/
def State.writes (s : State) : List BusOp :=
  (s.trace.filter BusOp.isWrite).reverse

/-! ## bcm2835 entry points -/

def bcm2835_init (s : State) : Int × State :=
  (s.env.init_ret s.trace, { s with trace := BusOp.init :: s.trace })

def bcm2835_close (s : State) : State :=
  { s with trace := BusOp.close :: s.trace }

def bcm2835_i2c_begin (s : State) : Int × State :=
  (s.env.begin_ret s.trace, { s with trace := BusOp.i2c_begin :: s.trace })

def bcm2835_i2c_setSlaveAddress (addr : Nat) (s : State) : State :=
  { s with trace := BusOp.setSlaveAddress addr :: s.trace }

def bcm2835_i2c_write (buf : List Nat) (s : State) : Nat × State :=
  (s.env.write_ret s.trace buf, { s with trace := BusOp.write buf :: s.trace })

/-- The read delivers `len` bytes into the caller's buffer, whatever its status. -/
def bcm2835_i2c_read (buf : Nat → Nat) (len : Nat) (s : State) : Nat × (Nat → Nat) × State :=
  (s.env.read_ret s.trace len,
   fun i => if i < len then s.env.read_data s.trace len i % 256 else buf i,
   { s with trace := BusOp.read len :: s.trace })

def bcm2835_delay (ms : Nat) (s : State) : State :=
  { s with trace := BusOp.delay ms :: s.trace }

/-! ## i2c_tools.c -/

def i2c_tools_init (s : State) : Int × State :=
  let r := bcm2835_init s
  let s1 : State := { r.2 with ret := r.1 }
  if s1.ret < 0 then (s1.ret, s1) else ((BCM2835_I2C_REASON_OK : Int), s1)

def i2c_tools_set_slave_address (slave_addr : Nat) (s : State) : Int × State :=
  let r := bcm2835_i2c_begin s
  let s1 : State := { r.2 with ret := r.1 }
  if s1.ret < 0 then (s1.ret, bcm2835_close s1)
  else
    let s2 : State := { s1 with slave_address := slave_addr % 256 }
    ((BCM2835_I2C_REASON_OK : Int), bcm2835_i2c_setSlaveAddress s2.slave_address s2)

def i2c_tools_read_reg (reg_address : Nat) (buffer : Nat → Nat) (length : Nat) (s : State) :
    Int × (Nat → Nat) × State :=
  let w := bcm2835_i2c_write [reg_address % 256] s
  if w.1 % 256 ≠ BCM2835_I2C_REASON_OK then (-3, buffer, w.2)
  else
    let r := bcm2835_i2c_read buffer length w.2
    if r.1 % 256 ≠ BCM2835_I2C_REASON_OK then (-3, r.2.1, r.2.2) else (0, r.2.1, r.2.2)

def i2c_tool_write_reg (reg_address : Nat) (data : Nat) (s : State) : Int × State :=
  let w := bcm2835_i2c_write [reg_address % 256, data % 256] s
  ((w.1 : Int), w.2)

def i2c_tool_read_byte (reg_address : Nat) (s : State) : Nat × State :=
  let r := i2c_tools_read_reg reg_address (s.env.uninit s.trace) 1 s
  (r.2.1 0 % 256, r.2.2)

def i2c_tool_read16 (reg_address : Nat) (s : State) : Nat × State :=
  let r := i2c_tools_read_reg reg_address (s.env.uninit s.trace) 2 s
  ((((r.2.1 0 % 256) <<< 8) ||| (r.2.1 1 % 256)) % 65536, r.2.2)

def i2c_tool_reads16 (reg_address : Nat) (s : State) : Int × State :=
  let r := i2c_tool_read16 reg_address s
  (wrap16 (r.1 : Int), r.2)

def i2c_tool_read16_le (reg_address : Nat) (s : State) : Nat × State :=
  let r := i2c_tool_read16 reg_address s
  let temp := r.1
  (((temp >>> 8) ||| (temp <<< 8)) % 65536, r.2)

def i2c_tool_reads16_le (reg_address : Nat) (s : State) : Int × State :=
  let r := i2c_tool_read16_le reg_address s
  (wrap16 (r.1 : Int), r.2)

def i2c_tool_read24 (reg_address : Nat) (s : State) : Nat × State :=
  let r := i2c_tools_read_reg reg_address (s.env.uninit s.trace) 3 s
  ((((r.2.1 0 % 256) <<< 16) ||| ((r.2.1 1 % 256) <<< 8) ||| (r.2.1 2 % 256)) % 4294967296,
   r.2.2)

def i2c_tool_reads24 (reg_address : Nat) (s : State) : Int × State :=
  let r0 := i2c_tools_read_reg reg_address (s.env.uninit s.trace) 3 s
  let r := i2c_tool_read24 reg_address r0.2.2
  (wrap32 (r.1 : Int), r.2)

/-! ## bme280.c -/

/-- The packed coefficient `dig_H4` of `bme280_read_coefficients`, from the bytes read at
`DIG_H4` and `DIG_H4 + 1`: `((int8_t)e4 << 4) | (e5 & 0xF)`, stored in an `int16_t`. -/
def assemble_H4 (e4 e5 : Nat) : Int :=
  wrap16 (or32 (shl32 (wrap8 (e4 : Int)) 4) ((e5 &&& 0xF : Nat) : Int))

/-- The packed coefficient `dig_H5` of `bme280_read_coefficients`, from the bytes read at
`DIG_H5 + 1` and `DIG_H5`: `((int8_t)e6 << 4) | (e5 >> 4)`, stored in an `int16_t`. -/
def assemble_H5 (e6 e5 : Nat) : Int :=
  wrap16 (or32 (shl32 (wrap8 (e6 : Int)) 4) ((e5 >>> 4 : Nat) : Int))

/-- Reads every coefficient in source order (the operands of `|` left to right); the reads do
not touch `bme280_calib`, so the eighteen assignments are gathered at the end. -/
def bme280_read_coefficients (s : State) : State :=
  let s0 := (i2c_tools_set_slave_address s.bme280_slave_addr s).2
  let t1 := i2c_tool_read16_le BME280_REGISTER_DIG_T1 s0
  let t2 := i2c_tool_reads16_le BME280_REGISTER_DIG_T2 t1.2
  let t3 := i2c_tool_reads16_le BME280_REGISTER_DIG_T3 t2.2
  let p1 := i2c_tool_read16_le BME280_REGISTER_DIG_P1 t3.2
  let p2 := i2c_tool_reads16_le BME280_REGISTER_DIG_P2 p1.2
  let p3 := i2c_tool_reads16_le BME280_REGISTER_DIG_P3 p2.2
  let p4 := i2c_tool_reads16_le BME280_REGISTER_DIG_P4 p3.2
  let p5 := i2c_tool_reads16_le BME280_REGISTER_DIG_P5 p4.2
  let p6 := i2c_tool_reads16_le BME280_REGISTER_DIG_P6 p5.2
  let p7 := i2c_tool_reads16_le BME280_REGISTER_DIG_P7 p6.2
  let p8 := i2c_tool_reads16_le BME280_REGISTER_DIG_P8 p7.2
  let p9 := i2c_tool_reads16_le BME280_REGISTER_DIG_P9 p8.2
  let h1 := i2c_tool_read_byte BME280_REGISTER_DIG_H1 p9.2
  let h2 := i2c_tool_reads16_le BME280_REGISTER_DIG_H2 h1.2
  let h3 := i2c_tool_read_byte BME280_REGISTER_DIG_H3 h2.2
  let h4a := i2c_tool_read_byte BME280_REGISTER_DIG_H4 h3.2
  let h4b := i2c_tool_read_byte (BME280_REGISTER_DIG_H4 + 1) h4a.2
  let h5a := i2c_tool_read_byte (BME280_REGISTER_DIG_H5 + 1) h4b.2
  let h5b := i2c_tool_read_byte BME280_REGISTER_DIG_H5 h5a.2
  let h6 := i2c_tool_read_byte BME280_REGISTER_DIG_H6 h5b.2
  { h6.2 with
    bme280_calib :=
      { dig_T1 := (t1.1 : Int), dig_T2 := t2.1, dig_T3 := t3.1,
        dig_P1 := (p1.1 : Int), dig_P2 := p2.1, dig_P3 := p3.1, dig_P4 := p4.1,
        dig_P5 := p5.1, dig_P6 := p6.1, dig_P7 := p7.1, dig_P8 := p8.1, dig_P9 := p9.1,
        dig_H1 := (h1.1 : Int), dig_H2 := h2.1, dig_H3 := (h3.1 : Int),
        dig_H4 := assemble_H4 h4a.1 h4b.1,
        dig_H5 := assemble_H5 h5a.1 h5b.1,
        dig_H6 := wrap8 (h6.1 : Int) } }

/-- The fine temperature of `bme280_read_temperature` (the statements from `var1 = ...` to
`t_fine = ...`), from the shifted raw code and the calibration. -/
def compensate_T_fine (adc_T : Int) (c : bme280_calib_data_t) : Int :=
  let var1 := sub32 (div32 adc_T 8) (mul32 c.dig_T1 2)
  let var1 := div32 (mul32 var1 c.dig_T2) 2048
  let var2 := sub32 (div32 adc_T 16) c.dig_T1
  let var2 := div32 (mul32 (div32 (mul32 var2 var2) 4096) c.dig_T3) 16384
  add32 (add32 var1 var2) t_fine_adjust

/-- The integer `T` of `bme280_read_temperature`: hundredths of a degree. -/
def compensate_T (t_fine : Int) : Int := div32 (add32 (mul32 t_fine 5) 128) 256

def bme280_read_temperature (s : State) : ℚ × State :=
  let s1 := (i2c_tools_set_slave_address s.bme280_slave_addr s).2
  if s1.meas_reg.osrs_t = SAMPLING_NONE then (0, s1)
  else
    let r := i2c_tool_read24 BME280_REGISTER_TEMPDATA s1
    let adc_T : Int := wrap32 (r.1 : Int)
    let adc_T : Int := adc_T >>> (4 : Nat)
    let s2 : State := { r.2 with t_fine := compensate_T_fine adc_T r.2.bme280_calib }
    let T := compensate_T s2.t_fine
    ((T : ℚ) / 100, s2)

/-- The normalisation term of `bme280_read_pressure`: the value of `var1` that is tested
against zero and then divides. -/
def compensate_P_var1 (t_fine : Int) (c : bme280_calib_data_t) : Int :=
  let var1 := sub64 t_fine 128000
  let var1 := add64 (cdiv64 (mul64 (mul64 var1 var1) c.dig_P3) 256)
    (mul64 (mul64 var1 c.dig_P2) 4096)
  let var3 := mul64 1 140737488355328
  cdiv64 (mul64 (add64 var3 var1) c.dig_P1) 8589934592

/-- The term `var2` of `bme280_read_pressure` before the zero test. -/
def compensate_P_var2 (t_fine : Int) (c : bme280_calib_data_t) : Int :=
  let var1 := sub64 t_fine 128000
  let var2 := mul64 (mul64 var1 var1) c.dig_P6
  let var2 := add64 var2 (mul64 (mul64 var1 c.dig_P5) 131072)
  add64 var2 (mul64 c.dig_P4 34359738368)

/-- The final integer `var4` of `bme280_read_pressure`: the statements after the zero test,
the first of which divides by `var1`. -/
def compensate_P_var4 (t_fine adc_P : Int) (c : bme280_calib_data_t) : Option Int :=
  let var2 := compensate_P_var2 t_fine c
  let var1 := compensate_P_var1 t_fine c
  let var4 := sub32 1048576 adc_P
  (div64 (mul64 (sub64 (mul64 var4 2147483648) var2) 3125) var1).map fun var4 =>
    let var1 := cdiv64 (mul64 (mul64 c.dig_P9 (cdiv64 var4 8192)) (cdiv64 var4 8192)) 33554432
    let var2 := cdiv64 (mul64 c.dig_P8 var4) 524288
    add64 (cdiv64 (add64 (add64 var4 var1) var2) 256) (mul64 c.dig_P7 16)

/-- The arithmetic of `bme280_read_pressure` after the raw pressure code is read: the zero
test on `var1`, then the division. -/
def compensate_P (t_fine adc_P : Int) (c : bme280_calib_data_t) : Option ℚ :=
  if compensate_P_var1 t_fine c = 0 then some 0
  else (compensate_P_var4 t_fine adc_P c).map fun var4 => (var4 : ℚ) / 256

def bme280_read_pressure (s : State) : Option (ℚ × State) :=
  let s1 := (i2c_tools_set_slave_address s.bme280_slave_addr s).2
  if s1.meas_reg.osrs_p = SAMPLING_NONE then some (0, s1)
  else
    let s2 := (bme280_read_temperature s1).2
    let r := i2c_tool_read24 BME280_REGISTER_PRESSUREDATA s2
    let adc_P : Int := wrap32 (r.1 : Int)
    let adc_P : Int := adc_P >>> (4 : Nat)
    (compensate_P r.2.t_fine adc_P r.2.bme280_calib).map fun p => (p, r.2)

/-- The value of `var5` in `bme280_read_humidity` before it is clamped. -/
def compensate_H_var5 (t_fine adc_H : Int) (c : bme280_calib_data_t) : Int :=
  let var1 := sub32 t_fine 76800
  let var2 := mul32 adc_H 16384
  let var3 := mul32 c.dig_H4 1048576
  let var4 := mul32 c.dig_H5 var1
  let var5 := div32 (add32 (sub32 (sub32 var2 var3) var4) 16384) 32768
  let var2 := div32 (mul32 var1 c.dig_H6) 1024
  let var3 := div32 (mul32 var1 c.dig_H3) 2048
  let var4 := add32 (div32 (mul32 var2 (add32 var3 32768)) 1024) 2097152
  let var2 := div32 (add32 (mul32 var4 c.dig_H2) 8192) 16384
  let var3 := mul32 var5 var2
  let var4 := div32 (mul32 (div32 var3 32768) (div32 var3 32768)) 128
  sub32 var3 (div32 (mul32 var4 c.dig_H1) 16)

/-- The two clamping statements of `bme280_read_humidity`. -/
def humidity_clamp (var5 : Int) : Int :=
  let var5 := if var5 < 0 then 0 else var5
  if var5 > 419430400 then 419430400 else var5

/-- The integer `H` of `bme280_read_humidity`, from the value of `var5` before the clamp. -/
def humidity_H (var5 : Int) : Nat := toU32 (div32 (humidity_clamp var5) 4096)

/-- The value `bme280_read_humidity` returns, from the value of `var5` before the clamp. -/
def humidity_result (var5 : Int) : ℚ := (humidity_H var5 : ℚ) / 1024

def bme280_read_humidity (s : State) : ℚ × State :=
  let s1 := (i2c_tools_set_slave_address s.bme280_slave_addr s).2
  if s1.hum_reg.osrs_h = SAMPLING_NONE then (0, s1)
  else
    let s2 := (bme280_read_temperature s1).2
    let r := i2c_tool_read16 BME280_REGISTER_HUMIDDATA s2
    let adc_H : Int := (r.1 : Int)
    (humidity_result (compensate_H_var5 r.2.t_fine adc_H r.2.bme280_calib), r.2)

/-! ## Reference definitions of the specification -/

/-- The fine temperature of the reference formula, over unbounded integers, every division
truncating toward zero and the adjustment bias being 0. -/
def spec_t_fine (adc T1 T2 T3 : Int) : Int :=
  Int.tdiv ((Int.tdiv adc 8 - 2 * T1) * T2) 2048 +
    Int.tdiv (Int.tdiv ((Int.tdiv adc 16 - T1) * (Int.tdiv adc 16 - T1)) 4096 * T3) 16384 + 0

/-- The hundredths of a degree of the reference formula, over unbounded integers. -/
def spec_T (t_fine : Int) : Int := Int.tdiv (t_fine * 5 + 128) 256

/-- Every intermediate value of the reference temperature formula fits `int32_t`. -/
def tempInRange (adc T1 T2 T3 : Int) : Prop :=
  inInt32 (2 * T1) ∧ inInt32 (Int.tdiv adc 8 - 2 * T1) ∧
  inInt32 ((Int.tdiv adc 8 - 2 * T1) * T2) ∧ inInt32 (Int.tdiv adc 16 - T1) ∧
  inInt32 ((Int.tdiv adc 16 - T1) * (Int.tdiv adc 16 - T1)) ∧
  inInt32 (Int.tdiv ((Int.tdiv adc 16 - T1) * (Int.tdiv adc 16 - T1)) 4096 * T3) ∧
  inInt32 (spec_t_fine adc T1 T2 T3) ∧ inInt32 (spec_t_fine adc T1 T2 T3 * 5) ∧
  inInt32 (spec_t_fine adc T1 T2 T3 * 5 + 128)

instance (adc T1 T2 T3 : Int) : Decidable (tempInRange adc T1 T2 T3) := by
  unfold tempInRange; infer_instance

/-- The 12-bit two's-complement value of a bit pattern. -/
def signed12 (x : Nat) : Int :=
  if x % 4096 < 2048 then ((x % 4096 : Nat) : Int) else ((x % 4096 : Nat) : Int) - 4096

/-- The byte swap of a 16-bit value. -/
def swap16 (x : Nat) : Nat := (x % 256) * 256 + (x / 256) % 256

/-- The raw temperature code `adc_T` (after `adc_T >>= 4`) that a call of
`bme280_read_temperature` started in `s` reads from the bus. -/
def raw_adc_T (s : State) : Int :=
  let s1 := (i2c_tools_set_slave_address s.bme280_slave_addr s).2
  wrap32 ((i2c_tool_read24 BME280_REGISTER_TEMPDATA s1).1 : Int) >>> (4 : Nat)

/-- The raw temperature code that the temperature read nested in a call of
`bme280_read_pressure` or `bme280_read_humidity` started in `s` reads from the bus. -/
def nested_adc_T (s : State) : Int :=
  raw_adc_T (i2c_tools_set_slave_address s.bme280_slave_addr s).2

/-- The session after the temperature read nested in a call of `bme280_read_pressure` or
`bme280_read_humidity` started in `s`. -/
def after_nested_temperature (s : State) : State :=
  (bme280_read_temperature (i2c_tools_set_slave_address s.bme280_slave_addr s).2).2

/-- The raw pressure code `adc_P` (after `adc_P >>= 4`) that a call of `bme280_read_pressure`
started in `s` reads from the bus. -/
def raw_adc_P (s : State) : Int :=
  wrap32 ((i2c_tool_read24 BME280_REGISTER_PRESSUREDATA (after_nested_temperature s)).1 : Int)
    >>> (4 : Nat)

/-- The raw humidity code `adc_H` that a call of `bme280_read_humidity` started in `s` reads
from the bus. -/
def raw_adc_H (s : State) : Int :=
  ((i2c_tool_read16 BME280_REGISTER_HUMIDDATA (after_nested_temperature s)).1 : Int)

/-- The bus acknowledges the register-address write for `reg` issued in `s`, the following
read of `bs.length` bytes succeeds, and it delivers the bytes `bs`. -/
def busReturns (s : State) (reg : Nat) (bs : List Nat) : Prop :=
  s.env.write_ret s.trace [reg % 256] % 256 = BCM2835_I2C_REASON_OK ∧
  s.env.read_ret (BusOp.write [reg % 256] :: s.trace) bs.length % 256 = BCM2835_I2C_REASON_OK ∧
  (List.range bs.length).map
    (fun i => s.env.read_data (BusOp.write [reg % 256] :: s.trace) bs.length i % 256) = bs

instance (s : State) (reg : Nat) (bs : List Nat) : Decidable (busReturns s reg bs) := by
  unfold busReturns; infer_instance

/-- The device answers every read from a fixed register file: a register-address write is
acknowledged and the read that follows delivers the registers from that address on. -/
def Env.servesRegisters (e : Env) (reg : Nat → Nat) : Prop :=
  ∀ (tr : List BusOp) (r n i : Nat),
    e.write_ret tr [r] % 256 = BCM2835_I2C_REASON_OK ∧
    e.read_data (BusOp.write [r] :: tr) n i % 256 = reg (r + i) % 256

/-! ## Concrete environments and states -/

/-- The register addressed by the most recent register-address write. -/
def regPointer : List BusOp → Nat
  | BusOp.write (r :: _) :: _ => r
  | _ => 0

/-- A transport that never fails, in front of a device with the fixed register file `reg`. -/
def regFileEnv (reg : Nat → Nat) : Env where
  init_ret := fun _ => 1
  begin_ret := fun _ => 1
  write_ret := fun _ _ => 0
  read_ret := fun _ _ => 0
  read_data := fun tr _ i => reg (regPointer tr + i)
  uninit := fun _ _ => 0

/-- A transport on which every transfer fails with status 1 and no data arrives. -/
def deadEnv (junk : Nat) : Env where
  init_ret := fun _ => 1
  begin_ret := fun _ => 1
  write_ret := fun _ _ => 1
  read_ret := fun _ _ => 1
  read_data := fun _ _ _ => 0
  uninit := fun _ _ => junk

/-- The trimming values of the worked example: T1 = 27504, T2 = 26435, T3 = -1000, with
typical pressure and humidity coefficients. -/
def fixtureCalib : bme280_calib_data_t where
  dig_T1 := 27504
  dig_T2 := 26435
  dig_T3 := -1000
  dig_P1 := 36477
  dig_P2 := -10685
  dig_P3 := 3024
  dig_P4 := 2855
  dig_P5 := 140
  dig_P6 := -7
  dig_P7 := 15500
  dig_P8 := -14600
  dig_P9 := 6000
  dig_H1 := 75
  dig_H2 := 362
  dig_H3 := 0
  dig_H4 := 315
  dig_H5 := 50
  dig_H6 := 30

/-- The fixture calibration with `dig_P1 = 0`, which forces the normalisation term to 0. -/
def degenerateCalib : bme280_calib_data_t := { fixtureCalib with dig_P1 := 0 }

/-- Data registers of the worked example: raw temperature 0x7EED0 (519888), raw pressure
0x655AC (415148), raw humidity 0x7B2A; packed humidity trimming bytes at 0xE4..0xE6. -/
def fixtureRegs (r : Nat) : Nat :=
  if r = 0xFA then 0x7E else if r = 0xFB then 0xED else if r = 0xFC then 0x00
  else if r = 0xF7 then 0x65 else if r = 0xF8 then 0x5A else if r = 0xF9 then 0xC0
  else if r = 0xFD then 0x7B else if r = 0xFE then 0x2A
  else if r = 0xE4 then 0x93 else if r = 0xE5 then 0xA7 else if r = 0xE6 then 0x81
  else 0

/-- A session on the fixture device with the given oversampling selections and fine
temperature. -/
def fixtureState (osrs_t osrs_p osrs_h : Nat) (t_fine : Int) : State where
  env := regFileEnv fixtureRegs
  trace := []
  slave_address := 0x76
  ret := 0
  bme280_calib := fixtureCalib
  t_fine := t_fine
  configReg := { t_sb := 0, filter := 0, none := 0, spi3w_en := 0 }
  meas_reg := { osrs_t := osrs_t, osrs_p := osrs_p, mode := MODE_NORMAL }
  hum_reg := { none := 0, osrs_h := osrs_h }
  bme280_slave_addr := 0x76
  mpu6050_slave_addr := 0x68

/-- The fixture session, all channels enabled, with the degenerate calibration. -/
def degenerateState : State := { fixtureState 5 5 5 0 with bme280_calib := degenerateCalib }

/-! ## bme280.c: initialisation

Diagnostic output (`printf`, `fprintf`) is not modelled. -/

/-- Bitwise and of two `int`, on their 32-bit two's-complement patterns. -/
def and32 (a b : Int) : Int := wrap32 ((toU32 a &&& toU32 b : Nat) : Int)

/-- Bitwise complement of an `int`. -/
def not32 (a : Int) : Int := wrap32 (-a - 1)

def bme280_reset (s : State) : Int × State :=
  let s1 := (i2c_tools_set_slave_address s.bme280_slave_addr s).2
  let r := i2c_tool_write_reg BME280_REGISTER_SOFTRESET 0xB6 s1
  if r.1 ≠ 0 then (r.1, r.2) else (0, r.2)

def bme280_in_calibration (s : State) : Int × State :=
  let s1 := (i2c_tools_set_slave_address s.bme280_slave_addr s).2
  let r := i2c_tool_read_byte BME280_REGISTER_STATUS s1
  (if r.1 &&& (1 <<< 0) ≠ 0 then 1 else 0, r.2)

/-- The bit-field assignments store the enumerators truncated to the field width. -/
def bme280_set_sampling (s : State) : State :=
  let s1 := (i2c_tools_set_slave_address s.bme280_slave_addr s).2
  let s2 : State :=
    { s1 with
      meas_reg := { osrs_t := SAMPLING_X16 % 8, osrs_p := SAMPLING_X16 % 8,
                    mode := MODE_NORMAL % 4 }
      hum_reg := { s1.hum_reg with osrs_h := SAMPLING_X16 % 8 }
      configReg := { s1.configReg with
                     filter := FILTER_OFF % 8, t_sb := STANDBY_MS_0_5 % 8, spi3w_en := 0 % 2 } }
  let s3 := (i2c_tool_write_reg BME280_REGISTER_CONTROL MODE_SLEEP s2).2
  let hum_data := s3.hum_reg.osrs_h % 256
  let config_data :=
    ((s3.configReg.t_sb <<< 5) ||| (s3.configReg.filter <<< 2) ||| s3.configReg.spi3w_en) % 256
  let meas_data :=
    ((s3.meas_reg.osrs_t <<< 5) ||| (s3.meas_reg.osrs_p <<< 2) ||| s3.meas_reg.mode) % 256
  let s4 := (i2c_tool_write_reg BME280_REGISTER_CONTROLHUMID hum_data s3).2
  let s5 := (i2c_tool_write_reg BME280_REGISTER_CONFIG config_data s4).2
  (i2c_tool_write_reg BME280_REGISTER_CONTROL meas_data s5).2

/-- The statements of `bme280_init` before the chip-ID read: bus set-up, address selection,
soft reset and the 2 ms delay. The first component is the value `bme280_init` returns at once
when it is non-zero. -/
def bme280_init_setup (slave : Nat) (s : State) : Int × State :=
  let r := i2c_tools_init s
  if r.1 ≠ (BCM2835_I2C_REASON_OK : Int) then (r.1, r.2)
  else
    let r := i2c_tools_set_slave_address slave r.2
    if r.1 ≠ (BCM2835_I2C_REASON_OK : Int) then (r.1, r.2)
    else
      let s1 : State := { r.2 with bme280_slave_addr := slave % 256 }
      let r := bme280_reset s1
      if r.1 ≠ 0 then (r.1, r.2) else (0, bcm2835_delay 2 r.2)

def bme280_init (slave : Nat) (s : State) : Int × State :=
  let r := bme280_init_setup slave s
  if r.1 ≠ 0 then (r.1, r.2)
  else
    let c := i2c_tool_read_byte BME280_REGISTER_CHIPID r.2
    let chip_id := c.1
    if chip_id = 0x60 then (0, c.2)
    else if chip_id = 0x58 then (0, c.2)
    else (-1, c.2)

/-- The loop `while (bme280_in_calibration() != 0) bcm2835_delay(10);` of `bme280_begin`,
with at most `fuel` polls of the status register; `none` when the fuel runs out. -/
def bme280_wait_calibration : Nat → State → Option State
  | 0, _ => none
  | fuel + 1, s =>
    let r := bme280_in_calibration s
    if r.1 ≠ 0 then bme280_wait_calibration fuel (bcm2835_delay 10 r.2) else some r.2

/-- The call returns `none` when the calibration wait does not end within `fuel` polls. -/
def bme280_begin (fuel : Nat) (slave : Nat) (s : State) : Option (Int × State) :=
  let r := bme280_init slave s
  if r.1 ≠ 0 then some (-1, r.2)
  else
    (bme280_wait_calibration fuel r.2).map fun s1 =>
      let s2 := bme280_read_coefficients s1
      let s3 := bme280_set_sampling s2
      (0, bcm2835_delay 100 s3)

/-! ## mpu6050.h, mpu6050.c -/

def MPU6050_GYRO_CONFIG : Nat := 0x1B
def MPU6050_ACCEL_CONFIG : Nat := 0x1C
def MPU6050_ACCEL_XOUT_H : Nat := 0x3B
def MPU6050_GYRO_XOUT_H : Nat := 0x43
def MPU6050_PWR_MGMT_1 : Nat := 0x6B
def MPU6050_WHO_AM_I : Nat := 0x75

def MPU6050_RANGE_2_G : Nat := 0
def MPU6050_RANGE_4_G : Nat := 1
def MPU6050_RANGE_8_G : Nat := 2
def MPU6050_RANGE_16_G : Nat := 3

def MPU6050_RANGE_250_DEG : Nat := 0
def MPU6050_RANGE_500_DEG : Nat := 1
def MPU6050_RANGE_1000_DEG : Nat := 2
def MPU6050_RANGE_2000_DEG : Nat := 3

def BIT3 : Int := shl32 1 3
def BIT4 : Int := shl32 1 4
def BIT6 : Int := shl32 1 6

structure mpu6050_raw_acce_value_t where
  raw_acce_x : Int
  raw_acce_y : Int
  raw_acce_z : Int
  deriving DecidableEq, Repr

structure mpu6050_raw_gyro_value_t where
  raw_gyro_x : Int
  raw_gyro_y : Int
  raw_gyro_z : Int
  deriving DecidableEq, Repr

structure mpu6050_acce_value_t where
  acce_x : ℚ
  acce_y : ℚ
  acce_z : ℚ

structure mpu6050_gyro_value_t where
  gyro_x : ℚ
  gyro_y : ℚ
  gyro_z : ℚ

/-- The buffer is declared with the initialiser `{0}`. -/
def mpu6050_get_raw_gyro (s : State) : mpu6050_raw_gyro_value_t × State :=
  let r := i2c_tools_read_reg MPU6050_GYRO_XOUT_H (fun _ => 0) 6 s
  let buffer := r.2.1
  ({ raw_gyro_x := wrap16 ((((buffer 0 % 256) <<< 8) + (buffer 1 % 256) : Nat) : Int)
     raw_gyro_y := wrap16 ((((buffer 2 % 256) <<< 8) + (buffer 3 % 256) : Nat) : Int)
     raw_gyro_z := wrap16 ((((buffer 4 % 256) <<< 8) + (buffer 5 % 256) : Nat) : Int) },
   r.2.2)

/-- The buffer is declared with the initialiser `{0}`. -/
def mpu6050_get_raw_acce (s : State) : mpu6050_raw_acce_value_t × State :=
  let r := i2c_tools_read_reg MPU6050_ACCEL_XOUT_H (fun _ => 0) 6 s
  let buffer := r.2.1
  ({ raw_acce_x := wrap16 ((((buffer 0 % 256) <<< 8) + (buffer 1 % 256) : Nat) : Int)
     raw_acce_y := wrap16 ((((buffer 2 % 256) <<< 8) + (buffer 3 % 256) : Nat) : Int)
     raw_acce_z := wrap16 ((((buffer 4 % 256) <<< 8) + (buffer 5 % 256) : Nat) : Int) },
   r.2.2)

/-- The `switch` of `mpu6050_get_acce_sensitivity` on the range field. -/
def acce_sensitivity_of (acce_fs : Nat) : ℚ :=
  if acce_fs = MPU6050_RANGE_2_G then 16384
  else if acce_fs = MPU6050_RANGE_4_G then 8192
  else if acce_fs = MPU6050_RANGE_8_G then 4096
  else if acce_fs = MPU6050_RANGE_16_G then 2048
  else 0

/-- The `switch` of `mpu6050_get_gyro_sensitivity` on the range field. -/
def gyro_sensitivity_of (gyro_fs : Nat) : ℚ :=
  if gyro_fs = MPU6050_RANGE_250_DEG then 131
  else if gyro_fs = MPU6050_RANGE_500_DEG then 65.5
  else if gyro_fs = MPU6050_RANGE_1000_DEG then 32.8
  else if gyro_fs = MPU6050_RANGE_2000_DEG then 16.4
  else 0

def mpu6050_get_acce_sensitivity (s : State) : ℚ × State :=
  let s1 := (i2c_tools_set_slave_address s.mpu6050_slave_addr s).2
  let r := i2c_tool_read_byte MPU6050_ACCEL_CONFIG s1
  let acce_fs := ((r.1 >>> 3) &&& 0x03) % 256
  (acce_sensitivity_of acce_fs, r.2)

def mpu6050_get_gyro_sensitivity (s : State) : ℚ × State :=
  let s1 := (i2c_tools_set_slave_address s.mpu6050_slave_addr s).2
  let r := i2c_tool_read_byte MPU6050_ACCEL_CONFIG s1
  let gyro_fs := ((r.1 >>> 3) &&& 0x03) % 256
  (gyro_sensitivity_of gyro_fs, r.2)

/-- The value structure is `none` when the divisor is 0, where the float quotients are not
finite numbers. -/
def mpu6050_get_gyro (s : State) : Int × Option mpu6050_gyro_value_t × State :=
  let g := mpu6050_get_gyro_sensitivity s
  let gyro_sensitivity := g.1
  let r := mpu6050_get_raw_gyro g.2
  let raw_gyro := r.1
  (0,
   if gyro_sensitivity = 0 then none
   else some { gyro_x := (raw_gyro.raw_gyro_x : ℚ) / gyro_sensitivity
               gyro_y := (raw_gyro.raw_gyro_y : ℚ) / gyro_sensitivity
               gyro_z := (raw_gyro.raw_gyro_z : ℚ) / gyro_sensitivity },
   r.2)

/-- The value structure is `none` when the divisor is 0, where the float quotients are not
finite numbers. -/
def mpu6050_get_acce (s : State) : Int × Option mpu6050_acce_value_t × State :=
  let a := mpu6050_get_acce_sensitivity s
  let acce_sensitivity := a.1
  let r := mpu6050_get_raw_acce a.2
  let raw_acce := r.1
  (0,
   if acce_sensitivity = 0 then none
   else some { acce_x := (raw_acce.raw_acce_x : ℚ) / acce_sensitivity
               acce_y := (raw_acce.raw_acce_y : ℚ) / acce_sensitivity
               acce_z := (raw_acce.raw_acce_z : ℚ) / acce_sensitivity },
   r.2)

/-- The byte `tmp` that `mpu6050_set_gyro_fs` and `mpu6050_set_acce_fs` write back:
`tmp &= ~BIT3; tmp &= ~BIT4; tmp |= (fs << 3);` on a `uint8_t`. -/
def range_bits (tmp : Nat) (fs : Nat) : Nat :=
  let tmp := toU8 (and32 (tmp : Int) (not32 BIT3))
  let tmp := toU8 (and32 (tmp : Int) (not32 BIT4))
  toU8 (or32 (tmp : Int) (shl32 (fs : Int) 3))

def mpu6050_set_gyro_fs (gyro_fs : Nat) (s : State) : Int × State :=
  let s1 := (i2c_tools_set_slave_address s.mpu6050_slave_addr s).2
  let r := i2c_tool_read_byte MPU6050_GYRO_CONFIG s1
  i2c_tool_write_reg MPU6050_GYRO_CONFIG (range_bits r.1 gyro_fs) r.2

def mpu6050_set_acce_fs (acce_fs : Nat) (s : State) : Int × State :=
  let s1 := (i2c_tools_set_slave_address s.mpu6050_slave_addr s).2
  let r := i2c_tool_read_byte MPU6050_ACCEL_CONFIG s1
  i2c_tool_write_reg MPU6050_ACCEL_CONFIG (range_bits r.1 acce_fs) r.2

def mpu6050_wake_up (s : State) : Int × State :=
  let s1 := (i2c_tools_set_slave_address s.mpu6050_slave_addr s).2
  let r := i2c_tool_read_byte MPU6050_PWR_MGMT_1 s1
  let tmp := toU8 (and32 (r.1 : Int) (not32 BIT6))
  i2c_tool_write_reg MPU6050_PWR_MGMT_1 tmp r.2

/-- The statements of `mpu6050_init` before the identity read: bus set-up and address
selection. The first component is the value `mpu6050_init` returns at once when it is
non-zero. -/
def mpu6050_init_setup (slave : Nat) (s : State) : Int × State :=
  let r := i2c_tools_init s
  if r.1 ≠ (BCM2835_I2C_REASON_OK : Int) then (r.1, r.2)
  else
    let r := i2c_tools_set_slave_address slave r.2
    if r.1 ≠ (BCM2835_I2C_REASON_OK : Int) then (r.1, r.2)
    else (0, { r.2 with mpu6050_slave_addr := slave % 256 })

def mpu6050_init (slave : Nat) (s : State) : Int × State :=
  let r := mpu6050_init_setup slave s
  if r.1 ≠ 0 then (r.1, r.2)
  else
    let c := i2c_tool_read_byte MPU6050_WHO_AM_I r.2
    let chip_id := c.1
    if chip_id = 0x68 then (0, c.2)
    else if chip_id = 0x58 then (0, c.2)
    else (-1, c.2)

def mpu6050_begin (slave : Nat) (s : State) : Int × State :=
  let r := mpu6050_init slave s
  if r.1 ≠ 0 then (-1, r.2)
  else (0, (mpu6050_wake_up r.2).2)

/-! ## Devices, addressing and failed transactions -/

/-- The 24-bit two's-complement value of a bit pattern below 2^24. -/
def signed24 (w : Nat) : Int := if w < 2 ^ 23 then (w : Int) else (w : Int) - 2 ^ 24

/-- Effect of one call on the registers of a device: an acknowledged two-byte write
(register address, data) stores the data byte; `st` gives the status of a write. -/
def applyWrite (st : List BusOp → List Nat → Nat) (tr : List BusOp) (op : BusOp)
    (regs : Nat → Nat) : Nat → Nat :=
  match op with
  | BusOp.write [a, v] =>
    if st tr [a, v] % 256 = BCM2835_I2C_REASON_OK then fun x => if x = a then v else regs x
    else regs
  | _ => regs

/-- The registers of a device that started with `init`, after the calls `tr` (newest
first). -/
def regsAfter (st : List BusOp → List Nat → Nat) (init : Nat → Nat) :
    List BusOp → Nat → Nat
  | [] => init
  | op :: tr => applyWrite st tr op (regsAfter st init tr)

/-- The device keeps a register file that starts as `init`: a register-address write is
acknowledged, the read that follows delivers the current registers from that address on,
and an acknowledged two-byte write stores its data byte. -/
def Env.storesRegisters (e : Env) (init : Nat → Nat) : Prop :=
  ∀ (tr : List BusOp) (r n i : Nat),
    e.write_ret tr [r] % 256 = BCM2835_I2C_REASON_OK ∧
    e.read_data (BusOp.write [r] :: tr) n i % 256 = regsAfter e.write_ret init tr (r + i) % 256

/-- The device address selected on the bus after the calls `tr` (newest first). -/
def selectedAddress : List BusOp → Option Nat
  | [] => none
  | BusOp.setSlaveAddress a :: _ => some a
  | _ :: tr => selectedAddress tr

/-- Every bus transaction of `tr` with the device address selected at its moment, newest
first. -/
def addressing : List BusOp → List (BusOp × Option Nat)
  | [] => []
  | op :: tr =>
    if op.isTransaction then (op, selectedAddress tr) :: addressing tr else addressing tr

/-- Whether the call `op`, made after the calls `tr`, is a bus transaction that fails. -/
def transactionFailed (e : Env) (tr : List BusOp) (op : BusOp) : Bool :=
  match op with
  | BusOp.write bs => e.write_ret tr bs % 256 != BCM2835_I2C_REASON_OK
  | BusOp.read n => e.read_ret tr n % 256 != BCM2835_I2C_REASON_OK
  | _ => false

/-- The bus transactions of `tr` that failed, newest first. -/
def failedTransactions (e : Env) : List BusOp → List BusOp
  | [] => []
  | op :: tr =>
    if transactionFailed e tr op then op :: failedTransactions e tr
    else failedTransactions e tr

/-- A transport in front of a device that keeps the register file `init` and does not
acknowledge the writes selected by `nack`. -/
def deviceEnv (init : Nat → Nat) (nack : List Nat → Bool) : Env where
  init_ret := fun _ => 1
  begin_ret := fun _ => 1
  write_ret := fun _ bs => if nack bs then 1 else 0
  read_ret := fun _ _ => 0
  read_data := fun tr _ i =>
    regsAfter (fun _ bs => if nack bs then 1 else 0) init tr (regPointer tr + i)
  uninit := fun _ _ => 0

/-- The session at program start: every file-scope variable is zero. -/
def bootState (e : Env) : State where
  env := e
  trace := []
  slave_address := 0
  ret := 0
  bme280_calib :=
    { dig_T1 := 0, dig_T2 := 0, dig_T3 := 0, dig_P1 := 0, dig_P2 := 0, dig_P3 := 0,
      dig_P4 := 0, dig_P5 := 0, dig_P6 := 0, dig_P7 := 0, dig_P8 := 0, dig_P9 := 0,
      dig_H1 := 0, dig_H2 := 0, dig_H3 := 0, dig_H4 := 0, dig_H5 := 0, dig_H6 := 0 }
  t_fine := 0
  configReg := { t_sb := 0, filter := 0, none := 0, spi3w_en := 0 }
  meas_reg := { osrs_t := 0, osrs_p := 0, mode := 0 }
  hum_reg := { none := 0, osrs_h := 0 }
  bme280_slave_addr := 0
  mpu6050_slave_addr := 0

/-- Registers of a BME280 that has finished its calibration copy: chip ID 0x60, status 0. -/
def bmeRegs (r : Nat) : Nat := if r = 0xD0 then 0x60 else fixtureRegs r

/-- Registers of a BME280 whose status register reports a calibration copy for ever. -/
def stuckRegs (r : Nat) : Nat := if r = 0xF3 then 1 else bmeRegs r

/-- Registers of a chip that answers the chip-ID read with 0x55. -/
def strangerRegs (r : Nat) : Nat := if r = 0xD0 then 0x55 else 0

/-- Registers of an MPU6050: identity 0x68, every other register 0. -/
def mpuRegs (r : Nat) : Nat := if r = 0x75 then 0x68 else 0

/-- Registers of a chip that answers the identity read with 0x58. -/
def bmpRegs (r : Nat) : Nat := if r = 0x75 then 0x58 else 0

/-- Nothing but the soft-reset command is acknowledged among the two-byte writes. -/
def nackConfigWrites (bs : List Nat) : Bool := bs.length == 2 && bs != [0xE0, 0xB6]

/-- An MPU6050 session (address 0x68) on a bus where the BME280 at 0x76 was addressed
last. -/
def afterBmeState : State :=
  { (bme280_read_temperature (fixtureState 5 5 5 0)).2 with mpu6050_slave_addr := 0x68 }

/-- An initialised MPU6050 session on a device that acknowledges every write. -/
def mpuSession : State :=
  (mpu6050_begin 0x68 (bootState (deviceEnv mpuRegs (fun _ => false)))).2

/-- Registers of an MPU6050 whose GYRO_CONFIG selects 2000 deg/s (0x18). -/
def mpuRegsGyro2000 (r : Nat) : Nat := if r = 0x1B then 0x18 else mpuRegs r

/-- The session in which `bme280_init` calls `bme280_reset`, once bus set-up and address
selection have succeeded. -/
def bme280_reset_session (slave : Nat) (s : State) : State :=
  { (i2c_tools_set_slave_address slave (i2c_tools_init s).2).2 with
    bme280_slave_addr := slave % 256 }

/-- The status the transport gives the soft-reset write (0xE0 <- 0xB6) of `bme280_reset`
called in the session `s`. -/
def soft_reset_status (s : State) : Nat :=
  (i2c_tools_set_slave_address s.bme280_slave_addr s).2.env.write_ret
    (i2c_tools_set_slave_address s.bme280_slave_addr s).2.trace
    [BME280_REGISTER_SOFTRESET % 256, 0xB6 % 256]

/-- The chip-ID read of `bme280_init`: the byte and the session after the read. -/
def chip_id_read (slave : Nat) (s : State) : Nat × State :=
  i2c_tool_read_byte BME280_REGISTER_CHIPID (bme280_init_setup slave s).2

/-- Calibration data and sampling configuration of two sessions coincide. -/
def sameConfig (a b : State) : Prop :=
  a.bme280_calib = b.bme280_calib ∧ a.meas_reg = b.meas_reg ∧ a.hum_reg = b.hum_reg ∧
  a.configReg = b.configReg

/-- A BME280 that delivers its registers while every read transaction reports a failure. -/
def failingReadsEnv : Env :=
  { deviceEnv bmeRegs (fun _ => false) with read_ret := fun _ _ => 1 }

/-- The session at program start in front of a ready BME280 that acknowledges every
write. -/
def bmeBoot : State := bootState (deviceEnv bmeRegs (fun _ => false))

/-- The session at program start in front of a BME280 that does not acknowledge the
soft-reset command. -/
def resetNackBoot : State := bootState (deviceEnv bmeRegs (fun bs => bs == [0xE0, 0xB6]))

/-- The session at program start in front of a BME280 whose status never clears. -/
def stuckBoot : State := bootState (regFileEnv stuckRegs)

/-- The session at program start in front of a chip with chip ID 0x55. -/
def strangerBoot : State := bootState (regFileEnv strangerRegs)

/-- The session `bme280_begin(0x76)` leaves from `bmeBoot`, where the first status poll
already reports the calibration copy as finished. -/
def bmeBegun : State :=
  bcm2835_delay 100 (bme280_set_sampling (bme280_read_coefficients
    (bme280_in_calibration (chip_id_read 0x76 bmeBoot).2).2))

/-! ## bme280.c: altitude -/

/-- The parameter `pow` is the power function of the C library (`math.h`), which is external
to the three modules. The value is `none` when `seaLevel` is 0, where the float quotient is
not a finite number. -/
def bme280_read_altitude (pow : ℚ → ℚ → ℚ) (seaLevel : ℚ) (s : State) :
    Option (Option ℚ × State) :=
  let s1 := (i2c_tools_set_slave_address s.bme280_slave_addr s).2
  (bme280_read_pressure s1).map fun r =>
    let atmospheric := r.1 / 100
    (if seaLevel = 0 then none
     else some (44330 * (1 - pow (atmospheric / seaLevel) 0.1903)), r.2)

/-! ## Reference definitions: frame of the physical reads, ranges, raw axes -/

/-- Whether a call is a register write: a write transaction that carries data after the
register address, as the two bytes (address, data) of `i2c_tool_write_reg`. -/
def BusOp.isRegisterWrite : BusOp → Bool
  | .write bs => decide (1 < bs.length)
  | _ => false

/-- The session `b` comes from the session `a` by calls none of which is a register write,
with the calibration data, the sampling configuration, the stored device addresses of both
drivers and the environment unchanged. The fine temperature is left free, and so are the two
variables of `i2c_tools.c` (`slave_address`, `ret`), which belong to the register-access
layer. -/
def readOnlyStep (a b : State) : Prop :=
  b.bme280_calib = a.bme280_calib ∧ b.meas_reg = a.meas_reg ∧ b.hum_reg = a.hum_reg ∧
  b.configReg = a.configReg ∧ b.bme280_slave_addr = a.bme280_slave_addr ∧
  b.mpu6050_slave_addr = a.mpu6050_slave_addr ∧ b.env = a.env ∧
  ∃ new : List BusOp, b.trace = new ++ a.trace ∧ ∀ op ∈ new, op.isRegisterWrite = false

/-- A register byte with bits 3-4 replaced by the range selector `r`. -/
def with_range (old r : Nat) : Nat := (old &&& 0xE7) ||| (r <<< 3)

/-- The 16-bit two's-complement value of a bit pattern below 2^16. -/
def signed16 (x : Nat) : Int := if x < 32768 then (x : Int) else (x : Int) - 65536

/-- The range field (bits 3-4) of a configuration byte, as the sensitivity look-ups compute
it. -/
def range_field (b : Nat) : Nat := ((b >>> 3) &&& 0x03) % 256

/-- The full scale in g that `mpu6050.h` documents for the enumerators of
`mpu6050_accel_range_t`: plus or minus 2, 4, 8, 16 g. -/
def acce_full_scale (acce_fs : Nat) : ℚ :=
  if acce_fs = MPU6050_RANGE_2_G then 2
  else if acce_fs = MPU6050_RANGE_4_G then 4
  else if acce_fs = MPU6050_RANGE_8_G then 8
  else if acce_fs = MPU6050_RANGE_16_G then 16
  else 0

/-- The three products of the reference temperature formula fit `int32_t`. -/
def tempProductsInRange (adc T1 T2 T3 : Int) : Prop :=
  inInt32 ((Int.tdiv adc 8 - 2 * T1) * T2) ∧
  inInt32 ((Int.tdiv adc 16 - T1) * (Int.tdiv adc 16 - T1)) ∧
  inInt32 (Int.tdiv ((Int.tdiv adc 16 - T1) * (Int.tdiv adc 16 - T1)) 4096 * T3)

instance (adc T1 T2 T3 : Int) : Decidable (tempProductsInRange adc T1 T2 T3) := by
  unfold tempProductsInRange; infer_instance

/-- The trimming values lie in the ranges of their types: `dig_T1` is a `uint16_t`, `dig_T2`
and `dig_T3` are `int16_t`. -/
def tempTrimTyped (T1 T2 T3 : Int) : Prop :=
  (0 ≤ T1 ∧ T1 ≤ 65535) ∧ (-32768 ≤ T2 ∧ T2 ≤ 32767) ∧ (-32768 ≤ T3 ∧ T3 ≤ 32767)

instance (T1 T2 T3 : Int) : Decidable (tempTrimTyped T1 T2 T3) := by
  unfold tempTrimTyped; infer_instance

/-- A calibration within the ranges of its types whose first temperature product leaves
`int32_t` at the largest raw code: T1 = 0, T2 = 32767, T3 = 0. -/
def overflowCalib : bme280_calib_data_t :=
  { fixtureCalib with dig_T1 := 0, dig_T2 := 32767, dig_T3 := 0 }

/-- Data registers that hold the largest raw temperature code, 0xFFFFF. -/
def overflowRegs (r : Nat) : Nat :=
  if r = 0xFA then 0xFF else if r = 0xFB then 0xFF else if r = 0xFC then 0xF0 else 0

/-- A session with the calibration `overflowCalib` in front of the registers
`overflowRegs`. -/
def overflowState : State :=
  { fixtureState 5 5 5 0 with env := regFileEnv overflowRegs, bme280_calib := overflowCalib }

/-- The pressure that `bme280_read_pressure` returns at the fixture session, in the unit of
its result: 3220905/32 = 100653.28125. -/
def fixturePressure : ℚ := 3220905 / 32

/-- Registers of an MPU6050 that delivers the six accelerometer bytes 0x80 0x00, 0x7F 0xFF,
0x12 0x34 and the six gyroscope bytes 0xFF 0xFE, 0x00 0x01, 0x80 0x01, with ACCEL_CONFIG
0xF0 (range field 2) and GYRO_CONFIG 0xE7. -/
def axisRegs (r : Nat) : Nat :=
  if r = 0x3B then 0x80 else if r = 0x3C then 0x00 else if r = 0x3D then 0x7F
  else if r = 0x3E then 0xFF else if r = 0x3F then 0x12 else if r = 0x40 then 0x34
  else if r = 0x43 then 0xFF else if r = 0x44 then 0xFE else if r = 0x45 then 0x00
  else if r = 0x46 then 0x01 else if r = 0x47 then 0x80 else if r = 0x48 then 0x01
  else if r = 0x1C then 0xF0 else if r = 0x1B then 0xE7 else mpuRegs r

/-- An initialised MPU6050 session in front of the registers `axisRegs`. -/
def axisSession : State :=
  (mpu6050_begin 0x68 (bootState (deviceEnv axisRegs (fun _ => false)))).2

/-! ## Reference definitions: the calibration wait -/

/-- The session after `k` busy rounds of the wait loop of `bme280_begin`: each round polls
the status register with `bme280_in_calibration` and then waits 10 ms. -/
def after_polls : Nat → State → State
  | 0, s => s
  | k + 1, s => after_polls k (bcm2835_delay 10 (bme280_in_calibration s).2)

/-- The status register reports the calibration copy as finished at the poll number `n`
(counted from 0) of the wait loop started in `s`, and as running at every poll before. -/
def readyAfter (n : Nat) (s : State) : Prop :=
  (∀ k < n, (bme280_in_calibration (after_polls k s)).1 ≠ 0) ∧
  (bme280_in_calibration (after_polls n s)).1 = 0

instance (n : Nat) (s : State) : Decidable (readyAfter n s) := by
  unfold readyAfter; infer_instance

/-- A transport that never fails, in front of a BME280 whose status register (0xF3) reports
the calibration copy until two 10 ms delays have passed. -/
def slowEnv : Env where
  init_ret := fun _ => 1
  begin_ret := fun _ => 1
  write_ret := fun _ _ => 0
  read_ret := fun _ _ => 0
  read_data := fun tr _ i =>
    if regPointer tr + i = 0xF3 ∧ tr.count (BusOp.delay 10) < 2 then 1
    else bmeRegs (regPointer tr + i)
  uninit := fun _ _ => 0

/-- The session at program start in front of the BME280 of `slowEnv`. -/
def slowBoot : State := bootState slowEnv

/-! ## Auxiliary facts: fixed-width arithmetic -/

theorem wrap32_eq_self {x : Int} (h : inInt32 x) : wrap32 x = x := by
  unfold inInt32 at h
  unfold wrap32
  omega

theorem wrap32_range (x : Int) : -2147483648 ≤ wrap32 x ∧ wrap32 x ≤ 2147483647 := by
  unfold wrap32
  omega

theorem wrap16_cases (u : Int) (h0 : 0 ≤ u) (h1 : u < 65536) :
    wrap16 u = if u < 32768 then u else u - 65536 := by
  unfold wrap16
  split <;> omega

theorem shl8_or (a b : Nat) (hb : b < 256) : (a <<< 8) ||| b = 256 * a + b := by
  have h := Nat.mul_add_lt_is_or (i := 8) (b := b) (by simpa using hb) a
  simp only [Nat.reducePow] at h
  rw [Nat.shiftLeft_eq, Nat.mul_comm a, h]

theorem shl16_shl8_or (a b c : Nat) (hb : b < 256) (hc : c < 256) :
    (a <<< 16) ||| (b <<< 8) ||| c = 65536 * a + 256 * b + c := by
  have h1 := Nat.mul_add_lt_is_or (i := 16) (b := 256 * b) (by simp; omega) a
  have h2 := Nat.mul_add_lt_is_or (i := 8) (b := c) (by simpa using hc) (256 * a + b)
  simp only [Nat.reducePow] at h1 h2
  rw [Nat.shiftLeft_eq, Nat.shiftLeft_eq, Nat.mul_comm a, Nat.mul_comm b]
  simp only [Nat.reducePow]
  rw [← h1]
  have e2 : 65536 * a + 256 * b = 256 * (256 * a + b) := by ring
  rw [e2, ← h2]

theorem swap16_bytes (a b : Nat) (ha : a < 256) (hb : b < 256) :
    swap16 (256 * a + b) = 256 * b + a := by
  unfold swap16
  omega

theorem swap_bits (a b : Nat) (ha : a < 256) (hb : b < 256) :
    (((256 * a + b) >>> 8) ||| ((256 * a + b) <<< 8)) % 65536 = 256 * b + a := by
  have hs : (256 * a + b) >>> 8 = a := by
    rw [Nat.shiftRight_eq_div_pow]
    simp only [Nat.reducePow]
    omega
  have h := Nat.mul_add_lt_is_or (i := 8) (b := a) (by simpa using ha) (256 * a + b)
  simp only [Nat.reducePow] at h
  rw [hs, Nat.shiftLeft_eq, Nat.lor_comm, Nat.mul_comm (256 * a + b)]
  simp only [Nat.reducePow]
  rw [← h]
  omega

/-! ## Auxiliary facts: what the register-access layer leaves unchanged -/

section Frame

variable (a reg n : Nat) (buf : Nat → Nat) (s : State) (t0 : Int)

@[simp] theorem set_slave_address_env : (i2c_tools_set_slave_address a s).2.env = s.env := by
  unfold i2c_tools_set_slave_address; dsimp only; split <;> rfl

@[simp] theorem set_slave_address_calib :
    (i2c_tools_set_slave_address a s).2.bme280_calib = s.bme280_calib := by
  unfold i2c_tools_set_slave_address; dsimp only; split <;> rfl

@[simp] theorem set_slave_address_t_fine :
    (i2c_tools_set_slave_address a s).2.t_fine = s.t_fine := by
  unfold i2c_tools_set_slave_address; dsimp only; split <;> rfl

@[simp] theorem set_slave_address_meas_reg :
    (i2c_tools_set_slave_address a s).2.meas_reg = s.meas_reg := by
  unfold i2c_tools_set_slave_address; dsimp only; split <;> rfl

@[simp] theorem set_slave_address_hum_reg :
    (i2c_tools_set_slave_address a s).2.hum_reg = s.hum_reg := by
  unfold i2c_tools_set_slave_address; dsimp only; split <;> rfl

@[simp] theorem set_slave_address_bme280_slave_addr :
    (i2c_tools_set_slave_address a s).2.bme280_slave_addr = s.bme280_slave_addr := by
  unfold i2c_tools_set_slave_address; dsimp only; split <;> rfl

@[simp] theorem set_slave_address_transactions :
    (i2c_tools_set_slave_address a s).2.transactions = s.transactions := by
  unfold i2c_tools_set_slave_address; dsimp only
  split <;> simp [State.transactions, bcm2835_close, bcm2835_i2c_begin,
    bcm2835_i2c_setSlaveAddress, BusOp.isTransaction]

theorem set_slave_address_with_t_fine :
    i2c_tools_set_slave_address a { s with t_fine := t0 } =
      ((i2c_tools_set_slave_address a s).1,
       { (i2c_tools_set_slave_address a s).2 with t_fine := t0 }) := by
  unfold i2c_tools_set_slave_address; dsimp only [bcm2835_i2c_begin]; split <;> rfl

@[simp] theorem read_reg_env : (i2c_tools_read_reg reg buf n s).2.2.env = s.env := by
  unfold i2c_tools_read_reg; dsimp only; split
  · rfl
  · split <;> rfl

@[simp] theorem read_reg_calib :
    (i2c_tools_read_reg reg buf n s).2.2.bme280_calib = s.bme280_calib := by
  unfold i2c_tools_read_reg; dsimp only; split
  · rfl
  · split <;> rfl

@[simp] theorem read_reg_t_fine : (i2c_tools_read_reg reg buf n s).2.2.t_fine = s.t_fine := by
  unfold i2c_tools_read_reg; dsimp only; split
  · rfl
  · split <;> rfl

@[simp] theorem read_reg_meas_reg :
    (i2c_tools_read_reg reg buf n s).2.2.meas_reg = s.meas_reg := by
  unfold i2c_tools_read_reg; dsimp only; split
  · rfl
  · split <;> rfl

@[simp] theorem read_reg_hum_reg :
    (i2c_tools_read_reg reg buf n s).2.2.hum_reg = s.hum_reg := by
  unfold i2c_tools_read_reg; dsimp only; split
  · rfl
  · split <;> rfl

theorem read_reg_with_t_fine :
    i2c_tools_read_reg reg buf n { s with t_fine := t0 } =
      ((i2c_tools_read_reg reg buf n s).1, (i2c_tools_read_reg reg buf n s).2.1,
       { (i2c_tools_read_reg reg buf n s).2.2 with t_fine := t0 }) := by
  unfold i2c_tools_read_reg; dsimp only [bcm2835_i2c_write, bcm2835_i2c_read]; split
  · rfl
  · split <;> rfl

/-- When the register-address write is acknowledged, the buffer holds the bytes the read
delivered. -/
theorem read_reg_buffer
    (hw : s.env.write_ret s.trace [reg % 256] % 256 = BCM2835_I2C_REASON_OK) (i : Nat)
    (hi : i < n) :
    (i2c_tools_read_reg reg buf n s).2.1 i =
      s.env.read_data (BusOp.write [reg % 256] :: s.trace) n i % 256 := by
  unfold i2c_tools_read_reg
  simp only [bcm2835_i2c_write, bcm2835_i2c_read, hw, ne_eq, not_true_eq_false, if_false]
  split <;> simp [hi]

theorem read24_t_fine : (i2c_tool_read24 reg s).2.t_fine = s.t_fine :=
  read_reg_t_fine reg 3 _ s

theorem read24_calib : (i2c_tool_read24 reg s).2.bme280_calib = s.bme280_calib :=
  read_reg_calib reg 3 _ s

theorem read16_t_fine : (i2c_tool_read16 reg s).2.t_fine = s.t_fine :=
  read_reg_t_fine reg 2 _ s

theorem read16_calib : (i2c_tool_read16 reg s).2.bme280_calib = s.bme280_calib :=
  read_reg_calib reg 2 _ s

@[simp] theorem read24_state :
    (i2c_tool_read24 reg s).2 = (i2c_tools_read_reg reg (s.env.uninit s.trace) 3 s).2.2 := rfl

@[simp] theorem read16_state :
    (i2c_tool_read16 reg s).2 = (i2c_tools_read_reg reg (s.env.uninit s.trace) 2 s).2.2 := rfl

@[simp] theorem read_byte_state :
    (i2c_tool_read_byte reg s).2 = (i2c_tools_read_reg reg (s.env.uninit s.trace) 1 s).2.2 :=
  rfl

theorem read24_with_t_fine :
    i2c_tool_read24 reg { s with t_fine := t0 } =
      ((i2c_tool_read24 reg s).1, { (i2c_tool_read24 reg s).2 with t_fine := t0 }) := by
  unfold i2c_tool_read24
  dsimp only
  rw [read_reg_with_t_fine]

theorem read16_with_t_fine :
    i2c_tool_read16 reg { s with t_fine := t0 } =
      ((i2c_tool_read16 reg s).1, { (i2c_tool_read16 reg s).2 with t_fine := t0 }) := by
  unfold i2c_tool_read16
  dsimp only
  rw [read_reg_with_t_fine]

end Frame

/-! ## Auxiliary facts: values of the typed reads -/

theorem busReturns_two {s : State} {reg b0 b1 : Nat} (h : busReturns s reg [b0, b1]) :
    s.env.write_ret s.trace [reg % 256] % 256 = BCM2835_I2C_REASON_OK ∧
    s.env.read_data (BusOp.write [reg % 256] :: s.trace) 2 0 % 256 = b0 ∧
    s.env.read_data (BusOp.write [reg % 256] :: s.trace) 2 1 % 256 = b1 := by
  obtain ⟨hw, -, hd⟩ := h
  simp [List.range, List.range.loop] at hd
  exact ⟨hw, hd.1, hd.2⟩

theorem busReturns_three {s : State} {reg b0 b1 b2 : Nat}
    (h : busReturns s reg [b0, b1, b2]) :
    s.env.write_ret s.trace [reg % 256] % 256 = BCM2835_I2C_REASON_OK ∧
    s.env.read_data (BusOp.write [reg % 256] :: s.trace) 3 0 % 256 = b0 ∧
    s.env.read_data (BusOp.write [reg % 256] :: s.trace) 3 1 % 256 = b1 ∧
    s.env.read_data (BusOp.write [reg % 256] :: s.trace) 3 2 % 256 = b2 := by
  obtain ⟨hw, -, hd⟩ := h
  simp [List.range, List.range.loop] at hd
  exact ⟨hw, hd.1, hd.2.1, hd.2.2⟩

theorem read16_value (s : State) (reg : Nat) :
    (i2c_tool_read16 reg s).1 =
      256 * ((i2c_tools_read_reg reg (s.env.uninit s.trace) 2 s).2.1 0 % 256) +
        (i2c_tools_read_reg reg (s.env.uninit s.trace) 2 s).2.1 1 % 256 := by
  unfold i2c_tool_read16
  dsimp only
  rw [shl8_or _ _ (Nat.mod_lt _ (by decide))]
  omega

theorem read16_lt (s : State) (reg : Nat) : (i2c_tool_read16 reg s).1 < 65536 := by
  unfold i2c_tool_read16
  exact Nat.mod_lt _ (by decide)

theorem read16_le_value (s : State) (reg : Nat) :
    (i2c_tool_read16_le reg s).1 = swap16 (i2c_tool_read16 reg s).1 := by
  have h := read16_value s reg
  unfold i2c_tool_read16_le
  dsimp only
  rw [h, swap_bits _ _ (Nat.mod_lt _ (by decide)) (Nat.mod_lt _ (by decide)),
    swap16_bytes _ _ (Nat.mod_lt _ (by decide)) (Nat.mod_lt _ (by decide))]

theorem read16_le_lt (s : State) (reg : Nat) : (i2c_tool_read16_le reg s).1 < 65536 := by
  unfold i2c_tool_read16_le
  exact Nat.mod_lt _ (by decide)

theorem read24_value (s : State) (reg : Nat) :
    (i2c_tool_read24 reg s).1 =
      65536 * ((i2c_tools_read_reg reg (s.env.uninit s.trace) 3 s).2.1 0 % 256) +
        256 * ((i2c_tools_read_reg reg (s.env.uninit s.trace) 3 s).2.1 1 % 256) +
        (i2c_tools_read_reg reg (s.env.uninit s.trace) 3 s).2.1 2 % 256 := by
  unfold i2c_tool_read24
  dsimp only
  rw [shl16_shl8_or _ _ _ (Nat.mod_lt _ (by decide)) (Nat.mod_lt _ (by decide))]
  omega

theorem read24_lt (s : State) (reg : Nat) : (i2c_tool_read24 reg s).1 < 16777216 := by
  rw [read24_value]
  omega

/-! ## Register access layer -/

/-- C9: when the bus returns the bytes b0, b1 (b2) for the read that follows the
register-address write, `i2c_tool_read16` is 256*b0 + b1, `i2c_tool_read16_le` is
256*b1 + b0, which is the byte swap of `i2c_tool_read16` (and swapping twice is the
identity), and `i2c_tool_read24` is 65536*b0 + 256*b1 + b2, below 2^24. -/
theorem typed_reads_assemble_bytes (s : State) (reg b0 b1 b2 : Nat) :
    (busReturns s reg [b0, b1] →
      (i2c_tool_read16 reg s).1 = 256 * b0 + b1 ∧
      (i2c_tool_read16_le reg s).1 = 256 * b1 + b0 ∧
      (i2c_tool_read16_le reg s).1 = swap16 (i2c_tool_read16 reg s).1 ∧
      swap16 (swap16 (i2c_tool_read16 reg s).1) = (i2c_tool_read16 reg s).1) ∧
    (busReturns s reg [b0, b1, b2] →
      (i2c_tool_read24 reg s).1 = 65536 * b0 + 256 * b1 + b2 ∧
      (i2c_tool_read24 reg s).1 < 2 ^ 24) := by
  constructor
  · intro h
    obtain ⟨hw, h0, h1⟩ := busReturns_two h
    have hb0 : b0 < 256 := by rw [← h0]; exact Nat.mod_lt _ (by decide)
    have hb1 : b1 < 256 := by rw [← h1]; exact Nat.mod_lt _ (by decide)
    have e16 : (i2c_tool_read16 reg s).1 = 256 * b0 + b1 := by
      rw [read16_value, read_reg_buffer reg 2 _ s hw 0 (by decide),
        read_reg_buffer reg 2 _ s hw 1 (by decide), h0, h1]
      omega
    refine ⟨e16, ?_, read16_le_value s reg, ?_⟩
    · rw [read16_le_value, e16, swap16_bytes _ _ hb0 hb1]
    · rw [e16, swap16_bytes _ _ hb0 hb1, swap16_bytes _ _ hb1 hb0]
  · intro h
    obtain ⟨hw, h0, h1, h2⟩ := busReturns_three h
    refine ⟨?_, by simpa using read24_lt s reg⟩
    rw [read24_value, read_reg_buffer reg 3 _ s hw 0 (by decide),
      read_reg_buffer reg 3 _ s hw 1 (by decide), read_reg_buffer reg 3 _ s hw 2 (by decide),
      h0, h1, h2]
    have hb0 : b0 < 256 := by rw [← h0]; exact Nat.mod_lt _ (by decide)
    have hb1 : b1 < 256 := by rw [← h1]; exact Nat.mod_lt _ (by decide)
    have hb2 : b2 < 256 := by rw [← h2]; exact Nat.mod_lt _ (by decide)
    omega

/-- C9, at the fixture device: the registers 0xFA.. hold 0x7E, 0xED, 0x00. -/
theorem typed_reads_assemble_bytes_witness :
    (busReturns (fixtureState 5 5 5 0) 0xFA [0x7E, 0xED] ∧
      busReturns (fixtureState 5 5 5 0) 0xFA [0x7E, 0xED, 0x00]) ∧
    ((i2c_tool_read16 0xFA (fixtureState 5 5 5 0)).1 = 256 * 0x7E + 0xED ∧
      (i2c_tool_read16_le 0xFA (fixtureState 5 5 5 0)).1 = 256 * 0xED + 0x7E ∧
      (i2c_tool_read16_le 0xFA (fixtureState 5 5 5 0)).1
        = swap16 (i2c_tool_read16 0xFA (fixtureState 5 5 5 0)).1 ∧
      swap16 (swap16 (i2c_tool_read16 0xFA (fixtureState 5 5 5 0)).1)
        = (i2c_tool_read16 0xFA (fixtureState 5 5 5 0)).1) ∧
    ((i2c_tool_read24 0xFA (fixtureState 5 5 5 0)).1 = 65536 * 0x7E + 256 * 0xED + 0x00 ∧
      (i2c_tool_read24 0xFA (fixtureState 5 5 5 0)).1 < 2 ^ 24) :=
  ⟨⟨by decide, by decide⟩,
   (typed_reads_assemble_bytes (fixtureState 5 5 5 0) 0xFA 0x7E 0xED 0x00).1 (by decide),
   (typed_reads_assemble_bytes (fixtureState 5 5 5 0) 0xFA 0x7E 0xED 0x00).2 (by decide)⟩

/-- C10: `i2c_tool_reads16` (`i2c_tool_reads16_le`) returns the two's-complement
reinterpretation of the 16-bit value u that `i2c_tool_read16` (`i2c_tool_read16_le`)
produces: u when u < 32768 and u - 65536 otherwise, a value of `int16_t` for every input. -/
theorem signed_reads_reinterpret (s : State) (reg : Nat) :
    ((i2c_tool_reads16 reg s).1 =
        if (i2c_tool_read16 reg s).1 < 32768 then ((i2c_tool_read16 reg s).1 : Int)
        else ((i2c_tool_read16 reg s).1 : Int) - 65536) ∧
    ((i2c_tool_reads16_le reg s).1 =
        if (i2c_tool_read16_le reg s).1 < 32768 then ((i2c_tool_read16_le reg s).1 : Int)
        else ((i2c_tool_read16_le reg s).1 : Int) - 65536) ∧
    (-32768 ≤ (i2c_tool_reads16 reg s).1 ∧ (i2c_tool_reads16 reg s).1 ≤ 32767) ∧
    (-32768 ≤ (i2c_tool_reads16_le reg s).1 ∧ (i2c_tool_reads16_le reg s).1 ≤ 32767) ∧
    (i2c_tool_reads16 reg s).2 = (i2c_tool_read16 reg s).2 ∧
    (i2c_tool_reads16_le reg s).2 = (i2c_tool_read16_le reg s).2 := by
  have h1 := read16_lt s reg
  have h2 := read16_le_lt s reg
  have e1 : (i2c_tool_reads16 reg s).1 = wrap16 ((i2c_tool_read16 reg s).1 : Int) := rfl
  have e2 : (i2c_tool_reads16_le reg s).1 = wrap16 ((i2c_tool_read16_le reg s).1 : Int) := rfl
  rw [e1, e2]
  refine ⟨?_, ?_, ?_, ?_, rfl, rfl⟩
  · unfold wrap16; split <;> omega
  · unfold wrap16; split <;> omega
  · unfold wrap16; omega
  · unfold wrap16; omega

/-! ## Auxiliary facts: the temperature arithmetic -/

theorem tdiv_pos_cases (a b : Int) (hb : 0 < b) :
    Int.tdiv a b = if 0 ≤ a then a / b else -((-a) / b) := by
  split
  · next h => exact Int.tdiv_eq_ediv h (le_of_lt hb)
  · next h =>
    have h1 : Int.tdiv (-a) b = (-a) / b := Int.tdiv_eq_ediv (by omega) (le_of_lt hb)
    rw [Int.neg_tdiv] at h1
    omega

theorem inInt32_tdiv {x : Int} (b : Int) (hb : 0 < b) (h : inInt32 x) :
    inInt32 (Int.tdiv x b) := by
  unfold inInt32 at *
  rw [tdiv_pos_cases x b hb]
  split
  · next h0 =>
    have h1 : x / b ≤ x := Int.ediv_le_self b h0
    have h2 : 0 ≤ x / b := Int.ediv_nonneg h0 (le_of_lt hb)
    omega
  · next h0 =>
    have h1 : (-x) / b ≤ -x := Int.ediv_le_self b (by omega)
    have h2 : 0 ≤ (-x) / b := Int.ediv_nonneg (by omega) (le_of_lt hb)
    omega

theorem div32_eq {x : Int} (b : Int) (hb : 0 < b) (h : inInt32 x) :
    div32 x b = Int.tdiv x b :=
  wrap32_eq_self (inInt32_tdiv b hb h)

/-- The raw temperature code is a 20-bit value. -/
theorem raw_adc_T_range (s : State) : 0 ≤ raw_adc_T s ∧ raw_adc_T s < 1048576 := by
  unfold raw_adc_T
  dsimp only
  have h := read24_lt (i2c_tools_set_slave_address s.bme280_slave_addr s).2
    BME280_REGISTER_TEMPDATA
  rw [wrap32_eq_self (by unfold inInt32; omega), Int.shiftRight_eq_div_pow]
  simp only [Nat.reducePow, Nat.cast_ofNat]
  omega

/-- Within the 32-bit range the code's fine temperature is the reference formula. -/
theorem compensate_T_fine_eq_spec (adc : Int) (c : bme280_calib_data_t) (h0 : 0 ≤ adc)
    (h1 : adc < 1048576) (h : tempInRange adc c.dig_T1 c.dig_T2 c.dig_T3) :
    compensate_T_fine adc c = spec_t_fine adc c.dig_T1 c.dig_T2 c.dig_T3 := by
  obtain ⟨r1, r2, r3, r4, r5, r6, r7, -, -⟩ := h
  have ha : inInt32 adc := by unfold inInt32; omega
  unfold compensate_T_fine
  dsimp only
  have e8 : div32 adc 8 = Int.tdiv adc 8 := div32_eq 8 (by decide) ha
  have e16 : div32 adc 16 = Int.tdiv adc 16 := div32_eq 16 (by decide) ha
  have m1 : mul32 c.dig_T1 2 = 2 * c.dig_T1 := by
    unfold mul32; rw [mul_comm]; exact wrap32_eq_self r1
  have s1 : sub32 (Int.tdiv adc 8) (2 * c.dig_T1) = Int.tdiv adc 8 - 2 * c.dig_T1 :=
    wrap32_eq_self r2
  have m2 : mul32 (Int.tdiv adc 8 - 2 * c.dig_T1) c.dig_T2
      = (Int.tdiv adc 8 - 2 * c.dig_T1) * c.dig_T2 := wrap32_eq_self r3
  have s2 : sub32 (Int.tdiv adc 16) c.dig_T1 = Int.tdiv adc 16 - c.dig_T1 :=
    wrap32_eq_self r4
  have m3 : mul32 (Int.tdiv adc 16 - c.dig_T1) (Int.tdiv adc 16 - c.dig_T1)
      = (Int.tdiv adc 16 - c.dig_T1) * (Int.tdiv adc 16 - c.dig_T1) := wrap32_eq_self r5
  have m4 : mul32 (Int.tdiv ((Int.tdiv adc 16 - c.dig_T1) * (Int.tdiv adc 16 - c.dig_T1)) 4096)
      c.dig_T3
      = Int.tdiv ((Int.tdiv adc 16 - c.dig_T1) * (Int.tdiv adc 16 - c.dig_T1)) 4096 * c.dig_T3 :=
    wrap32_eq_self r6
  rw [e8, e16, m1, s1, m2, div32_eq 2048 (by decide) r3, s2, m3, div32_eq 4096 (by decide) r5,
    m4, div32_eq 16384 (by decide) r6]
  have r7a : inInt32 (Int.tdiv ((Int.tdiv adc 8 - 2 * c.dig_T1) * c.dig_T2) 2048 +
      Int.tdiv (Int.tdiv ((Int.tdiv adc 16 - c.dig_T1) * (Int.tdiv adc 16 - c.dig_T1)) 4096
        * c.dig_T3) 16384) := by
    unfold spec_t_fine at r7
    simpa using r7
  unfold add32 t_fine_adjust spec_t_fine
  rw [wrap32_eq_self r7a, add_zero]
  exact wrap32_eq_self r7a

/-- Within the 32-bit range the code's hundredths value is the reference formula. -/
theorem compensate_T_eq_spec (t : Int) (h5 : inInt32 (t * 5)) (h : inInt32 (t * 5 + 128)) :
    compensate_T t = spec_T t := by
  unfold compensate_T spec_T mul32 add32
  rw [wrap32_eq_self h5, wrap32_eq_self h]
  exact div32_eq 256 (by decide) h

/-! ## Temperature -/

theorem read_temperature_off (s : State) (h : s.meas_reg.osrs_t = SAMPLING_NONE) :
    bme280_read_temperature s = (0, (i2c_tools_set_slave_address s.bme280_slave_addr s).2) := by
  unfold bme280_read_temperature
  simp [h]

theorem read_temperature_on (s : State) (h : s.meas_reg.osrs_t ≠ SAMPLING_NONE) :
    bme280_read_temperature s =
      (((compensate_T (compensate_T_fine (raw_adc_T s) s.bme280_calib) : Int) : ℚ) / 100,
       { (i2c_tool_read24 BME280_REGISTER_TEMPDATA
            (i2c_tools_set_slave_address s.bme280_slave_addr s).2).2 with
          t_fine := compensate_T_fine (raw_adc_T s) s.bme280_calib }) := by
  unfold bme280_read_temperature raw_adc_T
  simp [h]

theorem raw_adc_T_with_t_fine (s : State) (t0 : Int) :
    raw_adc_T { s with t_fine := t0 } = raw_adc_T s := by
  unfold raw_adc_T
  dsimp only
  rw [set_slave_address_with_t_fine, read24_with_t_fine]

/-- C1: with temperature oversampling enabled and every intermediate of the reference formula
within the signed 32-bit range, `bme280_read_temperature` reads a 20-bit raw code adc, sets
t_fine to ((adc/8 - 2*T1)*T2)/2048 + ((((adc/16 - T1)*(adc/16 - T1))/4096)*T3)/16384 + 0 and
returns T/100 with T = (t_fine*5 + 128)/256 (divisions truncating toward zero); neither
depends on the previous t_fine. -/
theorem temperature_matches_reference (s : State)
    (hon : s.meas_reg.osrs_t ≠ SAMPLING_NONE)
    (hr : tempInRange (raw_adc_T s) s.bme280_calib.dig_T1 s.bme280_calib.dig_T2
      s.bme280_calib.dig_T3) :
    (0 ≤ raw_adc_T s ∧ raw_adc_T s < 2 ^ 20) ∧
    (bme280_read_temperature s).2.t_fine =
      spec_t_fine (raw_adc_T s) s.bme280_calib.dig_T1 s.bme280_calib.dig_T2
        s.bme280_calib.dig_T3 ∧
    (bme280_read_temperature s).1 =
      ((spec_T (spec_t_fine (raw_adc_T s) s.bme280_calib.dig_T1 s.bme280_calib.dig_T2
        s.bme280_calib.dig_T3) : Int) : ℚ) / 100 ∧
    ∀ t0 : Int,
      (bme280_read_temperature { s with t_fine := t0 }).1 = (bme280_read_temperature s).1 ∧
      (bme280_read_temperature { s with t_fine := t0 }).2.t_fine =
        (bme280_read_temperature s).2.t_fine := by
  have hrange := raw_adc_T_range s
  have hfine := compensate_T_fine_eq_spec (raw_adc_T s) s.bme280_calib hrange.1 hrange.2 hr
  have hT := compensate_T_eq_spec _ hr.2.2.2.2.2.2.2.1 hr.2.2.2.2.2.2.2.2
  refine ⟨by simpa using hrange, ?_, ?_, ?_⟩
  · rw [read_temperature_on s hon]
    exact hfine
  · rw [read_temperature_on s hon, hfine, hT]
  · intro t0
    have hon0 : ({ s with t_fine := t0 } : State).meas_reg.osrs_t ≠ SAMPLING_NONE := hon
    rw [read_temperature_on _ hon0, read_temperature_on s hon, raw_adc_T_with_t_fine]
    exact ⟨rfl, rfl⟩

/-- C1, at the fixture session: oversampling x16, raw code 519888. -/
theorem temperature_matches_reference_witness :
    ((fixtureState 5 5 5 0).meas_reg.osrs_t ≠ SAMPLING_NONE ∧
      tempInRange (raw_adc_T (fixtureState 5 5 5 0)) 27504 26435 (-1000)) ∧
    (bme280_read_temperature (fixtureState 5 5 5 0)).2.t_fine =
      spec_t_fine (raw_adc_T (fixtureState 5 5 5 0)) 27504 26435 (-1000) :=
  ⟨⟨by decide, by decide⟩,
   (temperature_matches_reference (fixtureState 5 5 5 0) (by decide) (by decide)).2.1⟩

/-- C8: with T1 = 27504, T2 = 26435, T3 = -1000 and the 20-bit raw code 519888,
`bme280_read_temperature` sets t_fine = 128423, computes T = 2508 and returns 25.08. -/
theorem temperature_worked_example (s : State)
    (hon : s.meas_reg.osrs_t ≠ SAMPLING_NONE)
    (hT1 : s.bme280_calib.dig_T1 = 27504) (hT2 : s.bme280_calib.dig_T2 = 26435)
    (hT3 : s.bme280_calib.dig_T3 = -1000) (hadc : raw_adc_T s = 519888) :
    (bme280_read_temperature s).2.t_fine = 128423 ∧
    compensate_T (bme280_read_temperature s).2.t_fine = 2508 ∧
    (bme280_read_temperature s).1 = (2508 : ℚ) / 100 ∧
    |(bme280_read_temperature s).1 - 25.08| ≤ 0.01 := by
  have hfine : compensate_T_fine 519888 s.bme280_calib = 128423 := by
    unfold compensate_T_fine
    rw [hT1, hT2, hT3]
    decide
  have hT : compensate_T 128423 = 2508 := by decide
  rw [read_temperature_on s hon, hadc, hfine]
  dsimp only
  rw [hT]
  refine ⟨rfl, rfl, by norm_num, by norm_num⟩

/-- C8, at the fixture session. -/
theorem temperature_worked_example_witness :
    ((fixtureState 5 5 5 0).meas_reg.osrs_t ≠ SAMPLING_NONE ∧
      raw_adc_T (fixtureState 5 5 5 0) = 519888) ∧
    (bme280_read_temperature (fixtureState 5 5 5 0)).2.t_fine = 128423 ∧
    (bme280_read_temperature (fixtureState 5 5 5 0)).1 = (2508 : ℚ) / 100 :=
  ⟨⟨by decide, by decide⟩,
   (temperature_worked_example (fixtureState 5 5 5 0) (by decide) rfl rfl rfl
      (by decide)).1,
   (temperature_worked_example (fixtureState 5 5 5 0) (by decide) rfl rfl rfl
      (by decide)).2.2.1⟩

theorem read_temperature_with_t_fine (s : State) (t0 : Int)
    (hon : s.meas_reg.osrs_t ≠ SAMPLING_NONE) :
    bme280_read_temperature { s with t_fine := t0 } = bme280_read_temperature s := by
  have hon0 : ({ s with t_fine := t0 } : State).meas_reg.osrs_t ≠ SAMPLING_NONE := hon
  rw [read_temperature_on _ hon0, read_temperature_on s hon, raw_adc_T_with_t_fine]
  dsimp only
  rw [set_slave_address_with_t_fine, read24_with_t_fine]

theorem read_temperature_on_state (s : State) (h : s.meas_reg.osrs_t ≠ SAMPLING_NONE) :
    (bme280_read_temperature s).2 =
      { (i2c_tool_read24 BME280_REGISTER_TEMPDATA
            (i2c_tools_set_slave_address s.bme280_slave_addr s).2).2 with
          t_fine := compensate_T_fine (raw_adc_T s) s.bme280_calib } := by
  rw [read_temperature_on s h]

theorem read_temperature_off_state (s : State) (h : s.meas_reg.osrs_t = SAMPLING_NONE) :
    (bme280_read_temperature s).2 = (i2c_tools_set_slave_address s.bme280_slave_addr s).2 := by
  rw [read_temperature_off s h]

theorem with_t_fine_calib (x : State) (v : Int) :
    ({ x with t_fine := v } : State).bme280_calib = x.bme280_calib := rfl

theorem with_t_fine_t_fine (x : State) (v : Int) :
    ({ x with t_fine := v } : State).t_fine = v := rfl

theorem with_t_fine_env (x : State) (v : Int) :
    ({ x with t_fine := v } : State).env = x.env := rfl

theorem with_t_fine_hum_reg (x : State) (v : Int) :
    ({ x with t_fine := v } : State).hum_reg = x.hum_reg := rfl

theorem with_t_fine_meas_reg (x : State) (v : Int) :
    ({ x with t_fine := v } : State).meas_reg = x.meas_reg := rfl

theorem read_temperature_calib (s : State) :
    (bme280_read_temperature s).2.bme280_calib = s.bme280_calib := by
  by_cases h : s.meas_reg.osrs_t = SAMPLING_NONE
  · rw [read_temperature_off_state s h, set_slave_address_calib]
  · rw [read_temperature_on_state s h, with_t_fine_calib, read24_state, read_reg_calib,
      set_slave_address_calib]

theorem read_temperature_t_fine_on (s : State) (h : s.meas_reg.osrs_t ≠ SAMPLING_NONE) :
    (bme280_read_temperature s).2.t_fine = compensate_T_fine (raw_adc_T s) s.bme280_calib := by
  rw [read_temperature_on_state s h, with_t_fine_t_fine]

theorem after_nested_temperature_calib (s : State) :
    (after_nested_temperature s).bme280_calib = s.bme280_calib := by
  unfold after_nested_temperature
  rw [read_temperature_calib, set_slave_address_calib]

theorem after_nested_temperature_t_fine (s : State)
    (h : s.meas_reg.osrs_t ≠ SAMPLING_NONE) :
    (after_nested_temperature s).t_fine = compensate_T_fine (nested_adc_T s) s.bme280_calib := by
  have h1 : (i2c_tools_set_slave_address s.bme280_slave_addr s).2.meas_reg.osrs_t
      ≠ SAMPLING_NONE := by
    rw [set_slave_address_meas_reg]; exact h
  unfold after_nested_temperature nested_adc_T
  rw [read_temperature_t_fine_on _ h1, set_slave_address_calib]

theorem after_nested_temperature_with_t_fine (s : State) (t0 : Int)
    (h : s.meas_reg.osrs_t ≠ SAMPLING_NONE) :
    after_nested_temperature { s with t_fine := t0 } = after_nested_temperature s := by
  have h1 : (i2c_tools_set_slave_address s.bme280_slave_addr s).2.meas_reg.osrs_t
      ≠ SAMPLING_NONE := by
    rw [set_slave_address_meas_reg]; exact h
  unfold after_nested_temperature
  rw [set_slave_address_with_t_fine]
  exact congrArg Prod.snd (read_temperature_with_t_fine _ t0 h1)

/-! ## Pressure and humidity -/

theorem read_pressure_off (s : State) (h : s.meas_reg.osrs_p = SAMPLING_NONE) :
    bme280_read_pressure s =
      some (0, (i2c_tools_set_slave_address s.bme280_slave_addr s).2) := by
  have h1 : (i2c_tools_set_slave_address s.bme280_slave_addr s).2.meas_reg.osrs_p
      = SAMPLING_NONE := by
    rw [set_slave_address_meas_reg]; exact h
  unfold bme280_read_pressure
  exact if_pos h1

theorem read_pressure_on (s : State) (h : s.meas_reg.osrs_p ≠ SAMPLING_NONE) :
    bme280_read_pressure s =
      (compensate_P (after_nested_temperature s).t_fine (raw_adc_P s) s.bme280_calib).map
        fun p => (p, (i2c_tool_read24 BME280_REGISTER_PRESSUREDATA
          (after_nested_temperature s)).2) := by
  have h1 : ¬ (i2c_tools_set_slave_address s.bme280_slave_addr s).2.meas_reg.osrs_p
      = SAMPLING_NONE := by
    rw [set_slave_address_meas_reg]; exact h
  have e : bme280_read_pressure s =
      (compensate_P
        (i2c_tool_read24 BME280_REGISTER_PRESSUREDATA (after_nested_temperature s)).2.t_fine
        (raw_adc_P s)
        (i2c_tool_read24 BME280_REGISTER_PRESSUREDATA
          (after_nested_temperature s)).2.bme280_calib).map
        fun p => (p, (i2c_tool_read24 BME280_REGISTER_PRESSUREDATA
          (after_nested_temperature s)).2) := by
    unfold bme280_read_pressure
    exact if_neg h1
  rw [e, read24_t_fine, read24_calib, after_nested_temperature_calib]

theorem read_humidity_off (s : State) (h : s.hum_reg.osrs_h = SAMPLING_NONE) :
    bme280_read_humidity s = (0, (i2c_tools_set_slave_address s.bme280_slave_addr s).2) := by
  have h1 : (i2c_tools_set_slave_address s.bme280_slave_addr s).2.hum_reg.osrs_h
      = SAMPLING_NONE := by
    rw [set_slave_address_hum_reg]; exact h
  unfold bme280_read_humidity
  exact if_pos h1

theorem read_humidity_on (s : State) (h : s.hum_reg.osrs_h ≠ SAMPLING_NONE) :
    bme280_read_humidity s =
      (humidity_result
        (compensate_H_var5 (after_nested_temperature s).t_fine (raw_adc_H s) s.bme280_calib),
       (i2c_tool_read16 BME280_REGISTER_HUMIDDATA (after_nested_temperature s)).2) := by
  have h1 : ¬ (i2c_tools_set_slave_address s.bme280_slave_addr s).2.hum_reg.osrs_h
      = SAMPLING_NONE := by
    rw [set_slave_address_hum_reg]; exact h
  have e : bme280_read_humidity s =
      (humidity_result
        (compensate_H_var5
          (i2c_tool_read16 BME280_REGISTER_HUMIDDATA (after_nested_temperature s)).2.t_fine
          (raw_adc_H s)
          (i2c_tool_read16 BME280_REGISTER_HUMIDDATA
            (after_nested_temperature s)).2.bme280_calib),
       (i2c_tool_read16 BME280_REGISTER_HUMIDDATA (after_nested_temperature s)).2) := by
    unfold bme280_read_humidity
    exact if_neg h1
  rw [e, read16_t_fine, read16_calib, after_nested_temperature_calib]

theorem compensate_P_var4_isSome (t adc : Int) (c : bme280_calib_data_t)
    (h : compensate_P_var1 t c ≠ 0) : ∃ v, compensate_P_var4 t adc c = some v := by
  unfold compensate_P_var4 div64
  dsimp only
  rw [if_neg h]
  exact ⟨_, rfl⟩

theorem compensate_P_isSome (t adc : Int) (c : bme280_calib_data_t) :
    ∃ q, compensate_P t adc c = some q := by
  unfold compensate_P
  by_cases h : compensate_P_var1 t c = 0
  · rw [if_pos h]
    exact ⟨0, rfl⟩
  · obtain ⟨v, hv⟩ := compensate_P_var4_isSome t adc c h
    rw [if_neg h, hv]
    exact ⟨_, rfl⟩

theorem compensate_P_zero (t adc : Int) (c : bme280_calib_data_t)
    (h : compensate_P_var1 t c = 0) : compensate_P t adc c = some 0 := by
  unfold compensate_P
  rw [if_pos h]

theorem compensate_P_var1_of_P1_zero (t : Int) (c : bme280_calib_data_t)
    (h : c.dig_P1 = 0) : compensate_P_var1 t c = 0 := by
  unfold compensate_P_var1
  dsimp only
  rw [h]
  unfold mul64 cdiv64
  rw [mul_zero]
  rfl

/-- C6: a read whose channel has oversampling off (SAMPLING_NONE) returns 0, issues no bus
read or write transaction and leaves t_fine unchanged, for temperature, pressure and
humidity alike. -/
theorem disabled_channel_reads_zero (s : State) :
    (s.meas_reg.osrs_t = SAMPLING_NONE →
      (bme280_read_temperature s).1 = 0 ∧
      (bme280_read_temperature s).2.transactions = s.transactions ∧
      (bme280_read_temperature s).2.t_fine = s.t_fine) ∧
    (s.meas_reg.osrs_p = SAMPLING_NONE →
      ∃ s1 : State, bme280_read_pressure s = some (0, s1) ∧
        s1.transactions = s.transactions ∧ s1.t_fine = s.t_fine) ∧
    (s.hum_reg.osrs_h = SAMPLING_NONE →
      (bme280_read_humidity s).1 = 0 ∧
      (bme280_read_humidity s).2.transactions = s.transactions ∧
      (bme280_read_humidity s).2.t_fine = s.t_fine) := by
  refine ⟨fun h => ?_, fun h => ?_, fun h => ?_⟩
  · rw [read_temperature_off s h]
    exact ⟨rfl, set_slave_address_transactions _ s, set_slave_address_t_fine _ s⟩
  · exact ⟨_, read_pressure_off s h, set_slave_address_transactions _ s,
      set_slave_address_t_fine _ s⟩
  · rw [read_humidity_off s h]
    exact ⟨rfl, set_slave_address_transactions _ s, set_slave_address_t_fine _ s⟩

/-- C6, at the fixture session with every channel off and t_fine = 77. -/
theorem disabled_channel_reads_zero_witness :
    ((fixtureState 0 0 0 77).meas_reg.osrs_t = SAMPLING_NONE ∧
      (fixtureState 0 0 0 77).meas_reg.osrs_p = SAMPLING_NONE ∧
      (fixtureState 0 0 0 77).hum_reg.osrs_h = SAMPLING_NONE) ∧
    ((bme280_read_temperature (fixtureState 0 0 0 77)).1 = 0 ∧
      (bme280_read_temperature (fixtureState 0 0 0 77)).2.transactions
        = (fixtureState 0 0 0 77).transactions ∧
      (bme280_read_temperature (fixtureState 0 0 0 77)).2.t_fine
        = (fixtureState 0 0 0 77).t_fine) ∧
    (∃ s1 : State, bme280_read_pressure (fixtureState 0 0 0 77) = some (0, s1) ∧
      s1.transactions = (fixtureState 0 0 0 77).transactions ∧
      s1.t_fine = (fixtureState 0 0 0 77).t_fine) ∧
    ((bme280_read_humidity (fixtureState 0 0 0 77)).1 = 0 ∧
      (bme280_read_humidity (fixtureState 0 0 0 77)).2.transactions
        = (fixtureState 0 0 0 77).transactions ∧
      (bme280_read_humidity (fixtureState 0 0 0 77)).2.t_fine
        = (fixtureState 0 0 0 77).t_fine) :=
  ⟨⟨rfl, rfl, rfl⟩,
   (disabled_channel_reads_zero (fixtureState 0 0 0 77)).1 rfl,
   (disabled_channel_reads_zero (fixtureState 0 0 0 77)).2.1 rfl,
   (disabled_channel_reads_zero (fixtureState 0 0 0 77)).2.2 rfl⟩

theorem read_pressure_with_t_fine (s : State) (t0 : Int)
    (ht : s.meas_reg.osrs_t ≠ SAMPLING_NONE) (hp : s.meas_reg.osrs_p ≠ SAMPLING_NONE) :
    bme280_read_pressure { s with t_fine := t0 } = bme280_read_pressure s := by
  have hp0 : ({ s with t_fine := t0 } : State).meas_reg.osrs_p ≠ SAMPLING_NONE := hp
  have ec : ({ s with t_fine := t0 } : State).bme280_calib = s.bme280_calib := rfl
  rw [read_pressure_on _ hp0, read_pressure_on s hp]
  unfold raw_adc_P
  rw [after_nested_temperature_with_t_fine s t0 ht, ec]

theorem read_humidity_with_t_fine (s : State) (t0 : Int)
    (ht : s.meas_reg.osrs_t ≠ SAMPLING_NONE) (hh : s.hum_reg.osrs_h ≠ SAMPLING_NONE) :
    bme280_read_humidity { s with t_fine := t0 } = bme280_read_humidity s := by
  have hh0 : ({ s with t_fine := t0 } : State).hum_reg.osrs_h ≠ SAMPLING_NONE := hh
  have ec : ({ s with t_fine := t0 } : State).bme280_calib = s.bme280_calib := rfl
  rw [read_humidity_on _ hh0, read_humidity_on s hh]
  unfold raw_adc_H
  rw [after_nested_temperature_with_t_fine s t0 ht, ec]

/-- C2, as amended: when temperature oversampling is enabled too, `bme280_read_pressure`
and `bme280_read_humidity` compute with the fine temperature of the raw temperature code
read during that same call, leave that value in t_fine, and their result does not depend on
the t_fine left by an earlier call. -/
theorem pressure_humidity_use_fresh_t_fine (s : State)
    (ht : s.meas_reg.osrs_t ≠ SAMPLING_NONE) :
    (s.meas_reg.osrs_p ≠ SAMPLING_NONE →
      (∃ r, bme280_read_pressure s = some r ∧
        r.2.t_fine = compensate_T_fine (nested_adc_T s) s.bme280_calib ∧
        compensate_P (compensate_T_fine (nested_adc_T s) s.bme280_calib) (raw_adc_P s)
          s.bme280_calib = some r.1) ∧
      ∀ t0 : Int, bme280_read_pressure { s with t_fine := t0 } = bme280_read_pressure s) ∧
    (s.hum_reg.osrs_h ≠ SAMPLING_NONE →
      (bme280_read_humidity s).2.t_fine = compensate_T_fine (nested_adc_T s) s.bme280_calib ∧
      (bme280_read_humidity s).1 = humidity_result (compensate_H_var5
        (compensate_T_fine (nested_adc_T s) s.bme280_calib) (raw_adc_H s) s.bme280_calib) ∧
      ∀ t0 : Int, bme280_read_humidity { s with t_fine := t0 } = bme280_read_humidity s) := by
  have hfresh := after_nested_temperature_t_fine s ht
  constructor
  · intro hp
    refine ⟨?_, fun t0 => read_pressure_with_t_fine s t0 ht hp⟩
    obtain ⟨q, hq⟩ := compensate_P_isSome (compensate_T_fine (nested_adc_T s) s.bme280_calib)
      (raw_adc_P s) s.bme280_calib
    refine ⟨(q, (i2c_tool_read24 BME280_REGISTER_PRESSUREDATA
      (after_nested_temperature s)).2), ?_, ?_, hq⟩
    · rw [read_pressure_on s hp, hfresh, hq]
      rfl
    · exact Eq.trans (read24_t_fine _ _) hfresh
  · intro hh
    refine ⟨?_, ?_, fun t0 => read_humidity_with_t_fine s t0 ht hh⟩
    · rw [read_humidity_on s hh]
      exact Eq.trans (read16_t_fine _ _) hfresh
    · rw [read_humidity_on s hh, hfresh]

/-- C2 as amended, at the fixture session with all three channels enabled: the stale value 0
is replaced by the fresh fine temperature 128423. -/
theorem pressure_humidity_use_fresh_t_fine_witness :
    ((fixtureState 5 5 5 0).meas_reg.osrs_t ≠ SAMPLING_NONE ∧
      (fixtureState 5 5 5 0).meas_reg.osrs_p ≠ SAMPLING_NONE ∧
      (fixtureState 5 5 5 0).hum_reg.osrs_h ≠ SAMPLING_NONE) ∧
    (∀ t0 : Int, bme280_read_pressure { fixtureState 5 5 5 0 with t_fine := t0 }
      = bme280_read_pressure (fixtureState 5 5 5 0)) ∧
    (bme280_read_humidity (fixtureState 5 5 5 0)).2.t_fine
      = compensate_T_fine (nested_adc_T (fixtureState 5 5 5 0))
          (fixtureState 5 5 5 0).bme280_calib :=
  ⟨⟨by decide, by decide, by decide⟩,
   ((pressure_humidity_use_fresh_t_fine (fixtureState 5 5 5 0) (by decide)).1
      (by decide)).2,
   ((pressure_humidity_use_fresh_t_fine (fixtureState 5 5 5 0) (by decide)).2
      (by decide)).1⟩

/-- C2 as stated fails: with pressure and humidity oversampling enabled but temperature
oversampling off, the calls never read the temperature register (0xFA), the compensation
runs with the t_fine left by an earlier call (0 here, while the device's raw temperature code
519888 has fine temperature 128423), and the results change with that stale value. -/
theorem stale_t_fine_counterexample :
    (fixtureState 0 5 5 0).meas_reg.osrs_p ≠ SAMPLING_NONE ∧
    (fixtureState 0 5 5 0).hum_reg.osrs_h ≠ SAMPLING_NONE ∧
    (bme280_read_pressure (fixtureState 0 5 5 0)).map (fun r => r.2.transactions)
      = some [BusOp.write [0xF7], BusOp.read 3] ∧
    (bme280_read_humidity (fixtureState 0 5 5 0)).2.transactions
      = [BusOp.write [0xFD], BusOp.read 2] ∧
    (bme280_read_pressure (fixtureState 0 5 5 0)).map (fun r => r.2.t_fine) = some 0 ∧
    (bme280_read_humidity (fixtureState 0 5 5 0)).2.t_fine = 0 ∧
    compensate_T_fine (nested_adc_T (fixtureState 0 5 5 0)) fixtureCalib = 128423 ∧
    (bme280_read_pressure (fixtureState 0 5 5 0)).map Prod.fst = some ((24786192 : ℚ) / 256) ∧
    (bme280_read_pressure (fixtureState 0 5 5 128423)).map Prod.fst
      = some ((25767240 : ℚ) / 256) ∧
    (bme280_read_humidity (fixtureState 0 5 5 0)).1 = (62820 : ℚ) / 1024 ∧
    (bme280_read_humidity (fixtureState 0 5 5 128423)).1 = (64292 : ℚ) / 1024 := by
  have hc : ∀ t : Int, (fixtureState 0 5 5 t).bme280_calib = fixtureCalib := fun _ => rfl
  have h5 : (5 : Nat) ≠ SAMPLING_NONE := by decide
  have hp : ∀ t : Int, (fixtureState 0 5 5 t).meas_reg.osrs_p ≠ SAMPLING_NONE := fun _ => h5
  have hh : ∀ t : Int, (fixtureState 0 5 5 t).hum_reg.osrs_h ≠ SAMPLING_NONE := fun _ => h5
  have t1 : (after_nested_temperature (fixtureState 0 5 5 0)).t_fine = 0 := by decide
  have t2 : (after_nested_temperature (fixtureState 0 5 5 128423)).t_fine = 128423 := by
    decide
  have a1 : raw_adc_P (fixtureState 0 5 5 0) = 415148 := by decide
  have a2 : raw_adc_P (fixtureState 0 5 5 128423) = 415148 := by decide
  have b1 : raw_adc_H (fixtureState 0 5 5 0) = 31530 := by decide
  have b2 : raw_adc_H (fixtureState 0 5 5 128423) = 31530 := by decide
  have p1 : compensate_P 0 415148 fixtureCalib = some ((24786192 : ℚ) / 256) := by
    have v : compensate_P_var4 0 415148 fixtureCalib = some 24786192 := by decide
    unfold compensate_P
    rw [if_neg (by decide), v]
    simp
  have p2 : compensate_P 128423 415148 fixtureCalib = some ((25767240 : ℚ) / 256) := by
    have v : compensate_P_var4 128423 415148 fixtureCalib = some 25767240 := by decide
    unfold compensate_P
    rw [if_neg (by decide), v]
    simp
  have q1 : humidity_H (compensate_H_var5 0 31530 fixtureCalib) = 62820 := by decide
  have q2 : humidity_H (compensate_H_var5 128423 31530 fixtureCalib) = 64292 := by decide
  refine ⟨hp 0, hh 0, by decide, by decide, by decide, by decide, by decide, ?_, ?_, ?_, ?_⟩
  · rw [read_pressure_on _ (hp 0), t1, a1, hc, p1]
    rfl
  · rw [read_pressure_on _ (hp 128423), t2, a2, hc, p2]
    rfl
  · rw [read_humidity_on _ (hh 0), t1, b1, hc]
    unfold humidity_result
    rw [q1]
    norm_num
  · rw [read_humidity_on _ (hh 128423), t2, b2, hc]
    unfold humidity_result
    rw [q2]
    norm_num

theorem compensate_P_var4_none (t adc : Int) (c : bme280_calib_data_t)
    (h : compensate_P_var1 t c = 0) : compensate_P_var4 t adc c = none := by
  unfold compensate_P_var4 div64
  dsimp only
  rw [if_pos h]
  rfl

/-- C3: when the normalisation term var1 evaluates to 0, in particular when dig_P1 = 0,
the pressure compensation returns exactly 0 and the division by var1, which would be
undefined, is not evaluated; otherwise the division by var1 is defined; so every call of
`bme280_read_pressure` returns a value. -/
theorem pressure_zero_divisor_guard (s : State) (t adc : Int) (c : bme280_calib_data_t) :
    (compensate_P_var1 t c = 0 →
      compensate_P t adc c = some 0 ∧ compensate_P_var4 t adc c = none) ∧
    (c.dig_P1 = 0 → compensate_P_var1 t c = 0) ∧
    (compensate_P_var1 t c ≠ 0 →
      ∃ v : Int, compensate_P_var4 t adc c = some v ∧
        compensate_P t adc c = some ((v : ℚ) / 256)) ∧
    (∃ r, bme280_read_pressure s = some r ∧
      (s.meas_reg.osrs_p ≠ SAMPLING_NONE →
        compensate_P_var1 (after_nested_temperature s).t_fine s.bme280_calib = 0 → r.1 = 0) ∧
      (s.bme280_calib.dig_P1 = 0 → r.1 = 0)) := by
  refine ⟨fun h => ⟨compensate_P_zero t adc c h, compensate_P_var4_none t adc c h⟩,
    compensate_P_var1_of_P1_zero t c, fun h => ?_, ?_⟩
  · obtain ⟨v, hv⟩ := compensate_P_var4_isSome t adc c h
    refine ⟨v, hv, ?_⟩
    unfold compensate_P
    rw [if_neg h, hv]
    rfl
  · by_cases hp : s.meas_reg.osrs_p = SAMPLING_NONE
    · exact ⟨_, read_pressure_off s hp, fun h => absurd hp h, fun _ => rfl⟩
    · obtain ⟨q, hq⟩ := compensate_P_isSome (after_nested_temperature s).t_fine (raw_adc_P s)
        s.bme280_calib
      have hz : compensate_P_var1 (after_nested_temperature s).t_fine s.bme280_calib = 0 →
          q = 0 := by
        intro h0
        have e := compensate_P_zero (after_nested_temperature s).t_fine (raw_adc_P s)
          s.bme280_calib h0
        rw [hq] at e
        exact Option.some.inj e
      refine ⟨(q, (i2c_tool_read24 BME280_REGISTER_PRESSUREDATA
        (after_nested_temperature s)).2), ?_, fun _ h0 => hz h0,
        fun h1 => hz (compensate_P_var1_of_P1_zero _ _ h1)⟩
      rw [read_pressure_on s hp, hq]
      rfl

/-- C3, at the degenerate calibration (dig_P1 = 0, so var1 = 0) and at the fixture
calibration (var1 = 19976497, non-zero). -/
theorem pressure_zero_divisor_guard_witness :
    (degenerateCalib.dig_P1 = 0 ∧ compensate_P_var1 128423 degenerateCalib = 0 ∧
      compensate_P_var1 128423 fixtureCalib ≠ 0 ∧
      degenerateState.meas_reg.osrs_p ≠ SAMPLING_NONE ∧
      degenerateState.bme280_calib.dig_P1 = 0) ∧
    (compensate_P 128423 415148 degenerateCalib = some 0 ∧
      compensate_P_var4 128423 415148 degenerateCalib = none) ∧
    (∃ v : Int, compensate_P_var4 128423 415148 fixtureCalib = some v ∧
      compensate_P 128423 415148 fixtureCalib = some ((v : ℚ) / 256)) ∧
    (∃ r, bme280_read_pressure degenerateState = some r ∧
      (degenerateState.meas_reg.osrs_p ≠ SAMPLING_NONE →
        compensate_P_var1 (after_nested_temperature degenerateState).t_fine
          degenerateState.bme280_calib = 0 → r.1 = 0) ∧
      (degenerateState.bme280_calib.dig_P1 = 0 → r.1 = 0)) :=
  ⟨⟨rfl, by decide, by decide, by decide, rfl⟩,
   (pressure_zero_divisor_guard degenerateState 128423 415148 degenerateCalib).1 (by decide),
   (pressure_zero_divisor_guard degenerateState 128423 415148 fixtureCalib).2.2.1 (by decide),
   (pressure_zero_divisor_guard degenerateState 128423 415148 degenerateCalib).2.2.2⟩

theorem humidity_clamp_range (v : Int) :
    0 ≤ humidity_clamp v ∧ humidity_clamp v ≤ 419430400 := by
  unfold humidity_clamp
  dsimp only
  split <;> split <;> omega

theorem humidity_H_eq (v : Int) :
    ((humidity_H v : Nat) : Int) = humidity_clamp v / 4096 ∧ humidity_H v ≤ 102400 := by
  have hc := humidity_clamp_range v
  have e : Int.tdiv (humidity_clamp v) 4096 = humidity_clamp v / 4096 :=
    Int.tdiv_eq_ediv hc.1 (by decide)
  unfold humidity_H div32 toU32 wrap32
  rw [e]
  omega

theorem humidity_result_range (v : Int) :
    0 ≤ humidity_result v ∧ humidity_result v ≤ 100 := by
  have h := (humidity_H_eq v).2
  have hq : ((humidity_H v : Nat) : ℚ) ≤ 102400 := by exact_mod_cast h
  have h0 : (0 : ℚ) ≤ ((humidity_H v : Nat) : ℚ) := Nat.cast_nonneg _
  unfold humidity_result
  constructor
  · positivity
  · linarith

/-- C4: for every raw humidity code, every t_fine and every calibration, var5 after
clamping lies in [0, 419430400], H = var5/4096 lies in [0, 102400], and the percentage
H/1024 that `bme280_read_humidity` returns lies in [0, 100]. -/
theorem humidity_within_bounds (s : State) (t_fine adc_H : Int) (c : bme280_calib_data_t) :
    (0 ≤ humidity_clamp (compensate_H_var5 t_fine adc_H c) ∧
      humidity_clamp (compensate_H_var5 t_fine adc_H c) ≤ 419430400) ∧
    ((humidity_H (compensate_H_var5 t_fine adc_H c) : Int)
      = humidity_clamp (compensate_H_var5 t_fine adc_H c) / 4096) ∧
    humidity_H (compensate_H_var5 t_fine adc_H c) ≤ 102400 ∧
    (0 ≤ humidity_result (compensate_H_var5 t_fine adc_H c) ∧
      humidity_result (compensate_H_var5 t_fine adc_H c) ≤ 100) ∧
    (0 ≤ (bme280_read_humidity s).1 ∧ (bme280_read_humidity s).1 ≤ 100) := by
  refine ⟨humidity_clamp_range _, (humidity_H_eq _).1, (humidity_H_eq _).2,
    humidity_result_range _, ?_⟩
  by_cases hh : s.hum_reg.osrs_h = SAMPLING_NONE
  · rw [read_humidity_off s hh]
    exact ⟨le_refl _, by norm_num⟩
  · rw [read_humidity_on s hh]
    exact humidity_result_range _

theorem humidity_H_low : humidity_H (-1) = 0 := by decide

theorem humidity_H_high : humidity_H 500000000 = 102400 := by decide

/-- C5, as amended: in the humidity clamp a pre-clamp var5 = -1 maps to the result 0 and a
pre-clamp var5 = 500,000,000 maps to 419430400/4096/1024 = 100. -/
theorem humidity_clamp_boundaries :
    humidity_clamp (-1) = 0 ∧ humidity_result (-1) = 0 ∧
    humidity_clamp 500000000 = 419430400 ∧
    humidity_result 500000000 = (419430400 : ℚ) / 4096 / 1024 ∧
    humidity_result 500000000 = 100 := by
  refine ⟨by decide, ?_, by decide, ?_, ?_⟩
  · unfold humidity_result
    rw [humidity_H_low]
    norm_num
  · unfold humidity_result
    rw [humidity_H_high]
    norm_num
  · unfold humidity_result
    rw [humidity_H_high]
    norm_num

/-- C5 as stated fails: the pre-clamp value 500,000,000 maps to 100, which is not
409430400/4096/1024, whether that quotient is exact or truncated to the integer 99958. -/
theorem humidity_clamp_upper_counterexample :
    humidity_result 500000000 ≠ (409430400 : ℚ) / 4096 / 1024 ∧
    humidity_result 500000000 ≠ (((409430400 / 4096 : Nat) : ℚ)) / 1024 := by
  unfold humidity_result
  rw [humidity_H_high]
  constructor <;> norm_num

/-! ## Calibration loading -/

theorem packed12 (hi lo : Nat) (hhi : hi < 256) (hlo : lo < 16) :
    wrap16 (or32 (shl32 (wrap8 (hi : Int)) 4) (lo : Int)) = signed12 (hi * 16 + lo) ∧
    -2048 ≤ signed12 (hi * 16 + lo) ∧ signed12 (hi * 16 + lo) ≤ 2047 := by
  have hlo2 : toU32 (lo : Int) = lo := by unfold toU32; omega
  have key : ∀ m : Nat, toU32 (shl32 (wrap8 (hi : Int)) 4) = 2 ^ 4 * m →
      or32 (shl32 (wrap8 (hi : Int)) 4) (lo : Int) = wrap32 ((16 * m + lo : Nat) : Int) := by
    intro m hm
    unfold or32
    rw [hm, hlo2, ← Nat.mul_add_lt_is_or (by simpa using hlo) m]
  by_cases h : hi < 128
  · have hs : shl32 (wrap8 (hi : Int)) 4 = 16 * (hi : Int) := by
      unfold shl32 wrap8 wrap32
      omega
    have hu : toU32 (shl32 (wrap8 (hi : Int)) 4) = 2 ^ 4 * hi := by
      rw [hs]; unfold toU32; omega
    rw [key hi hu]
    unfold wrap32 wrap16 signed12
    rw [if_pos (by omega)]
    omega
  · have hs : shl32 (wrap8 (hi : Int)) 4 = 16 * (hi : Int) - 4096 := by
      unfold shl32 wrap8 wrap32
      omega
    have hu : toU32 (shl32 (wrap8 (hi : Int)) 4) = 2 ^ 4 * (268435200 + hi) := by
      rw [hs]; unfold toU32; omega
    rw [key _ hu]
    unfold wrap32 wrap16 signed12
    rw [if_neg (by omega)]
    omega

theorem assemble_H4_eq (e4 e5 : Nat) (h4 : e4 < 256) :
    assemble_H4 e4 e5 = signed12 (e4 * 16 + e5 % 16) := by
  have hm : e5 &&& 0xF = e5 % 16 := Nat.and_pow_two_sub_one_eq_mod e5 4
  unfold assemble_H4
  rw [hm]
  exact (packed12 e4 (e5 % 16) h4 (Nat.mod_lt _ (by decide))).1

theorem assemble_H5_eq (e6 e5 : Nat) (h6 : e6 < 256) (h5 : e5 < 256) :
    assemble_H5 e6 e5 = signed12 (e6 * 16 + e5 / 16) := by
  have hm : e5 >>> 4 = e5 / 16 := Nat.shiftRight_eq_div_pow e5 4
  unfold assemble_H5
  rw [hm]
  exact (packed12 e6 (e5 / 16) h6 (by omega)).1

section Served

variable (reg : Nat → Nat) (r : Nat) (s : State)

theorem read_byte_served (h : s.env.servesRegisters reg) :
    (i2c_tool_read_byte r s).1 = reg (r % 256) % 256 := by
  unfold i2c_tool_read_byte
  dsimp only
  rw [read_reg_buffer r 1 _ s (h s.trace (r % 256) 1 0).1 0 (by decide), Nat.mod_mod,
    (h s.trace (r % 256) 1 0).2, Nat.add_zero]

theorem read_byte_env : (i2c_tool_read_byte r s).2.env = s.env :=
  read_reg_env r 1 _ s

theorem read16_le_env : (i2c_tool_read16_le r s).2.env = s.env :=
  read_reg_env r 2 _ s

theorem reads16_le_env : (i2c_tool_reads16_le r s).2.env = s.env :=
  read_reg_env r 2 _ s

end Served

/-- The two packed coefficients are assembled from four single-byte reads, each issued in a
session whose environment is the caller's. -/
theorem read_coefficients_packed (s : State) :
    ∃ sa sb sc sd : State,
      (bme280_read_coefficients s).bme280_calib.dig_H4 =
        assemble_H4 (i2c_tool_read_byte BME280_REGISTER_DIG_H4 sa).1
          (i2c_tool_read_byte (BME280_REGISTER_DIG_H4 + 1) sb).1 ∧
      (bme280_read_coefficients s).bme280_calib.dig_H5 =
        assemble_H5 (i2c_tool_read_byte (BME280_REGISTER_DIG_H5 + 1) sc).1
          (i2c_tool_read_byte BME280_REGISTER_DIG_H5 sd).1 ∧
      sa.env = s.env ∧ sb.env = s.env ∧ sc.env = s.env ∧ sd.env = s.env := by
  refine ⟨_, _, _, _, rfl, rfl, ?_, ?_, ?_, ?_⟩
  · rw [read_byte_env, reads16_le_env, read_byte_env, reads16_le_env, reads16_le_env,
      reads16_le_env, reads16_le_env, reads16_le_env, reads16_le_env, reads16_le_env,
      reads16_le_env, read16_le_env, reads16_le_env, reads16_le_env, read16_le_env,
      set_slave_address_env]
  · rw [read_byte_env, read_byte_env, reads16_le_env, read_byte_env, reads16_le_env,
      reads16_le_env, reads16_le_env, reads16_le_env, reads16_le_env, reads16_le_env,
      reads16_le_env, reads16_le_env, read16_le_env, reads16_le_env, reads16_le_env,
      read16_le_env, set_slave_address_env]
  · rw [read_byte_env, read_byte_env, read_byte_env, reads16_le_env, read_byte_env,
      reads16_le_env, reads16_le_env, reads16_le_env, reads16_le_env, reads16_le_env,
      reads16_le_env, reads16_le_env, reads16_le_env, read16_le_env, reads16_le_env,
      reads16_le_env, read16_le_env, set_slave_address_env]
  · rw [read_byte_env, read_byte_env, read_byte_env, read_byte_env, reads16_le_env,
      read_byte_env, reads16_le_env, reads16_le_env, reads16_le_env, reads16_le_env,
      reads16_le_env, reads16_le_env, reads16_le_env, reads16_le_env, read16_le_env,
      reads16_le_env, reads16_le_env, read16_le_env, set_slave_address_env]

/-- C7: on a device that serves its register file `reg`, calibration loading yields
dig_H4 = the 12-bit two's-complement value of e4*16 + (e5 mod 16) and dig_H5 = the 12-bit
two's-complement value of e6*16 + (e5 div 16), for the bytes e4, e5, e6 of the registers
0xE4, 0xE5, 0xE6; both lie in [-2048, 2047]. -/
theorem packed_humidity_coefficients (s : State) (reg : Nat → Nat)
    (h : s.env.servesRegisters reg) :
    (bme280_read_coefficients s).bme280_calib.dig_H4 =
      signed12 (reg 0xE4 % 256 * 16 + reg 0xE5 % 256 % 16) ∧
    (bme280_read_coefficients s).bme280_calib.dig_H5 =
      signed12 (reg 0xE6 % 256 * 16 + reg 0xE5 % 256 / 16) ∧
    (-2048 ≤ (bme280_read_coefficients s).bme280_calib.dig_H4 ∧
      (bme280_read_coefficients s).bme280_calib.dig_H4 ≤ 2047) ∧
    (-2048 ≤ (bme280_read_coefficients s).bme280_calib.dig_H5 ∧
      (bme280_read_coefficients s).bme280_calib.dig_H5 ≤ 2047) := by
  obtain ⟨sa, sb, sc, sd, e4, e5, ha, hb, hc, hd⟩ := read_coefficients_packed s
  have b4 : reg 0xE4 % 256 < 256 := Nat.mod_lt _ (by decide)
  have b5 : reg 0xE5 % 256 < 256 := Nat.mod_lt _ (by decide)
  have b6 : reg 0xE6 % 256 < 256 := Nat.mod_lt _ (by decide)
  have va : (i2c_tool_read_byte BME280_REGISTER_DIG_H4 sa).1 = reg 0xE4 % 256 :=
    read_byte_served reg _ sa (ha ▸ h)
  have vb : (i2c_tool_read_byte (BME280_REGISTER_DIG_H4 + 1) sb).1 = reg 0xE5 % 256 :=
    read_byte_served reg _ sb (hb ▸ h)
  have vc : (i2c_tool_read_byte (BME280_REGISTER_DIG_H5 + 1) sc).1 = reg 0xE6 % 256 :=
    read_byte_served reg _ sc (hc ▸ h)
  have vd : (i2c_tool_read_byte BME280_REGISTER_DIG_H5 sd).1 = reg 0xE5 % 256 :=
    read_byte_served reg _ sd (hd ▸ h)
  rw [e4, e5, va, vb, vc, vd, assemble_H4_eq _ _ b4, assemble_H5_eq _ _ b6 b5]
  have r4 := packed12 (reg 0xE4 % 256) (reg 0xE5 % 256 % 16) b4 (Nat.mod_lt _ (by decide))
  have r5 := packed12 (reg 0xE6 % 256) (reg 0xE5 % 256 / 16) b6 (by omega)
  exact ⟨rfl, rfl, r4.2, r5.2⟩

theorem regFileEnv_serves (reg : Nat → Nat) : (regFileEnv reg).servesRegisters reg :=
  fun _ _ _ _ => ⟨rfl, rfl⟩

/-- C7, at the fixture device: the registers 0xE4, 0xE5, 0xE6 hold 0x93, 0xA7, 0x81. -/
theorem packed_humidity_coefficients_witness :
    (fixtureState 5 5 5 0).env.servesRegisters fixtureRegs ∧
    (bme280_read_coefficients (fixtureState 5 5 5 0)).bme280_calib.dig_H4 =
      signed12 (fixtureRegs 0xE4 % 256 * 16 + fixtureRegs 0xE5 % 256 % 16) ∧
    (bme280_read_coefficients (fixtureState 5 5 5 0)).bme280_calib.dig_H5 =
      signed12 (fixtureRegs 0xE6 % 256 * 16 + fixtureRegs 0xE5 % 256 / 16) ∧
    signed12 (fixtureRegs 0xE4 % 256 * 16 + fixtureRegs 0xE5 % 256 % 16) = -1737 ∧
    signed12 (fixtureRegs 0xE6 % 256 * 16 + fixtureRegs 0xE5 % 256 / 16) = -2022 :=
  ⟨fun _ _ _ _ => ⟨rfl, rfl⟩,
   (packed_humidity_coefficients (fixtureState 5 5 5 0) fixtureRegs
      (fun _ _ _ _ => ⟨rfl, rfl⟩)).1,
   (packed_humidity_coefficients (fixtureState 5 5 5 0) fixtureRegs
      (fun _ _ _ _ => ⟨rfl, rfl⟩)).2.1,
   by decide, by decide⟩

/-! ## Register access layer: status of a read, signed 24-bit read -/

/-- The calls of `i2c_tools_read_reg`: the register-address write, then the read when the
write was acknowledged. -/
theorem read_reg_trace (s : State) (reg n : Nat) (buf : Nat → Nat) :
    (i2c_tools_read_reg reg buf n s).2.2.trace =
      (if s.env.write_ret s.trace [reg % 256] % 256 = BCM2835_I2C_REASON_OK
        then [BusOp.read n] else []) ++ BusOp.write [reg % 256] :: s.trace := by
  unfold i2c_tools_read_reg
  dsimp only [bcm2835_i2c_write, bcm2835_i2c_read]
  by_cases hw : s.env.write_ret s.trace [reg % 256] % 256 = BCM2835_I2C_REASON_OK
  · by_cases hr : s.env.read_ret (BusOp.write [reg % 256] :: s.trace) n % 256
        = BCM2835_I2C_REASON_OK
    · rw [if_neg (not_not.mpr hw), if_neg (not_not.mpr hr), if_pos hw]
      rfl
    · rw [if_neg (not_not.mpr hw), if_pos hr, if_pos hw]
      rfl
  · rw [if_pos hw, if_neg hw]
    rfl

/-- C12: `i2c_tools_read_reg` returns 0 exactly when the register-address write and the
data read both succeed and -3 otherwise; the write is issued once, the read once when the
write succeeded and not at all when it failed. -/
theorem read_reg_status (s : State) (reg n : Nat) (buf : Nat → Nat) :
    ((i2c_tools_read_reg reg buf n s).1 = 0 ↔
      (s.env.write_ret s.trace [reg % 256] % 256 = BCM2835_I2C_REASON_OK ∧
        s.env.read_ret (BusOp.write [reg % 256] :: s.trace) n % 256
          = BCM2835_I2C_REASON_OK)) ∧
    ((i2c_tools_read_reg reg buf n s).1 = 0 ∨ (i2c_tools_read_reg reg buf n s).1 = -3) ∧
    (i2c_tools_read_reg reg buf n s).2.2.trace =
      (if s.env.write_ret s.trace [reg % 256] % 256 = BCM2835_I2C_REASON_OK
        then [BusOp.read n] else []) ++ BusOp.write [reg % 256] :: s.trace := by
  unfold i2c_tools_read_reg
  dsimp only [bcm2835_i2c_write, bcm2835_i2c_read]
  by_cases hw : s.env.write_ret s.trace [reg % 256] % 256 = BCM2835_I2C_REASON_OK
  · by_cases hr : s.env.read_ret (BusOp.write [reg % 256] :: s.trace) n % 256
        = BCM2835_I2C_REASON_OK
    · rw [if_neg (not_not.mpr hw), if_neg (not_not.mpr hr), if_pos hw]
      exact ⟨⟨fun _ => ⟨hw, hr⟩, fun _ => rfl⟩, Or.inl rfl, rfl⟩
    · rw [if_neg (not_not.mpr hw), if_pos hr, if_pos hw]
      exact ⟨⟨fun h => absurd (show (-3 : Int) = 0 from h) (by decide),
        fun h => absurd h.2 hr⟩, Or.inr rfl, rfl⟩
  · rw [if_pos hw, if_neg hw]
    exact ⟨⟨fun h => absurd (show (-3 : Int) = 0 from h) (by decide),
      fun h => absurd h.1 hw⟩, Or.inr rfl, rfl⟩

/-- The 24-bit word the bus delivers is never read as a negative number. -/
theorem reads24_nonneg (s : State) (reg : Nat) :
    0 ≤ (i2c_tool_reads24 reg s).1 ∧ (i2c_tool_reads24 reg s).1 < 16777216 := by
  have h := read24_lt (i2c_tools_read_reg reg (s.env.uninit s.trace) 3 s).2.2 reg
  have e : (i2c_tool_reads24 reg s).1 =
      wrap32 ((i2c_tool_read24 reg
        (i2c_tools_read_reg reg (s.env.uninit s.trace) 3 s).2.2).1 : Int) := rfl
  rw [e]
  unfold wrap32
  omega

/-- C11 fails on the code: with the bytes 0xFF, 0xFF, 0xFF on the bus (the 24-bit word
16777215, whose two's-complement value is -1) `i2c_tool_reads24` returns 16777215, after
issuing two read transactions. -/
theorem reads24_zero_extends :
    busReturns (bootState (regFileEnv (fun _ => 0xFF))) 0xFA [0xFF, 0xFF, 0xFF] ∧
    (i2c_tool_reads24 0xFA (bootState (regFileEnv (fun _ => 0xFF)))).1 = 16777215 ∧
    signed24 (65536 * 0xFF + 256 * 0xFF + 0xFF) = -1 ∧
    (i2c_tool_reads24 0xFA (bootState (regFileEnv (fun _ => 0xFF)))).2.transactions =
      [BusOp.write [0xFA], BusOp.read 3, BusOp.write [0xFA], BusOp.read 3] := by
  refine ⟨by decide, by decide, by decide, by decide⟩

/-! ## Sampling configuration -/

theorem write_reg_transactions (r d : Nat) (s : State) :
    (i2c_tool_write_reg r d s).2.transactions =
      s.transactions ++ [BusOp.write [r % 256, d % 256]] := by
  unfold i2c_tool_write_reg State.transactions bcm2835_i2c_write
  simp [BusOp.isTransaction]

theorem set_sampling_trace (s : State) :
    (bme280_set_sampling s).trace =
      BusOp.write [0xF4, 0xB6] :: BusOp.write [0xF5, 0x00] :: BusOp.write [0xF2, 0x05] ::
        BusOp.write [0xF4, 0x00] ::
          (i2c_tools_set_slave_address s.bme280_slave_addr s).2.trace := by
  unfold bme280_set_sampling
  simp only [i2c_tool_write_reg, bcm2835_i2c_write]
  rfl

/-- C19: `bme280_set_sampling` issues exactly four bus transactions, all register writes,
in this order: CONTROL (0xF4) <- 0x00, CONTROLHUMID (0xF2) <- 0x05, CONFIG (0xF5) <- 0x00,
CONTROL (0xF4) <- 0xB6, where 0xB6 = (5 << 5) | (5 << 2) | 2. -/
theorem set_sampling_write_order (s : State) :
    (bme280_set_sampling s).transactions =
      s.transactions ++
        [BusOp.write [0xF4, 0x00], BusOp.write [0xF2, 0x05], BusOp.write [0xF5, 0x00],
         BusOp.write [0xF4, 0xB6]] ∧
    (5 <<< 5) ||| (5 <<< 2) ||| 2 = 0xB6 ∧
    (bme280_set_sampling s).meas_reg = { osrs_t := 5, osrs_p := 5, mode := 2 } ∧
    (bme280_set_sampling s).hum_reg.osrs_h = 5 := by
  refine ⟨?_, by decide, rfl, rfl⟩
  have h := set_slave_address_transactions s.bme280_slave_addr s
  unfold State.transactions at h ⊢
  rw [set_sampling_trace]
  simp [BusOp.isTransaction, h]

/-! ## MPU6050: identity check, sensitivity look-up, addressing -/

/-- C15 fails on the code: when WHO_AM_I delivers 0x58, not the MPU6050 identity 0x68,
`mpu6050_begin` returns 0 and performs the wake-up write to PWR_MGMT_1 (0x6B); an identity
such as 0x00 (the device `strangerRegs`, whose register 0x75 reads 0) is rejected with -1
and no register write. -/
theorem mpu6050_accepts_identity_0x58 :
    (i2c_tool_read_byte MPU6050_WHO_AM_I
      (mpu6050_init_setup 0x68 (bootState (deviceEnv bmpRegs (fun _ => false)))).2).1 = 0x58 ∧
    (mpu6050_begin 0x68 (bootState (deviceEnv bmpRegs (fun _ => false)))).1 = 0 ∧
    (mpu6050_begin 0x68 (bootState (deviceEnv bmpRegs (fun _ => false)))).2.transactions =
      [BusOp.write [0x75], BusOp.read 1, BusOp.write [0x6B], BusOp.read 1,
       BusOp.write [0x6B, 0x00]] ∧
    (mpu6050_begin 0x68 (bootState (deviceEnv strangerRegs (fun _ => false)))).1 = -1 ∧
    (mpu6050_begin 0x68 (bootState (deviceEnv strangerRegs (fun _ => false)))).2.transactions =
      [BusOp.write [0x75], BusOp.read 1] := by
  refine ⟨by decide, by decide, by decide, by decide, by decide⟩

theorem get_gyro_sensitivity_value (s : State) :
    (mpu6050_get_gyro_sensitivity s).1 =
      gyro_sensitivity_of
        ((((i2c_tool_read_byte MPU6050_ACCEL_CONFIG
          (i2c_tools_set_slave_address s.mpu6050_slave_addr s).2).1 >>> 3) &&& 0x03) % 256) :=
  rfl

theorem get_acce_sensitivity_value (s : State) :
    (mpu6050_get_acce_sensitivity s).1 =
      acce_sensitivity_of
        ((((i2c_tool_read_byte MPU6050_ACCEL_CONFIG
          (i2c_tools_set_slave_address s.mpu6050_slave_addr s).2).1 >>> 3) &&& 0x03) % 256) :=
  rfl

theorem gyro_sensitivity_table :
    gyro_sensitivity_of 0 = 131 ∧ gyro_sensitivity_of 1 = 65.5 ∧
    gyro_sensitivity_of 2 = 32.8 ∧ gyro_sensitivity_of 3 = 16.4 := by
  unfold gyro_sensitivity_of
  refine ⟨by rw [if_pos (by decide)], ?_, ?_, ?_⟩
  · rw [if_neg (by decide), if_pos (by decide)]
  · rw [if_neg (by decide), if_neg (by decide), if_pos (by decide)]
  · rw [if_neg (by decide), if_neg (by decide), if_neg (by decide), if_pos (by decide)]

theorem acce_sensitivity_table :
    acce_sensitivity_of 0 = 16384 ∧ acce_sensitivity_of 1 = 8192 ∧
    acce_sensitivity_of 2 = 4096 ∧ acce_sensitivity_of 3 = 2048 := by
  unfold acce_sensitivity_of
  refine ⟨by rw [if_pos (by decide)], ?_, ?_, ?_⟩
  · rw [if_neg (by decide), if_pos (by decide)]
  · rw [if_neg (by decide), if_neg (by decide), if_pos (by decide)]
  · rw [if_neg (by decide), if_neg (by decide), if_neg (by decide), if_pos (by decide)]

/-- C17 fails on the code: on a device whose ACCEL_CONFIG and GYRO_CONFIG are 0, after a
successful `mpu6050_set_gyro_fs(MPU6050_RANGE_500_DEG)` the device holds range 1 in
GYRO_CONFIG (0x08), yet `mpu6050_get_gyro_sensitivity` returns 131, the divisor of the
250 deg/s range, and not 65.5. -/
theorem gyro_round_trip_fails :
    (mpu6050_set_gyro_fs MPU6050_RANGE_500_DEG mpuSession).1 = 0 ∧
    regsAfter mpuSession.env.write_ret mpuRegs
      (mpu6050_set_gyro_fs MPU6050_RANGE_500_DEG mpuSession).2.trace 0x1B = 0x08 ∧
    (mpu6050_get_gyro_sensitivity
      (mpu6050_set_gyro_fs MPU6050_RANGE_500_DEG mpuSession).2).1 = 131 ∧
    gyro_sensitivity_of MPU6050_RANGE_500_DEG = 65.5 ∧
    (mpu6050_get_gyro_sensitivity
      (mpu6050_set_gyro_fs MPU6050_RANGE_500_DEG mpuSession).2).1
      ≠ gyro_sensitivity_of MPU6050_RANGE_500_DEG := by
  have hb : ((((i2c_tool_read_byte MPU6050_ACCEL_CONFIG
      (i2c_tools_set_slave_address
        (mpu6050_set_gyro_fs MPU6050_RANGE_500_DEG mpuSession).2.mpu6050_slave_addr
        (mpu6050_set_gyro_fs MPU6050_RANGE_500_DEG mpuSession).2).2).1 >>> 3) &&& 0x03) % 256)
      = 0 := by decide
  have h1 : (mpu6050_get_gyro_sensitivity
      (mpu6050_set_gyro_fs MPU6050_RANGE_500_DEG mpuSession).2).1 = 131 := by
    rw [get_gyro_sensitivity_value, hb]
    exact gyro_sensitivity_table.1
  have h2 : gyro_sensitivity_of MPU6050_RANGE_500_DEG = 65.5 := gyro_sensitivity_table.2.1
  refine ⟨by decide, by decide, h1, h2, ?_⟩
  rw [h1, h2]
  norm_num

/-- C20 fails on the code: called on a bus where the BME280 (0x76) was addressed last,
`mpu6050_get_raw_gyro` and `mpu6050_get_raw_acce` issue their transactions while 0x76 is
selected, although the module's stored address is 0x68; `mpu6050_get_gyro`, which selects
the address first, issues its transactions to 0x68. -/
theorem raw_reads_keep_foreign_address :
    afterBmeState.mpu6050_slave_addr = 0x68 ∧
    selectedAddress afterBmeState.trace = some 0x76 ∧
    (addressing (mpu6050_get_raw_gyro afterBmeState).2.trace).take 2 =
      [(BusOp.read 6, some 0x76), (BusOp.write [0x43], some 0x76)] ∧
    (addressing (mpu6050_get_raw_acce afterBmeState).2.trace).take 2 =
      [(BusOp.read 6, some 0x76), (BusOp.write [0x3B], some 0x76)] ∧
    (addressing (mpu6050_get_gyro afterBmeState).2.2.trace).take 4 =
      [(BusOp.read 6, some 0x68), (BusOp.write [0x43], some 0x68),
       (BusOp.read 1, some 0x68), (BusOp.write [0x1C], some 0x68)] := by
  refine ⟨by decide, by decide, by decide, by decide, by decide⟩

/-! ## Auxiliary facts: a device that stores register writes -/

set_option maxRecDepth 100000 in
theorem range_bits_spec : ∀ tmp < 256, ∀ fs < 4,
    range_bits tmp fs = (tmp &&& 0xE7) ||| (fs <<< 3) ∧
    ((range_bits tmp fs >>> 3) &&& 0x03) % 256 = fs ∧ range_bits tmp fs < 256 := by
  decide

section Device

variable (st : List BusOp → List Nat → Nat) (init : Nat → Nat) (a r d : Nat) (s : State)

theorem regsAfter_set_slave :
    regsAfter st init (i2c_tools_set_slave_address a s).2.trace = regsAfter st init s.trace := by
  unfold i2c_tools_set_slave_address
  dsimp only [bcm2835_i2c_begin]
  split <;> rfl

theorem read_byte_trace :
    (i2c_tool_read_byte r s).2.trace =
      (if s.env.write_ret s.trace [r % 256] % 256 = BCM2835_I2C_REASON_OK
        then [BusOp.read 1] else []) ++ BusOp.write [r % 256] :: s.trace :=
  read_reg_trace s r 1 (s.env.uninit s.trace)

theorem regsAfter_read_byte :
    regsAfter st init (i2c_tool_read_byte r s).2.trace = regsAfter st init s.trace := by
  rw [read_byte_trace]
  split <;> rfl

theorem regsAfter_write_reg :
    regsAfter st init (i2c_tool_write_reg r d s).2.trace =
      applyWrite st s.trace (BusOp.write [r % 256, d % 256]) (regsAfter st init s.trace) :=
  rfl

theorem write_reg_env : (i2c_tool_write_reg r d s).2.env = s.env := rfl

theorem write_reg_mpu6050_slave_addr :
    (i2c_tool_write_reg r d s).2.mpu6050_slave_addr = s.mpu6050_slave_addr := rfl

theorem read_byte_mpu6050_slave_addr :
    (i2c_tool_read_byte r s).2.mpu6050_slave_addr = s.mpu6050_slave_addr := by
  unfold i2c_tool_read_byte i2c_tools_read_reg
  dsimp only
  split
  · rfl
  · split <;> rfl

theorem set_slave_address_mpu6050_slave_addr :
    (i2c_tools_set_slave_address a s).2.mpu6050_slave_addr = s.mpu6050_slave_addr := by
  unfold i2c_tools_set_slave_address
  dsimp only
  split <;> rfl

theorem read_byte_stored (h : s.env.storesRegisters init) :
    (i2c_tool_read_byte r s).1 = regsAfter s.env.write_ret init s.trace (r % 256) % 256 := by
  unfold i2c_tool_read_byte
  dsimp only
  rw [read_reg_buffer r 1 _ s (h s.trace (r % 256) 1 0).1 0 (by decide), Nat.mod_mod,
    (h s.trace (r % 256) 1 0).2, Nat.add_zero]

/-- The byte a sensitivity look-up reads from ACCEL_CONFIG is the device's current
register. -/
theorem accel_config_read (h : s.env.storesRegisters init) :
    (i2c_tool_read_byte MPU6050_ACCEL_CONFIG
      (i2c_tools_set_slave_address s.mpu6050_slave_addr s).2).1 =
      regsAfter s.env.write_ret init s.trace 0x1C % 256 := by
  have h1 : (i2c_tools_set_slave_address s.mpu6050_slave_addr s).2.env.storesRegisters init := by
    rw [set_slave_address_env]; exact h
  rw [read_byte_stored init _ _ h1, set_slave_address_env, regsAfter_set_slave]
  rfl

end Device

theorem set_acce_fs_eq (s : State) (fs : Nat) :
    mpu6050_set_acce_fs fs s =
      i2c_tool_write_reg MPU6050_ACCEL_CONFIG
        (range_bits (i2c_tool_read_byte MPU6050_ACCEL_CONFIG
          (i2c_tools_set_slave_address s.mpu6050_slave_addr s).2).1 fs)
        (i2c_tool_read_byte MPU6050_ACCEL_CONFIG
          (i2c_tools_set_slave_address s.mpu6050_slave_addr s).2).2 := rfl

theorem set_gyro_fs_eq (s : State) (fs : Nat) :
    mpu6050_set_gyro_fs fs s =
      i2c_tool_write_reg MPU6050_GYRO_CONFIG
        (range_bits (i2c_tool_read_byte MPU6050_GYRO_CONFIG
          (i2c_tools_set_slave_address s.mpu6050_slave_addr s).2).1 fs)
        (i2c_tool_read_byte MPU6050_GYRO_CONFIG
          (i2c_tools_set_slave_address s.mpu6050_slave_addr s).2).2 := rfl

theorem set_fs_env (s : State) (fs : Nat) :
    (mpu6050_set_acce_fs fs s).2.env = s.env ∧ (mpu6050_set_gyro_fs fs s).2.env = s.env := by
  rw [set_acce_fs_eq, set_gyro_fs_eq, write_reg_env, write_reg_env, read_byte_env,
    read_byte_env, set_slave_address_env]
  exact ⟨rfl, rfl⟩

/-- The device registers after `mpu6050_set_acce_fs`: ACCEL_CONFIG holds the written byte
when the write was acknowledged. -/
theorem set_acce_fs_regs (s : State) (init : Nat → Nat) (fs : Nat)
    (hw : (mpu6050_set_acce_fs fs s).1 = 0) :
    regsAfter s.env.write_ret init (mpu6050_set_acce_fs fs s).2.trace 0x1C =
      range_bits (i2c_tool_read_byte MPU6050_ACCEL_CONFIG
        (i2c_tools_set_slave_address s.mpu6050_slave_addr s).2).1 fs % 256 := by
  have e : (i2c_tool_read_byte MPU6050_ACCEL_CONFIG
      (i2c_tools_set_slave_address s.mpu6050_slave_addr s).2).2.env = s.env := by
    rw [read_byte_env, set_slave_address_env]
  rw [set_acce_fs_eq] at hw ⊢
  rw [regsAfter_write_reg]
  unfold i2c_tool_write_reg bcm2835_i2c_write at hw
  dsimp only at hw
  rw [e] at hw
  have hw0 : s.env.write_ret
      (i2c_tool_read_byte MPU6050_ACCEL_CONFIG
        (i2c_tools_set_slave_address s.mpu6050_slave_addr s).2).2.trace
      [MPU6050_ACCEL_CONFIG % 256,
       range_bits (i2c_tool_read_byte MPU6050_ACCEL_CONFIG
        (i2c_tools_set_slave_address s.mpu6050_slave_addr s).2).1 fs % 256] % 256
      = BCM2835_I2C_REASON_OK := by
    have : s.env.write_ret
      (i2c_tool_read_byte MPU6050_ACCEL_CONFIG
        (i2c_tools_set_slave_address s.mpu6050_slave_addr s).2).2.trace
      [MPU6050_ACCEL_CONFIG % 256,
       range_bits (i2c_tool_read_byte MPU6050_ACCEL_CONFIG
        (i2c_tools_set_slave_address s.mpu6050_slave_addr s).2).1 fs % 256] = 0 := by
      exact_mod_cast hw
    rw [this]
    rfl
  unfold applyWrite
  dsimp only
  rw [if_pos hw0]
  exact if_pos rfl

/-- The device register ACCEL_CONFIG is not touched by `mpu6050_set_gyro_fs`. -/
theorem set_gyro_fs_regs (s : State) (init : Nat → Nat) (fs : Nat) :
    regsAfter s.env.write_ret init (mpu6050_set_gyro_fs fs s).2.trace 0x1C =
      regsAfter s.env.write_ret init s.trace 0x1C := by
  rw [set_gyro_fs_eq, regsAfter_write_reg, regsAfter_read_byte, regsAfter_set_slave]
  unfold applyWrite
  dsimp only
  split
  · exact if_neg (by decide)
  · rfl

theorem read_byte_lt (r : Nat) (s : State) : (i2c_tool_read_byte r s).1 < 256 := by
  unfold i2c_tool_read_byte
  exact Nat.mod_lt _ (by decide)

/-- C16: on a device that stores register writes, for every initial content of
ACCEL_CONFIG and each range r in 0..3 (2, 4, 8, 16 g), when the register write of
`mpu6050_set_acce_fs(r)` succeeds, `mpu6050_get_acce_sensitivity` then returns 16384, 8192,
4096, 2048 respectively. -/
theorem accel_range_round_trip (s : State) (init : Nat → Nat) (r : Nat) (hr : r < 4)
    (hdev : s.env.storesRegisters init) (hw : (mpu6050_set_acce_fs r s).1 = 0) :
    (mpu6050_get_acce_sensitivity (mpu6050_set_acce_fs r s).2).1 =
      if r = 0 then 16384 else if r = 1 then 8192 else if r = 2 then 4096 else 2048 := by
  have hdev1 : (mpu6050_set_acce_fs r s).2.env.storesRegisters init := by
    rw [(set_fs_env s r).1]; exact hdev
  obtain ⟨-, h2, h3⟩ := range_bits_spec _ (read_byte_lt MPU6050_ACCEL_CONFIG
    (i2c_tools_set_slave_address s.mpu6050_slave_addr s).2) r hr
  rw [get_acce_sensitivity_value, accel_config_read init _ hdev1, (set_fs_env s r).1,
    set_acce_fs_regs s init r hw, Nat.mod_eq_of_lt h3, Nat.mod_eq_of_lt h3, h2]
  have ht := acce_sensitivity_table
  interval_cases r
  · exact ht.1
  · exact ht.2.1
  · exact ht.2.2.1
  · exact ht.2.2.2

/-- C16, at the initialised MPU6050 session with the range 8 g. -/
theorem accel_range_round_trip_witness :
    ((2 : Nat) < 4 ∧ mpuSession.env.storesRegisters mpuRegs ∧
      (mpu6050_set_acce_fs 2 mpuSession).1 = 0) ∧
    (mpu6050_get_acce_sensitivity (mpu6050_set_acce_fs 2 mpuSession).2).1 =
      if (2 : Nat) = 0 then 16384 else if (2 : Nat) = 1 then 8192
      else if (2 : Nat) = 2 then 4096 else 2048 :=
  ⟨⟨by decide, fun _ _ _ _ => ⟨rfl, rfl⟩, by decide⟩,
   accel_range_round_trip mpuSession mpuRegs 2 (by decide) (fun _ _ _ _ => ⟨rfl, rfl⟩)
     (by decide)⟩

/-- C18: `mpu6050_get_gyro_sensitivity` looks the divisor up from bits 3-4 of ACCEL_CONFIG
(0x1C): on devices that store register writes, two sessions whose ACCEL_CONFIG registers
agree on bits 3-4 get the same divisor whatever GYRO_CONFIG holds, and
`mpu6050_set_gyro_fs` leaves the divisor unchanged. -/
theorem gyro_sensitivity_follows_accel_config (s1 s2 : State) (init1 init2 : Nat → Nat)
    (fs : Nat) (h1 : s1.env.storesRegisters init1) (h2 : s2.env.storesRegisters init2)
    (hbits : ((regsAfter s1.env.write_ret init1 s1.trace 0x1C % 256) >>> 3) &&& 0x03 =
      ((regsAfter s2.env.write_ret init2 s2.trace 0x1C % 256) >>> 3) &&& 0x03) :
    (mpu6050_get_gyro_sensitivity s1).1 =
      gyro_sensitivity_of
        ((((regsAfter s1.env.write_ret init1 s1.trace 0x1C % 256) >>> 3) &&& 0x03) % 256) ∧
    (mpu6050_get_gyro_sensitivity s1).1 = (mpu6050_get_gyro_sensitivity s2).1 ∧
    (mpu6050_get_gyro_sensitivity (mpu6050_set_gyro_fs fs s1).2).1 =
      (mpu6050_get_gyro_sensitivity s1).1 := by
  have hg : (mpu6050_set_gyro_fs fs s1).2.env.storesRegisters init1 := by
    rw [(set_fs_env s1 fs).2]; exact h1
  have e1 := get_gyro_sensitivity_value s1
  have e2 := get_gyro_sensitivity_value s2
  have e3 := get_gyro_sensitivity_value (mpu6050_set_gyro_fs fs s1).2
  rw [accel_config_read init1 _ h1] at e1
  rw [accel_config_read init2 _ h2] at e2
  rw [accel_config_read init1 _ hg, (set_fs_env s1 fs).2, set_gyro_fs_regs] at e3
  refine ⟨e1, ?_, ?_⟩
  · rw [e1, e2, hbits]
  · rw [e1, e3]

/-- C18, at two MPU6050 sessions whose GYRO_CONFIG registers hold 0x00 and 0x18. -/
theorem gyro_sensitivity_follows_accel_config_witness :
    (mpuSession.env.storesRegisters mpuRegs ∧
      (bootState (deviceEnv mpuRegsGyro2000 (fun _ => false))).env.storesRegisters
        mpuRegsGyro2000 ∧
      ((regsAfter mpuSession.env.write_ret mpuRegs mpuSession.trace 0x1C % 256) >>> 3)
          &&& 0x03 =
        ((regsAfter (bootState (deviceEnv mpuRegsGyro2000 (fun _ => false))).env.write_ret
          mpuRegsGyro2000 (bootState (deviceEnv mpuRegsGyro2000 (fun _ => false))).trace
          0x1C % 256) >>> 3) &&& 0x03) ∧
    (mpu6050_get_gyro_sensitivity mpuSession).1 =
      (mpu6050_get_gyro_sensitivity
        (bootState (deviceEnv mpuRegsGyro2000 (fun _ => false)))).1 ∧
    (mpu6050_get_gyro_sensitivity (mpu6050_set_gyro_fs 3 mpuSession).2).1 =
      (mpu6050_get_gyro_sensitivity mpuSession).1 :=
  ⟨⟨fun _ _ _ _ => ⟨rfl, rfl⟩, fun _ _ _ _ => ⟨rfl, rfl⟩, by decide⟩,
   (gyro_sensitivity_follows_accel_config mpuSession
      (bootState (deviceEnv mpuRegsGyro2000 (fun _ => false))) mpuRegs mpuRegsGyro2000 3
      (fun _ _ _ _ => ⟨rfl, rfl⟩) (fun _ _ _ _ => ⟨rfl, rfl⟩) (by decide)).2.1,
   (gyro_sensitivity_follows_accel_config mpuSession
      (bootState (deviceEnv mpuRegsGyro2000 (fun _ => false))) mpuRegs mpuRegsGyro2000 3
      (fun _ _ _ _ => ⟨rfl, rfl⟩) (fun _ _ _ _ => ⟨rfl, rfl⟩) (by decide)).2.2⟩

/-! ## Initialisation -/

theorem reset_status (s : State) : (bme280_reset s).1 = (soft_reset_status s : Int) := by
  unfold bme280_reset soft_reset_status i2c_tool_write_reg bcm2835_i2c_write
  dsimp only
  split
  · rfl
  · next h => exact (not_not.mp h).symm

theorem init_setup_zero (slave : Nat) (s : State) (h : (bme280_init_setup slave s).1 = 0) :
    (i2c_tools_init s).1 = 0 ∧
    (i2c_tools_set_slave_address slave (i2c_tools_init s).2).1 = 0 ∧
    (bme280_reset (bme280_reset_session slave s)).1 = 0 := by
  unfold bme280_init_setup at h
  dsimp only at h
  by_cases h1 : (i2c_tools_init s).1 = (BCM2835_I2C_REASON_OK : Int)
  · rw [if_neg (not_not.mpr h1)] at h
    by_cases h2 : (i2c_tools_set_slave_address slave (i2c_tools_init s).2).1
        = (BCM2835_I2C_REASON_OK : Int)
    · rw [if_neg (not_not.mpr h2)] at h
      by_cases h3 : (bme280_reset (bme280_reset_session slave s)).1 = 0
      · exact ⟨h1, h2, h3⟩
      · have h3a : (bme280_reset ({ (i2c_tools_set_slave_address slave
            (i2c_tools_init s).2).2 with bme280_slave_addr := slave % 256 } : State)).1 ≠ 0 :=
          h3
        rw [if_pos h3a] at h
        exact absurd h h3
    · rw [if_pos h2] at h
      exact absurd h h2
  · rw [if_pos h1] at h
    exact absurd h h1

theorem init_setup_of_reset_failure (slave : Nat) (s : State)
    (h1 : (i2c_tools_init s).1 = 0)
    (h2 : (i2c_tools_set_slave_address slave (i2c_tools_init s).2).1 = 0)
    (h3 : (bme280_reset (bme280_reset_session slave s)).1 ≠ 0) :
    bme280_init_setup slave s =
      ((bme280_reset (bme280_reset_session slave s)).1,
       (bme280_reset (bme280_reset_session slave s)).2) := by
  have h1a : ¬ (i2c_tools_init s).1 ≠ (BCM2835_I2C_REASON_OK : Int) := not_not.mpr h1
  have h2a : ¬ (i2c_tools_set_slave_address slave (i2c_tools_init s).2).1
      ≠ (BCM2835_I2C_REASON_OK : Int) := not_not.mpr h2
  have h3a : (bme280_reset ({ (i2c_tools_set_slave_address slave
      (i2c_tools_init s).2).2 with bme280_slave_addr := slave % 256 } : State)).1 ≠ 0 := h3
  unfold bme280_init_setup
  dsimp only
  rw [if_neg h1a, if_neg h2a, if_pos h3a]
  rfl

theorem init_of_setup_failure (slave : Nat) (s : State)
    (h : (bme280_init_setup slave s).1 ≠ 0) :
    bme280_init slave s = ((bme280_init_setup slave s).1, (bme280_init_setup slave s).2) := by
  unfold bme280_init
  dsimp only
  rw [if_pos h]

theorem init_of_setup (slave : Nat) (s : State) (h : (bme280_init_setup slave s).1 = 0) :
    bme280_init slave s =
      if (chip_id_read slave s).1 = 0x60 then (0, (chip_id_read slave s).2)
      else if (chip_id_read slave s).1 = 0x58 then (0, (chip_id_read slave s).2)
      else (-1, (chip_id_read slave s).2) := by
  unfold bme280_init chip_id_read
  dsimp only
  rw [if_neg (not_not.mpr h)]

theorem init_zero (slave : Nat) (s : State) (h : (bme280_init slave s).1 = 0) :
    (bme280_init_setup slave s).1 = 0 := by
  by_cases h0 : (bme280_init_setup slave s).1 = 0
  · exact h0
  · rw [init_of_setup_failure slave s h0] at h
    exact absurd h h0

theorem begin_of_init_failure (fuel slave : Nat) (s : State)
    (h : (bme280_init slave s).1 ≠ 0) :
    bme280_begin fuel slave s = some (-1, (bme280_init slave s).2) := by
  unfold bme280_begin
  dsimp only
  rw [if_pos h]

theorem begin_of_init (fuel slave : Nat) (s : State) (h : (bme280_init slave s).1 = 0) :
    bme280_begin fuel slave s =
      (bme280_wait_calibration fuel (bme280_init slave s).2).map fun s1 =>
        (0, bcm2835_delay 100 (bme280_set_sampling (bme280_read_coefficients s1))) := by
  unfold bme280_begin
  dsimp only
  rw [if_neg (not_not.mpr h)]

theorem begin_zero (fuel slave : Nat) (s : State) (r : Int × State)
    (h : bme280_begin fuel slave s = some r) (h0 : r.1 = 0) :
    (bme280_init slave s).1 = 0 := by
  by_cases hi : (bme280_init slave s).1 = 0
  · exact hi
  · rw [begin_of_init_failure fuel slave s hi] at h
    have e : r = (-1, (bme280_init slave s).2) := (Option.some.inj h).symm
    rw [e] at h0
    exact absurd (show (-1 : Int) = 0 from h0) (by decide)

/-- The one transaction status that `bme280_begin` checks: if the soft-reset write issued
during the call fails, the call returns the non-zero error -1; a return value of 0 implies
that the soft-reset write succeeded. -/
theorem begin_reports_soft_reset_failure (fuel slave : Nat) (s : State) :
    ((i2c_tools_init s).1 = 0 →
      (i2c_tools_set_slave_address slave (i2c_tools_init s).2).1 = 0 →
      soft_reset_status (bme280_reset_session slave s) % 256 ≠ BCM2835_I2C_REASON_OK →
      bme280_begin fuel slave s =
        some (-1, (bme280_reset (bme280_reset_session slave s)).2)) ∧
    (∀ r : Int × State, bme280_begin fuel slave s = some r → r.1 = 0 →
      soft_reset_status (bme280_reset_session slave s) % 256 = BCM2835_I2C_REASON_OK) := by
  constructor
  · intro h1 h2 h3
    have hr : (bme280_reset (bme280_reset_session slave s)).1 ≠ 0 := by
      rw [reset_status]
      intro h0
      have h00 : soft_reset_status (bme280_reset_session slave s) = 0 := by exact_mod_cast h0
      rw [h00] at h3
      exact h3 rfl
    have e := init_setup_of_reset_failure slave s h1 h2 hr
    have hs : (bme280_init_setup slave s).1 ≠ 0 := by rw [e]; exact hr
    have hi : (bme280_init slave s).1 ≠ 0 := by
      rw [init_of_setup_failure slave s hs]; exact hs
    rw [begin_of_init_failure fuel slave s hi, init_of_setup_failure slave s hs, e]
  · intro r h h0
    have h3 := (init_setup_zero slave s (init_zero slave s (begin_zero fuel slave s r h h0))).2.2
    rw [reset_status] at h3
    have h00 : soft_reset_status (bme280_reset_session slave s) = 0 := by exact_mod_cast h3
    rw [h00]
    rfl

theorem wait_ready (fuel : Nat) (s : State) (h : (bme280_in_calibration s).1 = 0) :
    bme280_wait_calibration (fuel + 1) s = some (bme280_in_calibration s).2 := by
  unfold bme280_wait_calibration
  dsimp only
  rw [if_neg (not_not.mpr h)]

theorem begin_from_bmeBoot : bme280_begin 1 0x76 bmeBoot = some (0, bmeBegun) := by
  have hs : (bme280_init_setup 0x76 bmeBoot).1 = 0 := by decide
  have hi : bme280_init 0x76 bmeBoot = (0, (chip_id_read 0x76 bmeBoot).2) := by
    rw [init_of_setup 0x76 bmeBoot hs, if_pos (by decide)]
  have hi0 : (bme280_init 0x76 bmeBoot).1 = 0 := by rw [hi]
  rw [begin_of_init 1 0x76 bmeBoot hi0, hi]
  dsimp only
  rw [wait_ready 0 _ (by decide)]
  rfl

/-- The checked soft-reset status, at a BME280 that does not acknowledge the soft reset (the
call returns -1) and at a ready BME280 (the call returns 0, the soft reset was
acknowledged). -/
theorem begin_reports_soft_reset_failure_witness :
    ((i2c_tools_init resetNackBoot).1 = 0 ∧
      (i2c_tools_set_slave_address 0x76 (i2c_tools_init resetNackBoot).2).1 = 0 ∧
      soft_reset_status (bme280_reset_session 0x76 resetNackBoot) % 256
        ≠ BCM2835_I2C_REASON_OK ∧
      bme280_begin 1 0x76 bmeBoot = some (0, bmeBegun)) ∧
    bme280_begin 1 0x76 resetNackBoot =
      some (-1, (bme280_reset (bme280_reset_session 0x76 resetNackBoot)).2) ∧
    soft_reset_status (bme280_reset_session 0x76 bmeBoot) % 256 = BCM2835_I2C_REASON_OK :=
  ⟨⟨by decide, by decide, by decide, begin_from_bmeBoot⟩,
   (begin_reports_soft_reset_failure 1 0x76 resetNackBoot).1 (by decide) (by decide)
     (by decide),
   (begin_reports_soft_reset_failure 1 0x76 bmeBoot).2 (0, bmeBegun) begin_from_bmeBoot rfl⟩

set_option maxRecDepth 100000 in
/-- C13 fails on the code: `bme280_begin` returns 0 although the four register writes of
`bme280_set_sampling` are not acknowledged (their statuses, returned by
`i2c_tool_write_reg`, are dropped, while `bme280_reset` checks the status of the same call),
and also when every one of its 22 read transactions reports a failure; `mpu6050_begin`
returns 0 although the wake-up write is not acknowledged (the status `mpu6050_wake_up`
returns is dropped). -/
theorem unreported_transaction_failures :
    (bme280_begin 1 0x76 (bootState (deviceEnv bmeRegs nackConfigWrites))).map Prod.fst
      = some 0 ∧
    (bme280_begin 1 0x76 (bootState (deviceEnv bmeRegs nackConfigWrites))).map
        (fun r => failedTransactions r.2.env r.2.trace)
      = some [BusOp.write [0xF4, 0xB6], BusOp.write [0xF5, 0x00], BusOp.write [0xF2, 0x05],
          BusOp.write [0xF4, 0x00]] ∧
    (bme280_begin 1 0x76 (bootState failingReadsEnv)).map
        (fun r => (r.1, (failedTransactions r.2.env r.2.trace).length))
      = some (0, 22) ∧
    (mpu6050_begin 0x68 (bootState (deviceEnv mpuRegs (fun bs => bs.length == 2)))).1 = 0 ∧
    failedTransactions (deviceEnv mpuRegs (fun bs => bs.length == 2))
        (mpu6050_begin 0x68 (bootState (deviceEnv mpuRegs (fun bs => bs.length == 2)))).2.trace
      = [BusOp.write [0x6B, 0x00]] := by
  refine ⟨by decide, by decide, by decide, by decide, by decide⟩

theorem sameConfig_trans {a b c : State} (h1 : sameConfig a b) (h2 : sameConfig b c) :
    sameConfig a c :=
  ⟨h1.1.trans h2.1, h1.2.1.trans h2.2.1, h1.2.2.1.trans h2.2.2.1, h1.2.2.2.trans h2.2.2.2⟩

theorem tools_init_sameConfig (s : State) : sameConfig (i2c_tools_init s).2 s := by
  unfold sameConfig i2c_tools_init bcm2835_init
  dsimp only
  split <;> exact ⟨rfl, rfl, rfl, rfl⟩

theorem set_slave_address_sameConfig (a : Nat) (s : State) :
    sameConfig (i2c_tools_set_slave_address a s).2 s := by
  unfold sameConfig i2c_tools_set_slave_address bcm2835_i2c_begin
  dsimp only
  split <;> exact ⟨rfl, rfl, rfl, rfl⟩

theorem write_reg_sameConfig (r d : Nat) (s : State) :
    sameConfig (i2c_tool_write_reg r d s).2 s :=
  ⟨rfl, rfl, rfl, rfl⟩

theorem reset_sameConfig (s : State) : sameConfig (bme280_reset s).2 s := by
  have h := sameConfig_trans
    (write_reg_sameConfig BME280_REGISTER_SOFTRESET 0xB6
      (i2c_tools_set_slave_address s.bme280_slave_addr s).2)
    (set_slave_address_sameConfig s.bme280_slave_addr s)
  unfold bme280_reset
  dsimp only
  split <;> exact h

theorem init_setup_sameConfig (slave : Nat) (s : State) :
    sameConfig (bme280_init_setup slave s).2 s := by
  have h1 := tools_init_sameConfig s
  have h2 := sameConfig_trans (set_slave_address_sameConfig slave (i2c_tools_init s).2) h1
  have h3 : sameConfig (bme280_reset_session slave s) s := h2
  have h4 := sameConfig_trans (reset_sameConfig (bme280_reset_session slave s)) h3
  have h5 : sameConfig (bcm2835_delay 2 (bme280_reset (bme280_reset_session slave s)).2) s := h4
  unfold bme280_init_setup
  dsimp only
  split
  · exact h1
  · split
    · exact h2
    · split
      · exact h4
      · exact h5

theorem read_byte_sameConfig (r : Nat) (s : State) :
    sameConfig (i2c_tool_read_byte r s).2 s := by
  unfold sameConfig i2c_tool_read_byte i2c_tools_read_reg bcm2835_i2c_write bcm2835_i2c_read
  dsimp only
  split_ifs <;> exact ⟨rfl, rfl, rfl, rfl⟩

theorem chip_id_read_sameConfig (slave : Nat) (s : State) :
    sameConfig (chip_id_read slave s).2 s := by
  have h1 := init_setup_sameConfig slave s
  have h2 := read_byte_sameConfig BME280_REGISTER_CHIPID (bme280_init_setup slave s).2
  unfold chip_id_read
  unfold sameConfig at *
  exact ⟨h2.1.trans h1.1, h2.2.1.trans h1.2.1, h2.2.2.1.trans h1.2.2.1,
    h2.2.2.2.trans h1.2.2.2⟩

theorem wait_busy (fuel : Nat) (s : State) (h : (bme280_in_calibration s).1 ≠ 0) :
    bme280_wait_calibration (fuel + 1) s =
      bme280_wait_calibration fuel (bcm2835_delay 10 (bme280_in_calibration s).2) := by
  rw [bme280_wait_calibration]
  exact if_pos h

theorem readyAfter_succ (n : Nat) (s : State) (h : readyAfter (n + 1) s) :
    (bme280_in_calibration s).1 ≠ 0 ∧
    readyAfter n (bcm2835_delay 10 (bme280_in_calibration s).2) :=
  ⟨h.1 0 (Nat.succ_pos n), fun k hk => h.1 (k + 1) (Nat.succ_lt_succ hk), h.2⟩

/-- The wait loop ends at the first poll that finds the status bit clear: when that is the
poll number `n`, any fuel above `n` suffices. -/
theorem wait_terminates (n : Nat) :
    ∀ (s : State) (fuel : Nat), readyAfter n s → n < fuel →
      bme280_wait_calibration fuel s = some (bme280_in_calibration (after_polls n s)).2 := by
  induction n with
  | zero =>
    intro s fuel h hf
    obtain ⟨f, rfl⟩ : ∃ f, fuel = f + 1 := ⟨fuel - 1, by omega⟩
    exact wait_ready f s h.2
  | succ n ih =>
    intro s fuel h hf
    obtain ⟨f, rfl⟩ : ∃ f, fuel = f + 1 := ⟨fuel - 1, by omega⟩
    obtain ⟨hb, hr⟩ := readyAfter_succ n s h
    rw [wait_busy f s hb, ih _ f hr (by omega)]
    rfl

/-- The wait loop ends only when some poll finds the status bit clear. -/
theorem wait_some (fuel : Nat) :
    ∀ (s s1 : State), bme280_wait_calibration fuel s = some s1 →
      ∃ n, n < fuel ∧ readyAfter n s ∧ s1 = (bme280_in_calibration (after_polls n s)).2 := by
  induction fuel with
  | zero =>
    intro s s1 h
    rw [bme280_wait_calibration] at h
    exact absurd h (by simp)
  | succ f ih =>
    intro s s1 h
    by_cases hb : (bme280_in_calibration s).1 = 0
    · rw [wait_ready f s hb] at h
      exact ⟨0, Nat.succ_pos f, ⟨fun k hk => absurd hk (Nat.not_lt_zero k), hb⟩,
        (Option.some.inj h).symm⟩
    · rw [wait_busy f s hb] at h
      obtain ⟨n, hn, hr, he⟩ := ih _ s1 h
      refine ⟨n + 1, Nat.succ_lt_succ hn, ⟨?_, hr.2⟩, he⟩
      intro k hk
      cases k with
      | zero => exact hb
      | succ j => exact hr.1 j (Nat.lt_of_succ_lt_succ hk)

/-- C14, as amended: after a successful bus set-up and soft reset, a chip-ID byte other
than 0x60 and 0x58 makes `bme280_begin` return -1 in the session the chip-ID read left
(nothing is issued after that read) with calibration data and sampling configuration
unchanged; with a chip-ID byte 0x60 or 0x58, when the status register reports the
calibration copy as finished at the poll number n of the wait loop (and as running at the
polls before), the call returns 0 for every fuel above n, with the calibration loaded and
the sampling configured after exactly those polls; and the call returns only in that
case. -/
theorem chip_id_gate (fuel slave : Nat) (s : State) :
    ((bme280_init_setup slave s).1 = 0 →
      (chip_id_read slave s).1 ≠ 0x60 → (chip_id_read slave s).1 ≠ 0x58 →
      bme280_begin fuel slave s = some (-1, (chip_id_read slave s).2) ∧
      sameConfig (chip_id_read slave s).2 s) ∧
    ((bme280_init_setup slave s).1 = 0 →
      ((chip_id_read slave s).1 = 0x60 ∨ (chip_id_read slave s).1 = 0x58) →
      ∀ n : Nat, readyAfter n (chip_id_read slave s).2 → n < fuel →
        bme280_begin fuel slave s =
          some (0, bcm2835_delay 100 (bme280_set_sampling (bme280_read_coefficients
            (bme280_in_calibration (after_polls n (chip_id_read slave s).2)).2)))) ∧
    ((bme280_init_setup slave s).1 = 0 →
      ((chip_id_read slave s).1 = 0x60 ∨ (chip_id_read slave s).1 = 0x58) →
      ∀ r : Int × State, bme280_begin fuel slave s = some r →
        r.1 = 0 ∧ ∃ n, n < fuel ∧ readyAfter n (chip_id_read slave s).2) := by
  have hacc : (bme280_init_setup slave s).1 = 0 →
      ((chip_id_read slave s).1 = 0x60 ∨ (chip_id_read slave s).1 = 0x58) →
      bme280_begin fuel slave s =
        (bme280_wait_calibration fuel (chip_id_read slave s).2).map fun s1 =>
          (0, bcm2835_delay 100 (bme280_set_sampling (bme280_read_coefficients s1))) := by
    intro hs hid
    have hi : bme280_init slave s = (0, (chip_id_read slave s).2) := by
      rw [init_of_setup slave s hs]
      rcases hid with h | h
      · rw [if_pos h]
      · by_cases h60 : (chip_id_read slave s).1 = 0x60
        · rw [if_pos h60]
        · rw [if_neg h60, if_pos h]
    have hi0 : (bme280_init slave s).1 = 0 := by rw [hi]
    rw [begin_of_init fuel slave s hi0, hi]
  refine ⟨?_, ?_, ?_⟩
  · intro hs h60 h58
    have hi : bme280_init slave s = (-1, (chip_id_read slave s).2) := by
      rw [init_of_setup slave s hs, if_neg h60, if_neg h58]
    have hi0 : (bme280_init slave s).1 ≠ 0 := by
      rw [hi]
      exact (by decide : (-1 : Int) ≠ 0)
    refine ⟨?_, chip_id_read_sameConfig slave s⟩
    rw [begin_of_init_failure fuel slave s hi0, hi]
  · intro hs hid n hr hn
    rw [hacc hs hid, wait_terminates n _ fuel hr hn]
    rfl
  · intro hs hid r hb
    rw [hacc hs hid] at hb
    cases hw : bme280_wait_calibration fuel (chip_id_read slave s).2 with
    | none =>
      rw [hw] at hb
      exact absurd hb (by simp)
    | some s1 =>
      rw [hw] at hb
      obtain ⟨n, hn, hr, -⟩ := wait_some fuel _ s1 hw
      have e : r = (0, bcm2835_delay 100 (bme280_set_sampling (bme280_read_coefficients s1))) :=
        (Option.some.inj hb).symm
      refine ⟨?_, n, hn, hr⟩
      rw [e]

set_option maxRecDepth 100000 in
/-- C14 as amended, at a chip with chip ID 0x55 and at a BME280 whose status register
reports the calibration copy at the first two polls and its end at the third: with fuel 3
the call returns 0 after three polls and two 10 ms delays. -/
theorem chip_id_gate_witness :
    ((bme280_init_setup 0x76 strangerBoot).1 = 0 ∧
      (chip_id_read 0x76 strangerBoot).1 ≠ 0x60 ∧ (chip_id_read 0x76 strangerBoot).1 ≠ 0x58 ∧
      (bme280_init_setup 0x76 slowBoot).1 = 0 ∧ (chip_id_read 0x76 slowBoot).1 = 0x60 ∧
      readyAfter 2 (chip_id_read 0x76 slowBoot).2 ∧ 2 < 3) ∧
    (bme280_begin 3 0x76 strangerBoot = some (-1, (chip_id_read 0x76 strangerBoot).2) ∧
      sameConfig (chip_id_read 0x76 strangerBoot).2 strangerBoot) ∧
    bme280_begin 3 0x76 slowBoot =
      some (0, bcm2835_delay 100 (bme280_set_sampling (bme280_read_coefficients
        (bme280_in_calibration (after_polls 2 (chip_id_read 0x76 slowBoot).2)).2))) ∧
    (bme280_begin 3 0x76 slowBoot).map
        (fun r => (r.1, r.2.trace.count (BusOp.write [0xF3]),
          r.2.trace.count (BusOp.delay 10)))
      = some (0, 3, 2) ∧
    (bme280_begin 2 0x76 slowBoot).map Prod.fst = none :=
  ⟨⟨by decide, by decide, by decide, by decide, by decide, by decide, by decide⟩,
   (chip_id_gate 3 0x76 strangerBoot).1 (by decide) (by decide) (by decide),
   (chip_id_gate 3 0x76 slowBoot).2.1 (by decide) (Or.inl (by decide)) 2 (by decide)
     (by decide),
   by decide, by decide⟩

theorem in_calibration_stuck (s : State) (h : s.env = regFileEnv stuckRegs) :
    (bme280_in_calibration s).1 = 1 ∧ (bme280_in_calibration s).2.env = regFileEnv stuckRegs := by
  have hs : (i2c_tools_set_slave_address s.bme280_slave_addr s).2.env.servesRegisters
      stuckRegs := by
    rw [set_slave_address_env, h]
    exact regFileEnv_serves stuckRegs
  have hv := read_byte_served stuckRegs BME280_REGISTER_STATUS _ hs
  have he : (bme280_in_calibration s).2.env = s.env := by
    unfold bme280_in_calibration
    dsimp only
    rw [read_byte_env, set_slave_address_env]
  refine ⟨?_, he.trans h⟩
  unfold bme280_in_calibration
  dsimp only
  rw [hv]
  rfl

theorem after_polls_stuck (k : Nat) :
    ∀ s : State, s.env = regFileEnv stuckRegs → (after_polls k s).env = regFileEnv stuckRegs := by
  induction k with
  | zero => intro s h; exact h
  | succ n ih =>
    intro s h
    exact ih _ (in_calibration_stuck s h).2

theorem wait_stuck (fuel : Nat) :
    ∀ s : State, s.env = regFileEnv stuckRegs → bme280_wait_calibration fuel s = none := by
  induction fuel with
  | zero => intro s _; rfl
  | succ n ih =>
    intro s h
    have hc := in_calibration_stuck s h
    have h1 : (bme280_in_calibration s).1 ≠ 0 := by rw [hc.1]; decide
    rw [wait_busy n s h1]
    exact ih _ hc.2

/-- C14 as stated fails: bus set-up and soft reset succeed and the chip-ID byte is 0x60,
yet `bme280_begin` returns nothing: the status register reports a calibration copy at
every poll, so the wait loop never ends, whatever the fuel. -/
theorem begin_blocks_on_stuck_status :
    (bme280_init_setup 0x76 stuckBoot).1 = 0 ∧ (chip_id_read 0x76 stuckBoot).1 = 0x60 ∧
    (∀ k : Nat, (bme280_in_calibration (after_polls k (chip_id_read 0x76 stuckBoot).2)).1 = 1) ∧
    (¬ ∃ n : Nat, readyAfter n (chip_id_read 0x76 stuckBoot).2) ∧
    ¬ ∃ (fuel : Nat) (r : Int × State), bme280_begin fuel 0x76 stuckBoot = some r := by
  have hs : (bme280_init_setup 0x76 stuckBoot).1 = 0 := by decide
  have hc : (chip_id_read 0x76 stuckBoot).1 = 0x60 := by decide
  have he : (chip_id_read 0x76 stuckBoot).2.env = regFileEnv stuckRegs := rfl
  have hbusy : ∀ k : Nat,
      (bme280_in_calibration (after_polls k (chip_id_read 0x76 stuckBoot).2)).1 = 1 :=
    fun k => (in_calibration_stuck _ (after_polls_stuck k _ he)).1
  refine ⟨hs, hc, hbusy, ?_, ?_⟩
  · rintro ⟨n, -, h0⟩
    rw [hbusy n] at h0
    exact absurd h0 (by decide)
  · rintro ⟨fuel, r, h⟩
    have hi : bme280_init 0x76 stuckBoot = (0, (chip_id_read 0x76 stuckBoot).2) := by
      rw [init_of_setup 0x76 stuckBoot hs, if_pos hc]
    have hi0 : (bme280_init 0x76 stuckBoot).1 = 0 := by rw [hi]
    rw [begin_of_init fuel 0x76 stuckBoot hi0, hi] at h
    dsimp only at h
    rw [wait_stuck fuel _ he] at h
    exact absurd h (by simp)

/-! ## Frame of the physical reads -/

theorem readOnlyStep_refl (s : State) : readOnlyStep s s :=
  ⟨rfl, rfl, rfl, rfl, rfl, rfl, rfl, [], rfl, fun _ h => absurd h (List.not_mem_nil _)⟩

theorem readOnlyStep_trans {a b c : State} (h1 : readOnlyStep a b) (h2 : readOnlyStep b c) :
    readOnlyStep a c := by
  obtain ⟨a1, a2, a3, a4, a5, a6, a7, n1, t1, w1⟩ := h1
  obtain ⟨b1, b2, b3, b4, b5, b6, b7, n2, t2, w2⟩ := h2
  refine ⟨b1.trans a1, b2.trans a2, b3.trans a3, b4.trans a4, b5.trans a5, b6.trans a6,
    b7.trans a7, n2 ++ n1, ?_, ?_⟩
  · rw [t2, t1, List.append_assoc]
  · intro op hop
    rcases List.mem_append.mp hop with h | h
    · exact w2 op h
    · exact w1 op h

theorem set_slave_address_readOnly (a : Nat) (s : State) :
    readOnlyStep s (i2c_tools_set_slave_address a s).2 := by
  unfold i2c_tools_set_slave_address
  dsimp only [bcm2835_i2c_begin]
  split
  · refine ⟨rfl, rfl, rfl, rfl, rfl, rfl, rfl, [BusOp.close, BusOp.i2c_begin], rfl, ?_⟩
    intro op hop
    simp only [List.mem_cons, List.mem_singleton, List.not_mem_nil, or_false] at hop
    rcases hop with h | h <;> rw [h] <;> rfl
  · refine ⟨rfl, rfl, rfl, rfl, rfl, rfl, rfl,
      [BusOp.setSlaveAddress (a % 256), BusOp.i2c_begin], rfl, ?_⟩
    intro op hop
    simp only [List.mem_cons, List.mem_singleton, List.not_mem_nil, or_false] at hop
    rcases hop with h | h <;> rw [h] <;> rfl

theorem read_reg_readOnly (reg n : Nat) (buf : Nat → Nat) (s : State) :
    readOnlyStep s (i2c_tools_read_reg reg buf n s).2.2 := by
  have ht := read_reg_trace s reg n buf
  have hrest : (i2c_tools_read_reg reg buf n s).2.2.bme280_calib = s.bme280_calib ∧
      (i2c_tools_read_reg reg buf n s).2.2.meas_reg = s.meas_reg ∧
      (i2c_tools_read_reg reg buf n s).2.2.hum_reg = s.hum_reg ∧
      (i2c_tools_read_reg reg buf n s).2.2.configReg = s.configReg ∧
      (i2c_tools_read_reg reg buf n s).2.2.bme280_slave_addr = s.bme280_slave_addr ∧
      (i2c_tools_read_reg reg buf n s).2.2.mpu6050_slave_addr = s.mpu6050_slave_addr ∧
      (i2c_tools_read_reg reg buf n s).2.2.env = s.env := by
    unfold i2c_tools_read_reg
    dsimp only [bcm2835_i2c_write, bcm2835_i2c_read]
    split
    · exact ⟨rfl, rfl, rfl, rfl, rfl, rfl, rfl⟩
    · split <;> exact ⟨rfl, rfl, rfl, rfl, rfl, rfl, rfl⟩
  obtain ⟨e1, e2, e3, e4, e5, e6, e7⟩ := hrest
  refine ⟨e1, e2, e3, e4, e5, e6, e7,
    (if s.env.write_ret s.trace [reg % 256] % 256 = BCM2835_I2C_REASON_OK
      then [BusOp.read n] else []) ++ [BusOp.write [reg % 256]], ?_, ?_⟩
  · rw [ht, List.append_assoc]
    rfl
  · intro op hop
    rcases List.mem_append.mp hop with h | h
    · split at h
      · rw [List.mem_singleton.mp h]; rfl
      · exact absurd h (List.not_mem_nil _)
    · rw [List.mem_singleton.mp h]; rfl

theorem with_t_fine_readOnly {a b : State} (v : Int) (h : readOnlyStep a b) :
    readOnlyStep a { b with t_fine := v } := h

theorem read_temperature_readOnly (s : State) :
    readOnlyStep s (bme280_read_temperature s).2 := by
  by_cases h : s.meas_reg.osrs_t = SAMPLING_NONE
  · rw [read_temperature_off_state s h]
    exact set_slave_address_readOnly _ s
  · rw [read_temperature_on_state s h]
    apply with_t_fine_readOnly
    rw [read24_state]
    exact readOnlyStep_trans (set_slave_address_readOnly _ s) (read_reg_readOnly _ _ _ _)

theorem after_nested_temperature_readOnly (s : State) :
    readOnlyStep s (after_nested_temperature s) := by
  unfold after_nested_temperature
  exact readOnlyStep_trans (set_slave_address_readOnly _ s) (read_temperature_readOnly _)

theorem read_pressure_readOnly (s : State) :
    ∃ r, bme280_read_pressure s = some r ∧ readOnlyStep s r.2 := by
  by_cases h : s.meas_reg.osrs_p = SAMPLING_NONE
  · rw [read_pressure_off s h]
    exact ⟨_, rfl, set_slave_address_readOnly _ s⟩
  · obtain ⟨q, hq⟩ := compensate_P_isSome (after_nested_temperature s).t_fine (raw_adc_P s)
      s.bme280_calib
    rw [read_pressure_on s h, hq]
    refine ⟨_, rfl, ?_⟩
    dsimp only
    rw [read24_state]
    exact readOnlyStep_trans (after_nested_temperature_readOnly s) (read_reg_readOnly _ _ _ _)

theorem read_humidity_readOnly (s : State) :
    readOnlyStep s (bme280_read_humidity s).2 := by
  by_cases h : s.hum_reg.osrs_h = SAMPLING_NONE
  · rw [read_humidity_off s h]
    exact set_slave_address_readOnly _ s
  · rw [read_humidity_on s h]
    dsimp only
    rw [read16_state]
    exact readOnlyStep_trans (after_nested_temperature_readOnly s) (read_reg_readOnly _ _ _ _)

theorem read_altitude_eq (pow : ℚ → ℚ → ℚ) (seaLevel : ℚ) (s : State) (p : ℚ) (s1 : State)
    (h : bme280_read_pressure (i2c_tools_set_slave_address s.bme280_slave_addr s).2
      = some (p, s1)) :
    bme280_read_altitude pow seaLevel s =
      some (if seaLevel = 0 then none
            else some (44330 * (1 - pow (p / 100 / seaLevel) 0.1903)), s1) := by
  unfold bme280_read_altitude
  dsimp only
  rw [h]
  rfl

theorem read_altitude_readOnly (pow : ℚ → ℚ → ℚ) (seaLevel : ℚ) (s : State) :
    ∃ r, bme280_read_altitude pow seaLevel s = some r ∧ readOnlyStep s r.2 := by
  obtain ⟨r, hr, hstep⟩ :=
    read_pressure_readOnly (i2c_tools_set_slave_address s.bme280_slave_addr s).2
  have hr1 : bme280_read_pressure (i2c_tools_set_slave_address s.bme280_slave_addr s).2
      = some (r.1, r.2) := hr
  rw [read_altitude_eq pow seaLevel s r.1 r.2 hr1]
  exact ⟨_, rfl, readOnlyStep_trans (set_slave_address_readOnly _ s) hstep⟩

/-- C21: for every session, `bme280_read_temperature`, `bme280_read_pressure`,
`bme280_read_humidity` and `bme280_read_altitude` return, leave the calibration data,
`meas_reg`, `hum_reg`, `configReg` and the stored device address unchanged, and make no call
that is a register write (every write they issue is the one-byte register address of a
read); of the variables of `bme280.c` only `t_fine` can differ afterwards. -/
theorem physical_reads_keep_session (pow : ℚ → ℚ → ℚ) (seaLevel : ℚ) (s : State) :
    readOnlyStep s (bme280_read_temperature s).2 ∧
    (∃ r, bme280_read_pressure s = some r ∧ readOnlyStep s r.2) ∧
    readOnlyStep s (bme280_read_humidity s).2 ∧
    (∃ r, bme280_read_altitude pow seaLevel s = some r ∧ readOnlyStep s r.2) :=
  ⟨read_temperature_readOnly s, read_pressure_readOnly s, read_humidity_readOnly s,
   read_altitude_readOnly pow seaLevel s⟩

/-! ## Altitude -/

theorem read24_served (reg : Nat → Nat) (r : Nat) (s : State)
    (h : s.env.servesRegisters reg) :
    (i2c_tool_read24 r s).1 =
      65536 * (reg (r % 256 + 0) % 256) + 256 * (reg (r % 256 + 1) % 256) +
        reg (r % 256 + 2) % 256 := by
  rw [read24_value, read_reg_buffer r 3 _ s (h s.trace (r % 256) 3 0).1 0 (by decide),
    read_reg_buffer r 3 _ s (h s.trace (r % 256) 3 0).1 1 (by decide),
    read_reg_buffer r 3 _ s (h s.trace (r % 256) 3 0).1 2 (by decide),
    Nat.mod_mod, Nat.mod_mod, Nat.mod_mod,
    (h s.trace (r % 256) 3 0).2, (h s.trace (r % 256) 3 1).2, (h s.trace (r % 256) 3 2).2]

theorem raw_adc_T_served (reg : Nat → Nat) (a b : State) (ha : a.env.servesRegisters reg)
    (hb : b.env.servesRegisters reg) : raw_adc_T a = raw_adc_T b := by
  have ha1 : (i2c_tools_set_slave_address a.bme280_slave_addr a).2.env.servesRegisters reg := by
    rw [set_slave_address_env]; exact ha
  have hb1 : (i2c_tools_set_slave_address b.bme280_slave_addr b).2.env.servesRegisters reg := by
    rw [set_slave_address_env]; exact hb
  unfold raw_adc_T
  dsimp only
  rw [read24_served reg _ _ ha1, read24_served reg _ _ hb1]

theorem after_nested_temperature_env (s : State) :
    (after_nested_temperature s).env = s.env :=
  (after_nested_temperature_readOnly s).2.2.2.2.2.2.1

theorem after_nested_temperature_t_fine_off (s : State)
    (h : s.meas_reg.osrs_t = SAMPLING_NONE) : (after_nested_temperature s).t_fine = s.t_fine := by
  have h1 : (i2c_tools_set_slave_address s.bme280_slave_addr s).2.meas_reg.osrs_t
      = SAMPLING_NONE := by
    rw [set_slave_address_meas_reg]; exact h
  unfold after_nested_temperature
  rw [read_temperature_off_state _ h1, set_slave_address_t_fine, set_slave_address_t_fine]

theorem after_nested_temperature_served (reg : Nat → Nat) (a b : State)
    (ha : a.env.servesRegisters reg) (hb : b.env.servesRegisters reg)
    (hc : a.bme280_calib = b.bme280_calib) (hm : a.meas_reg = b.meas_reg)
    (ht : a.t_fine = b.t_fine) :
    (after_nested_temperature a).t_fine = (after_nested_temperature b).t_fine := by
  by_cases h : a.meas_reg.osrs_t = SAMPLING_NONE
  · have h2 : b.meas_reg.osrs_t = SAMPLING_NONE := by rw [← hm]; exact h
    rw [after_nested_temperature_t_fine_off a h, after_nested_temperature_t_fine_off b h2, ht]
  · have h2 : b.meas_reg.osrs_t ≠ SAMPLING_NONE := by rw [← hm]; exact h
    have ha1 : (i2c_tools_set_slave_address a.bme280_slave_addr a).2.env.servesRegisters reg := by
      rw [set_slave_address_env]; exact ha
    have hb1 : (i2c_tools_set_slave_address b.bme280_slave_addr b).2.env.servesRegisters reg := by
      rw [set_slave_address_env]; exact hb
    rw [after_nested_temperature_t_fine a h, after_nested_temperature_t_fine b h2, hc]
    unfold nested_adc_T
    rw [raw_adc_T_served reg _ _ ha1 hb1]

theorem raw_adc_P_served (reg : Nat → Nat) (a b : State) (ha : a.env.servesRegisters reg)
    (hb : b.env.servesRegisters reg) : raw_adc_P a = raw_adc_P b := by
  have ha1 : (after_nested_temperature a).env.servesRegisters reg := by
    rw [after_nested_temperature_env]; exact ha
  have hb1 : (after_nested_temperature b).env.servesRegisters reg := by
    rw [after_nested_temperature_env]; exact hb
  unfold raw_adc_P
  rw [read24_served reg _ _ ha1, read24_served reg _ _ hb1]

/-- In front of a device that serves a fixed register file, the pressure value depends on
the calibration, the sampling configuration and the fine temperature only. -/
theorem read_pressure_served (reg : Nat → Nat) (a b : State)
    (ha : a.env.servesRegisters reg) (hb : b.env.servesRegisters reg)
    (hc : a.bme280_calib = b.bme280_calib) (hm : a.meas_reg = b.meas_reg)
    (ht : a.t_fine = b.t_fine) :
    (bme280_read_pressure a).map Prod.fst = (bme280_read_pressure b).map Prod.fst := by
  by_cases h : a.meas_reg.osrs_p = SAMPLING_NONE
  · have h2 : b.meas_reg.osrs_p = SAMPLING_NONE := by rw [← hm]; exact h
    rw [read_pressure_off a h, read_pressure_off b h2]
    simp only [Option.map_some']
  · have h2 : b.meas_reg.osrs_p ≠ SAMPLING_NONE := by rw [← hm]; exact h
    obtain ⟨q, hq⟩ := compensate_P_isSome (after_nested_temperature b).t_fine (raw_adc_P b)
      b.bme280_calib
    rw [read_pressure_on a h, read_pressure_on b h2,
      after_nested_temperature_served reg a b ha hb hc hm ht, raw_adc_P_served reg a b ha hb,
      hc, hq]
    simp only [Option.map_some']

/-- C22, amended: for every sea-level pressure s > 0 and every session in front of a device
that serves a fixed register file, `bme280_read_altitude(s)` is
44330 * (1 - pow((p / 100) / s, 0.1903)), where p is the value `bme280_read_pressure`
returns for the same registers, calibration and session, and pow is the power function of
the C library. -/
theorem altitude_formula (pow : ℚ → ℚ → ℚ) (seaLevel : ℚ) (s : State) (reg : Nat → Nat)
    (hs : 0 < seaLevel) (hdev : s.env.servesRegisters reg) :
    ∃ p s1 s2, bme280_read_pressure s = some (p, s1) ∧
      bme280_read_altitude pow seaLevel s =
        some (some (44330 * (1 - pow (p / 100 / seaLevel) 0.1903)), s2) := by
  have hdev1 : (i2c_tools_set_slave_address s.bme280_slave_addr s).2.env.servesRegisters
      reg := by
    rw [set_slave_address_env]; exact hdev
  have hval := read_pressure_served reg
    (i2c_tools_set_slave_address s.bme280_slave_addr s).2 s hdev1 hdev
    (set_slave_address_calib _ s) (set_slave_address_meas_reg _ s)
    (set_slave_address_t_fine _ s)
  obtain ⟨r, hr, -⟩ := read_pressure_readOnly s
  obtain ⟨r1, hr1, -⟩ :=
    read_pressure_readOnly (i2c_tools_set_slave_address s.bme280_slave_addr s).2
  rw [hr, hr1] at hval
  have hp : r1.1 = r.1 := Option.some.inj hval
  have hr1a : bme280_read_pressure (i2c_tools_set_slave_address s.bme280_slave_addr s).2
      = some (r.1, r1.2) := by
    rw [hr1, ← hp]
  refine ⟨r.1, r.2, r1.2, hr, ?_⟩
  rw [read_altitude_eq pow seaLevel s r.1 r1.2 hr1a, if_neg (ne_of_gt hs)]

/-- C22, at the fixture session with the standard sea-level pressure 1013.25. -/
theorem altitude_formula_witness :
    ((0 : ℚ) < 1013.25 ∧ (fixtureState 5 5 5 0).env.servesRegisters fixtureRegs) ∧
    ∃ p s1 s2, bme280_read_pressure (fixtureState 5 5 5 0) = some (p, s1) ∧
      bme280_read_altitude (fun x _ => x) 1013.25 (fixtureState 5 5 5 0) =
        some (some (44330 * (1 - (fun x _ => x) (p / 100 / 1013.25) (0.1903 : ℚ))), s2) :=
  ⟨⟨by norm_num, regFileEnv_serves fixtureRegs⟩,
   altitude_formula (fun x _ => x) 1013.25 (fixtureState 5 5 5 0) fixtureRegs (by norm_num)
     (regFileEnv_serves fixtureRegs)⟩

theorem fixture_pressure_value (s : State) (hs : s.bme280_calib = fixtureCalib)
    (hp : s.meas_reg.osrs_p ≠ SAMPLING_NONE)
    (ht : (after_nested_temperature s).t_fine = 128423) (ha : raw_adc_P s = 415148) :
    (bme280_read_pressure s).map Prod.fst = some fixturePressure := by
  have v : compensate_P_var4 128423 415148 fixtureCalib = some 25767240 := by decide
  have p2 : compensate_P 128423 415148 fixtureCalib = some fixturePressure := by
    unfold compensate_P fixturePressure
    rw [if_neg (by decide), v]
    norm_num
  rw [read_pressure_on s hp, ht, ha, hs, p2]
  rfl

theorem claimed_altitude_at_unit_ratio :
    44330 * (1 - ((fixturePressure : ℝ) / ((fixturePressure / 100 : ℚ) : ℝ))
      ^ ((1 : ℝ) / 5.255)) < -44330 := by
  have e : ((fixturePressure : ℝ) / ((fixturePressure / 100 : ℚ) : ℝ)) = 100 := by
    unfold fixturePressure
    norm_num
  rw [e]
  have h64 : (2 : ℝ) ^ (5.255 : ℝ) < 100 := by
    have h1 : (2 : ℝ) ^ (5.255 : ℝ) ≤ (2 : ℝ) ^ (6 : ℝ) :=
      Real.rpow_le_rpow_of_exponent_le (by norm_num) (by norm_num)
    have h2 : (2 : ℝ) ^ (6 : ℝ) = 64 := by
      rw [show (6 : ℝ) = ((6 : ℕ) : ℝ) by norm_num, Real.rpow_natCast]
      norm_num
    rw [h2] at h1
    linarith
  have h2 : (2 : ℝ) < (100 : ℝ) ^ ((1 : ℝ) / 5.255) := by
    have h3 : ((2 : ℝ) ^ (5.255 : ℝ)) ^ ((1 : ℝ) / 5.255) < (100 : ℝ) ^ ((1 : ℝ) / 5.255) :=
      Real.rpow_lt_rpow (Real.rpow_nonneg (by norm_num) _) h64 (by norm_num)
    rw [← Real.rpow_mul (by norm_num)] at h3
    have h4 : (5.255 : ℝ) * ((1 : ℝ) / 5.255) = 1 := by norm_num
    rw [h4, Real.rpow_one] at h3
    exact h3
  linarith

/-- C22 as stated fails: at the fixture session `bme280_read_pressure` returns
p = 100653.28125; with the sea-level pressure s = p / 100 (1006.53 hPa) the ratio the code
raises to the power is (p / 100) / s = 1, so `bme280_read_altitude(s)` is 0 for every power
function with pow(1, y) = 1, while the claimed value 44330 * (1 - (p / s) ^ (1/5.255)) with
p / s = 100 lies below -44330. The exponent of the code, 0.1903, is not 1/5.255 either. -/
theorem altitude_takes_hundredth_of_pressure :
    (bme280_read_pressure (fixtureState 5 5 5 0)).map Prod.fst = some fixturePressure ∧
    0 < fixturePressure / 100 ∧
    (∀ pow : ℚ → ℚ → ℚ, pow 1 0.1903 = 1 →
      (bme280_read_altitude pow (fixturePressure / 100) (fixtureState 5 5 5 0)).map Prod.fst
        = some (some 0)) ∧
    44330 * (1 - ((fixturePressure : ℝ) / ((fixturePressure / 100 : ℚ) : ℝ))
      ^ ((1 : ℝ) / 5.255)) < -44330 ∧
    (0.1903 : ℚ) ≠ 1 / 5.255 := by
  have h5 : (5 : Nat) ≠ SAMPLING_NONE := by decide
  have hp0 : (bme280_read_pressure (fixtureState 5 5 5 0)).map Prod.fst
      = some fixturePressure :=
    fixture_pressure_value _ rfl h5 (by decide) (by decide)
  have hp1 : (bme280_read_pressure
      (i2c_tools_set_slave_address (fixtureState 5 5 5 0).bme280_slave_addr
        (fixtureState 5 5 5 0)).2).map Prod.fst = some fixturePressure :=
    fixture_pressure_value _ rfl h5 (by decide) (by decide)
  have hpos : 0 < fixturePressure / 100 := by unfold fixturePressure; norm_num
  refine ⟨hp0, hpos, ?_, claimed_altitude_at_unit_ratio, by norm_num⟩
  intro pow hpow
  obtain ⟨r1, hr1, -⟩ := read_pressure_readOnly
    (i2c_tools_set_slave_address (fixtureState 5 5 5 0).bme280_slave_addr
      (fixtureState 5 5 5 0)).2
  rw [hr1] at hp1
  have hv : r1.1 = fixturePressure := Option.some.inj hp1
  have hr1a : bme280_read_pressure
      (i2c_tools_set_slave_address (fixtureState 5 5 5 0).bme280_slave_addr
        (fixtureState 5 5 5 0)).2 = some (fixturePressure, r1.2) := by
    rw [hr1, ← hv]
  have hne : fixturePressure / 100 ≠ 0 := ne_of_gt hpos
  have hratio : fixturePressure / 100 / (fixturePressure / 100) = 1 := div_self hne
  rw [read_altitude_eq pow _ _ fixturePressure r1.2 hr1a, if_neg hne, hratio, hpow]
  norm_num

/-! ## MPU6050: range selection -/

set_option maxRecDepth 100000 in
theorem with_range_spec : ∀ old < 256, ∀ r < 4,
    range_bits old r = with_range old r ∧ range_field (with_range old r) = r ∧
    with_range old r &&& 0xE7 = old &&& 0xE7 ∧ with_range old r < 256 := by
  decide

theorem write_reg_status (reg d : Nat) (s : State) :
    (i2c_tool_write_reg reg d s).1 = (s.env.write_ret s.trace [reg % 256, d % 256] : Int) ∧
    (i2c_tool_write_reg reg d s).2.trace = BusOp.write [reg % 256, d % 256] :: s.trace :=
  ⟨rfl, rfl⟩

/-- The read-modify-write of a range register on a device that stores register writes. -/
theorem range_write_effect (reg r : Nat) (s : State) (init : Nat → Nat) (hr : r < 4)
    (hdev : s.env.storesRegisters init) :
    (i2c_tool_write_reg reg
      (range_bits (i2c_tool_read_byte reg
        (i2c_tools_set_slave_address s.mpu6050_slave_addr s).2).1 r)
      (i2c_tool_read_byte reg
        (i2c_tools_set_slave_address s.mpu6050_slave_addr s).2).2).2.trace =
      BusOp.write [reg % 256,
          with_range (regsAfter s.env.write_ret init s.trace (reg % 256) % 256) r] ::
        BusOp.read 1 :: BusOp.write [reg % 256] ::
          (i2c_tools_set_slave_address s.mpu6050_slave_addr s).2.trace ∧
    (i2c_tool_write_reg reg
      (range_bits (i2c_tool_read_byte reg
        (i2c_tools_set_slave_address s.mpu6050_slave_addr s).2).1 r)
      (i2c_tool_read_byte reg
        (i2c_tools_set_slave_address s.mpu6050_slave_addr s).2).2).1 =
      (s.env.write_ret
        (BusOp.read 1 :: BusOp.write [reg % 256] ::
          (i2c_tools_set_slave_address s.mpu6050_slave_addr s).2.trace)
        [reg % 256,
          with_range (regsAfter s.env.write_ret init s.trace (reg % 256) % 256) r] : Int) := by
  have hdev1 : (i2c_tools_set_slave_address s.mpu6050_slave_addr s).2.env.storesRegisters
      init := by
    rw [set_slave_address_env]; exact hdev
  have hold : (i2c_tool_read_byte reg
      (i2c_tools_set_slave_address s.mpu6050_slave_addr s).2).1 =
      regsAfter s.env.write_ret init s.trace (reg % 256) % 256 := by
    rw [read_byte_stored init _ _ hdev1, set_slave_address_env, regsAfter_set_slave]
  have htr : (i2c_tool_read_byte reg
      (i2c_tools_set_slave_address s.mpu6050_slave_addr s).2).2.trace =
      BusOp.read 1 :: BusOp.write [reg % 256] ::
        (i2c_tools_set_slave_address s.mpu6050_slave_addr s).2.trace := by
    rw [read_byte_trace, if_pos (hdev1 _ (reg % 256) 1 0).1]
    rfl
  have henv : (i2c_tool_read_byte reg
      (i2c_tools_set_slave_address s.mpu6050_slave_addr s).2).2.env = s.env := by
    rw [read_byte_env, set_slave_address_env]
  obtain ⟨b1, -, -, b4⟩ := with_range_spec _
    (Nat.mod_lt (regsAfter s.env.write_ret init s.trace (reg % 256)) (by decide)) r hr
  have hd : range_bits (regsAfter s.env.write_ret init s.trace (reg % 256) % 256) r % 256 =
      with_range (regsAfter s.env.write_ret init s.trace (reg % 256) % 256) r := by
    rw [b1, Nat.mod_eq_of_lt b4]
  rw [(write_reg_status _ _ _).1, (write_reg_status _ _ _).2, hold, htr, henv, hd]
  exact ⟨rfl, rfl⟩

/-- Everything `mpu6050_set_gyro_fs` and `mpu6050_set_acce_fs` do with their register `reg`,
on a device that stores register writes: the transactions, the status, the registers of the
device afterwards. -/
theorem range_write_full (reg r : Nat) (s : State) (init : Nat → Nat) (hr : r < 4)
    (hdev : s.env.storesRegisters init) (F : Int × State)
    (hF : F = i2c_tool_write_reg reg
      (range_bits (i2c_tool_read_byte reg
        (i2c_tools_set_slave_address s.mpu6050_slave_addr s).2).1 r)
      (i2c_tool_read_byte reg
        (i2c_tools_set_slave_address s.mpu6050_slave_addr s).2).2) :
    F.2.transactions =
      s.transactions ++ [BusOp.write [reg % 256], BusOp.read 1,
        BusOp.write [reg % 256,
          with_range (regsAfter s.env.write_ret init s.trace (reg % 256) % 256) r]] ∧
    F.1 = (s.env.write_ret F.2.trace.tail
      [reg % 256, with_range (regsAfter s.env.write_ret init s.trace (reg % 256) % 256) r]
        : Int) ∧
    (F.1 = 0 → regsAfter s.env.write_ret init F.2.trace (reg % 256) =
      with_range (regsAfter s.env.write_ret init s.trace (reg % 256) % 256) r) ∧
    ∀ x, x ≠ reg % 256 →
      regsAfter s.env.write_ret init F.2.trace x = regsAfter s.env.write_ret init s.trace x := by
  obtain ⟨ht, hs⟩ := range_write_effect reg r s init hr hdev
  rw [← hF] at ht hs
  have hbase : regsAfter s.env.write_ret init
      (BusOp.read 1 :: BusOp.write [reg % 256] ::
        (i2c_tools_set_slave_address s.mpu6050_slave_addr s).2.trace) =
      regsAfter s.env.write_ret init s.trace := by
    have e : regsAfter s.env.write_ret init
        (BusOp.read 1 :: BusOp.write [reg % 256] ::
          (i2c_tools_set_slave_address s.mpu6050_slave_addr s).2.trace) =
        regsAfter s.env.write_ret init
          (i2c_tools_set_slave_address s.mpu6050_slave_addr s).2.trace := rfl
    rw [e, regsAfter_set_slave]
  have htx : F.2.transactions =
      (i2c_tools_set_slave_address s.mpu6050_slave_addr s).2.transactions ++
        [BusOp.write [reg % 256], BusOp.read 1,
          BusOp.write [reg % 256,
            with_range (regsAfter s.env.write_ret init s.trace (reg % 256) % 256) r]] := by
    unfold State.transactions
    rw [ht]
    simp [BusOp.isTransaction]
  have e : regsAfter s.env.write_ret init
      (BusOp.write [reg % 256,
          with_range (regsAfter s.env.write_ret init s.trace (reg % 256) % 256) r] ::
        BusOp.read 1 :: BusOp.write [reg % 256] ::
          (i2c_tools_set_slave_address s.mpu6050_slave_addr s).2.trace) =
      applyWrite s.env.write_ret
        (BusOp.read 1 :: BusOp.write [reg % 256] ::
          (i2c_tools_set_slave_address s.mpu6050_slave_addr s).2.trace)
        (BusOp.write [reg % 256,
          with_range (regsAfter s.env.write_ret init s.trace (reg % 256) % 256) r])
        (regsAfter s.env.write_ret init
          (BusOp.read 1 :: BusOp.write [reg % 256] ::
            (i2c_tools_set_slave_address s.mpu6050_slave_addr s).2.trace)) := rfl
  refine ⟨?_, ?_, ?_, ?_⟩
  · rw [htx, set_slave_address_transactions]
  · rw [hs, ht]
    rfl
  · intro h0
    rw [hs] at h0
    have hack : s.env.write_ret
        (BusOp.read 1 :: BusOp.write [reg % 256] ::
          (i2c_tools_set_slave_address s.mpu6050_slave_addr s).2.trace)
        [reg % 256, with_range (regsAfter s.env.write_ret init s.trace (reg % 256) % 256) r]
          % 256 = BCM2835_I2C_REASON_OK := by
      have h1 : s.env.write_ret
          (BusOp.read 1 :: BusOp.write [reg % 256] ::
            (i2c_tools_set_slave_address s.mpu6050_slave_addr s).2.trace)
          [reg % 256, with_range (regsAfter s.env.write_ret init s.trace (reg % 256) % 256) r]
            = 0 := by exact_mod_cast h0
      rw [h1]
      rfl
    rw [ht, e, hbase]
    unfold applyWrite
    dsimp only
    rw [if_pos hack]
    exact if_pos rfl
  · intro x hx
    rw [ht]
    rw [e, hbase]
    unfold applyWrite
    dsimp only
    split
    · exact if_neg hx
    · rfl

/-- C23: on a device that stores register writes, for every content `old` of the register
and every selector r in 0..3, `mpu6050_set_acce_fs(r)` reads ACCEL_CONFIG (0x1C) and issues
one register write, 0x1C <- (old AND 0xE7) OR (r << 3), `mpu6050_set_gyro_fs(r)` does the
same with GYRO_CONFIG (0x1B); the status the transport gives that write is the return
value; when it is 0 the register holds the written byte, whose bits 3-4 are r and whose
other six bits are those of `old`; no other register of the device changes. -/
theorem range_set_replaces_bits_3_4 (s : State) (init : Nat → Nat) (r : Nat) (hr : r < 4)
    (hdev : s.env.storesRegisters init) :
    ((mpu6050_set_acce_fs r s).2.transactions =
        s.transactions ++ [BusOp.write [0x1C], BusOp.read 1,
          BusOp.write [0x1C, with_range (regsAfter s.env.write_ret init s.trace 0x1C % 256) r]] ∧
      (mpu6050_set_acce_fs r s).1 = (s.env.write_ret (mpu6050_set_acce_fs r s).2.trace.tail
        [0x1C, with_range (regsAfter s.env.write_ret init s.trace 0x1C % 256) r] : Int) ∧
      ((mpu6050_set_acce_fs r s).1 = 0 →
        regsAfter s.env.write_ret init (mpu6050_set_acce_fs r s).2.trace 0x1C =
          with_range (regsAfter s.env.write_ret init s.trace 0x1C % 256) r) ∧
      ∀ x, x ≠ 0x1C →
        regsAfter s.env.write_ret init (mpu6050_set_acce_fs r s).2.trace x =
          regsAfter s.env.write_ret init s.trace x) ∧
    ((mpu6050_set_gyro_fs r s).2.transactions =
        s.transactions ++ [BusOp.write [0x1B], BusOp.read 1,
          BusOp.write [0x1B, with_range (regsAfter s.env.write_ret init s.trace 0x1B % 256) r]] ∧
      (mpu6050_set_gyro_fs r s).1 = (s.env.write_ret (mpu6050_set_gyro_fs r s).2.trace.tail
        [0x1B, with_range (regsAfter s.env.write_ret init s.trace 0x1B % 256) r] : Int) ∧
      ((mpu6050_set_gyro_fs r s).1 = 0 →
        regsAfter s.env.write_ret init (mpu6050_set_gyro_fs r s).2.trace 0x1B =
          with_range (regsAfter s.env.write_ret init s.trace 0x1B % 256) r) ∧
      ∀ x, x ≠ 0x1B →
        regsAfter s.env.write_ret init (mpu6050_set_gyro_fs r s).2.trace x =
          regsAfter s.env.write_ret init s.trace x) ∧
    ∀ old, old < 256 →
      with_range old r = (old &&& 0xE7) ||| (r <<< 3) ∧
      (with_range old r >>> 3) &&& 0x03 = r ∧
      with_range old r &&& 0xE7 = old &&& 0xE7 :=
  ⟨range_write_full 0x1C r s init hr hdev (mpu6050_set_acce_fs r s) (set_acce_fs_eq s r),
   range_write_full 0x1B r s init hr hdev (mpu6050_set_gyro_fs r s) (set_gyro_fs_eq s r),
   fun old ho => ⟨rfl, by
     have h := (with_range_spec old ho r hr).2.1
     unfold range_field at h
     have hlt : (with_range old r >>> 3) &&& 0x03 < 256 :=
       lt_of_le_of_lt Nat.and_le_right (by decide)
     rw [Nat.mod_eq_of_lt hlt] at h
     exact h, (with_range_spec old ho r hr).2.2.1⟩⟩

/-- C23, at the initialised MPU6050 session with the selector 2. -/
theorem range_set_replaces_bits_3_4_witness :
    ((2 : Nat) < 4 ∧ mpuSession.env.storesRegisters mpuRegs) ∧
    (mpu6050_set_acce_fs 2 mpuSession).2.transactions =
      mpuSession.transactions ++ [BusOp.write [0x1C], BusOp.read 1,
        BusOp.write [0x1C,
          with_range (regsAfter mpuSession.env.write_ret mpuRegs mpuSession.trace 0x1C % 256)
            2]] ∧
    (mpu6050_set_acce_fs 2 mpuSession).2.writes.getLast? = some (BusOp.write [0x1C, 0x10]) ∧
    (mpu6050_set_gyro_fs 2 mpuSession).2.writes.getLast? = some (BusOp.write [0x1B, 0x10]) :=
  ⟨⟨by decide, fun _ _ _ _ => ⟨rfl, rfl⟩⟩,
   (range_set_replaces_bits_3_4 mpuSession mpuRegs 2 (by decide)
      (fun _ _ _ _ => ⟨rfl, rfl⟩)).1.1,
   by decide, by decide⟩

/-! ## MPU6050: raw axes -/

theorem wrap16_range (x : Int) : -32768 ≤ wrap16 x ∧ wrap16 x ≤ 32767 := by
  unfold wrap16
  omega

theorem axis_word (hi lo : Nat) :
    wrap16 ((((hi % 256 % 256) <<< 8) + (lo % 256 % 256) : Nat) : Int) =
      signed16 (256 * (hi % 256) + lo % 256) := by
  rw [Nat.mod_mod, Nat.mod_mod, Nat.shiftLeft_eq]
  unfold wrap16 signed16
  simp only [Nat.reducePow]
  split <;> omega

theorem busReturns_six {s : State} {reg b0 b1 b2 b3 b4 b5 : Nat}
    (h : busReturns s reg [b0, b1, b2, b3, b4, b5]) :
    s.env.write_ret s.trace [reg % 256] % 256 = BCM2835_I2C_REASON_OK ∧
    s.env.read_data (BusOp.write [reg % 256] :: s.trace) 6 0 % 256 = b0 ∧
    s.env.read_data (BusOp.write [reg % 256] :: s.trace) 6 1 % 256 = b1 ∧
    s.env.read_data (BusOp.write [reg % 256] :: s.trace) 6 2 % 256 = b2 ∧
    s.env.read_data (BusOp.write [reg % 256] :: s.trace) 6 3 % 256 = b3 ∧
    s.env.read_data (BusOp.write [reg % 256] :: s.trace) 6 4 % 256 = b4 ∧
    s.env.read_data (BusOp.write [reg % 256] :: s.trace) 6 5 % 256 = b5 := by
  obtain ⟨hw, -, hd⟩ := h
  simp [List.range, List.range.loop] at hd
  exact ⟨hw, hd.1, hd.2.1, hd.2.2.1, hd.2.2.2.1, hd.2.2.2.2.1, hd.2.2.2.2.2⟩

/-- The three words assembled from a six-byte read, as both raw-axis routines compute
them. -/
theorem six_byte_axes (s : State) (reg : Nat) (b0 b1 b2 b3 b4 b5 : Nat)
    (h : busReturns s reg [b0, b1, b2, b3, b4, b5]) :
    wrap16 (((((i2c_tools_read_reg reg (fun _ => 0) 6 s).2.1 0 % 256) <<< 8) +
      ((i2c_tools_read_reg reg (fun _ => 0) 6 s).2.1 1 % 256) : Nat) : Int)
      = signed16 (256 * b0 + b1) ∧
    wrap16 (((((i2c_tools_read_reg reg (fun _ => 0) 6 s).2.1 2 % 256) <<< 8) +
      ((i2c_tools_read_reg reg (fun _ => 0) 6 s).2.1 3 % 256) : Nat) : Int)
      = signed16 (256 * b2 + b3) ∧
    wrap16 (((((i2c_tools_read_reg reg (fun _ => 0) 6 s).2.1 4 % 256) <<< 8) +
      ((i2c_tools_read_reg reg (fun _ => 0) 6 s).2.1 5 % 256) : Nat) : Int)
      = signed16 (256 * b4 + b5) := by
  obtain ⟨hw, h0, h1, h2, h3, h4, h5⟩ := busReturns_six h
  rw [read_reg_buffer reg 6 _ s hw 0 (by decide), read_reg_buffer reg 6 _ s hw 1 (by decide),
    read_reg_buffer reg 6 _ s hw 2 (by decide), read_reg_buffer reg 6 _ s hw 3 (by decide),
    read_reg_buffer reg 6 _ s hw 4 (by decide), read_reg_buffer reg 6 _ s hw 5 (by decide),
    axis_word, axis_word, axis_word, h0, h1, h2, h3, h4, h5]
  exact ⟨rfl, rfl, rfl⟩

/-- C24: when the bus returns the six bytes b0..b5 for the read at ACCEL_XOUT_H (0x3B),
`mpu6050_get_raw_acce` gives X = s16(256*b0 + b1), Y = s16(256*b2 + b3),
Z = s16(256*b4 + b5), and `mpu6050_get_raw_gyro` does the same with the six bytes read at
GYRO_XOUT_H (0x43); whatever the bus does, every axis lies in [-32768, 32767]. -/
theorem raw_axes_big_endian_signed (s : State) (b0 b1 b2 b3 b4 b5 : Nat) :
    (busReturns s MPU6050_ACCEL_XOUT_H [b0, b1, b2, b3, b4, b5] →
      (mpu6050_get_raw_acce s).1 =
        { raw_acce_x := signed16 (256 * b0 + b1), raw_acce_y := signed16 (256 * b2 + b3),
          raw_acce_z := signed16 (256 * b4 + b5) }) ∧
    (busReturns s MPU6050_GYRO_XOUT_H [b0, b1, b2, b3, b4, b5] →
      (mpu6050_get_raw_gyro s).1 =
        { raw_gyro_x := signed16 (256 * b0 + b1), raw_gyro_y := signed16 (256 * b2 + b3),
          raw_gyro_z := signed16 (256 * b4 + b5) }) ∧
    ((-32768 ≤ (mpu6050_get_raw_acce s).1.raw_acce_x ∧
        (mpu6050_get_raw_acce s).1.raw_acce_x ≤ 32767) ∧
      (-32768 ≤ (mpu6050_get_raw_acce s).1.raw_acce_y ∧
        (mpu6050_get_raw_acce s).1.raw_acce_y ≤ 32767) ∧
      (-32768 ≤ (mpu6050_get_raw_acce s).1.raw_acce_z ∧
        (mpu6050_get_raw_acce s).1.raw_acce_z ≤ 32767)) ∧
    ((-32768 ≤ (mpu6050_get_raw_gyro s).1.raw_gyro_x ∧
        (mpu6050_get_raw_gyro s).1.raw_gyro_x ≤ 32767) ∧
      (-32768 ≤ (mpu6050_get_raw_gyro s).1.raw_gyro_y ∧
        (mpu6050_get_raw_gyro s).1.raw_gyro_y ≤ 32767) ∧
      (-32768 ≤ (mpu6050_get_raw_gyro s).1.raw_gyro_z ∧
        (mpu6050_get_raw_gyro s).1.raw_gyro_z ≤ 32767)) := by
  refine ⟨?_, ?_, ⟨wrap16_range _, wrap16_range _, wrap16_range _⟩,
    ⟨wrap16_range _, wrap16_range _, wrap16_range _⟩⟩
  · intro h
    obtain ⟨hx, hy, hz⟩ := six_byte_axes s MPU6050_ACCEL_XOUT_H b0 b1 b2 b3 b4 b5 h
    unfold mpu6050_get_raw_acce
    dsimp only
    rw [hx, hy, hz]
  · intro h
    obtain ⟨hx, hy, hz⟩ := six_byte_axes s MPU6050_GYRO_XOUT_H b0 b1 b2 b3 b4 b5 h
    unfold mpu6050_get_raw_gyro
    dsimp only
    rw [hx, hy, hz]

/-- C24, at an MPU6050 session whose accelerometer registers hold 0x80 0x00, 0x7F 0xFF,
0x12 0x34: the axes are -32768, 32767 and 4660. -/
theorem raw_axes_big_endian_signed_witness :
    busReturns axisSession MPU6050_ACCEL_XOUT_H [0x80, 0x00, 0x7F, 0xFF, 0x12, 0x34] ∧
    (mpu6050_get_raw_acce axisSession).1 =
      { raw_acce_x := signed16 (256 * 0x80 + 0x00), raw_acce_y := signed16 (256 * 0x7F + 0xFF),
        raw_acce_z := signed16 (256 * 0x12 + 0x34) } ∧
    (mpu6050_get_raw_acce axisSession).1 =
      { raw_acce_x := -32768, raw_acce_y := 32767, raw_acce_z := 4660 } :=
  ⟨by decide,
   (raw_axes_big_endian_signed axisSession 0x80 0x00 0x7F 0xFF 0x12 0x34).1 (by decide),
   by decide⟩

/-! ## Temperature: the 32-bit range -/

theorem tdiv_small (x b B : Int) (hb : 0 < b) (hB : 0 ≤ B) (hlo : -(B * b) ≤ x)
    (hhi : x ≤ B * b) : -B ≤ Int.tdiv x b ∧ Int.tdiv x b ≤ B := by
  rw [tdiv_pos_cases x b hb]
  split
  · next h0 =>
    have h1 : x / b ≤ B := by
      have := Int.ediv_le_ediv hb hhi
      rwa [Int.mul_ediv_cancel _ (ne_of_gt hb)] at this
    have h2 : 0 ≤ x / b := Int.ediv_nonneg h0 (le_of_lt hb)
    omega
  · next h0 =>
    have h1 : (-x) / b ≤ B := by
      have := Int.ediv_le_ediv hb (show -x ≤ B * b by omega)
      rwa [Int.mul_ediv_cancel _ (ne_of_gt hb)] at this
    have h2 : 0 ≤ (-x) / b := Int.ediv_nonneg (by omega) (le_of_lt hb)
    omega

/-- When the three products fit `int32_t`, every other intermediate value of the reference
temperature formula does. -/
theorem tempInRange_of_products (adc T1 T2 T3 : Int) (h0 : 0 ≤ adc) (h1 : adc < 1048576)
    (ht : tempTrimTyped T1 T2 T3) (hp : tempProductsInRange adc T1 T2 T3) :
    tempInRange adc T1 T2 T3 := by
  obtain ⟨⟨a1, a2⟩, -, -⟩ := ht
  obtain ⟨p1, p2, p3⟩ := hp
  have d8 : 0 ≤ Int.tdiv adc 8 ∧ Int.tdiv adc 8 ≤ 131071 := by
    rw [Int.tdiv_eq_ediv h0 (by decide)]
    omega
  have d16 : 0 ≤ Int.tdiv adc 16 ∧ Int.tdiv adc 16 ≤ 65535 := by
    rw [Int.tdiv_eq_ediv h0 (by decide)]
    omega
  have q1 := tdiv_small ((Int.tdiv adc 8 - 2 * T1) * T2) 2048 1048576 (by decide) (by decide)
    (by unfold inInt32 at p1; omega) (by unfold inInt32 at p1; omega)
  have q3 := tdiv_small
    (Int.tdiv ((Int.tdiv adc 16 - T1) * (Int.tdiv adc 16 - T1)) 4096 * T3) 16384 131072
    (by decide) (by decide) (by unfold inInt32 at p3; omega) (by unfold inInt32 at p3; omega)
  have hfine : -1179648 ≤ spec_t_fine adc T1 T2 T3 ∧ spec_t_fine adc T1 T2 T3 ≤ 1179648 := by
    unfold spec_t_fine
    omega
  unfold tempInRange
  refine ⟨?_, ?_, p1, ?_, p2, p3, ?_, ?_, ?_⟩ <;> unfold inInt32 <;> omega

/-- C25, amended: for every 20-bit raw temperature code and every calibration with T1 in
[0, 65535] and T2, T3 in [-32768, 32767] for which the three products
(adc/8 - 2*T1)*T2, (adc/16 - T1)^2 and ((adc/16 - T1)^2/4096)*T3 lie within the signed
32-bit range, every other intermediate value of the temperature compensation (up to
t_fine*5 + 128) lies within that range too, and the 32-bit computation of t_fine and T
equals the formula evaluated over unbounded integers. -/
theorem temperature_fits_int32 (adc : Int) (c : bme280_calib_data_t) (h0 : 0 ≤ adc)
    (h1 : adc < 2 ^ 20) (ht : tempTrimTyped c.dig_T1 c.dig_T2 c.dig_T3)
    (hp : tempProductsInRange adc c.dig_T1 c.dig_T2 c.dig_T3) :
    tempInRange adc c.dig_T1 c.dig_T2 c.dig_T3 ∧
    compensate_T_fine adc c = spec_t_fine adc c.dig_T1 c.dig_T2 c.dig_T3 ∧
    compensate_T (compensate_T_fine adc c) =
      spec_T (spec_t_fine adc c.dig_T1 c.dig_T2 c.dig_T3) ∧
    ∀ s : State, s.meas_reg.osrs_t ≠ SAMPLING_NONE → s.bme280_calib = c → raw_adc_T s = adc →
      (bme280_read_temperature s).2.t_fine = spec_t_fine adc c.dig_T1 c.dig_T2 c.dig_T3 ∧
      (bme280_read_temperature s).1 =
        ((spec_T (spec_t_fine adc c.dig_T1 c.dig_T2 c.dig_T3) : Int) : ℚ) / 100 := by
  have h1a : adc < 1048576 := by simpa using h1
  have hr := tempInRange_of_products adc c.dig_T1 c.dig_T2 c.dig_T3 h0 h1a ht hp
  have hfine := compensate_T_fine_eq_spec adc c h0 h1a hr
  have hT := compensate_T_eq_spec _ hr.2.2.2.2.2.2.2.1 hr.2.2.2.2.2.2.2.2
  refine ⟨hr, hfine, ?_, ?_⟩
  · rw [hfine, hT]
  · intro s hon hc hadc
    rw [read_temperature_on s hon, hadc, hc, hfine, hT]
    exact ⟨rfl, rfl⟩

/-- C25, at the worked example: raw code 519888 with T1 = 27504, T2 = 26435, T3 = -1000. -/
theorem temperature_fits_int32_witness :
    (((0 : Int) ≤ 519888 ∧ (519888 : Int) < 2 ^ 20) ∧
      tempTrimTyped fixtureCalib.dig_T1 fixtureCalib.dig_T2 fixtureCalib.dig_T3 ∧
      tempProductsInRange 519888 fixtureCalib.dig_T1 fixtureCalib.dig_T2 fixtureCalib.dig_T3) ∧
    compensate_T_fine 519888 fixtureCalib =
      spec_t_fine 519888 fixtureCalib.dig_T1 fixtureCalib.dig_T2 fixtureCalib.dig_T3 ∧
    compensate_T_fine 519888 fixtureCalib = 128423 :=
  ⟨⟨⟨by decide, by decide⟩, by decide, by decide⟩,
   (temperature_fits_int32 519888 fixtureCalib (by decide) (by decide) (by decide)
      (by decide)).2.1,
   by decide⟩

/-- C25 as stated fails: with the raw code 0xFFFFF (1048575) and the calibration T1 = 0,
T2 = 32767, T3 = 0, all within the ranges of the claim, the product (adc/8 - 2*T1)*T2 is
131071 * 32767 = 4294803457, outside the signed 32-bit range; the 32-bit computation gives
t_fine = -79 and T = -1 where the formula over unbounded integers gives 2097072 and 40958.
The square (adc/16 - T1)^2 leaves the range at adc = 0, T1 = 65535, and the product with T3
at adc = 741440, T1 = 0, T3 = 32767. -/
theorem temperature_product_leaves_int32 :
    (((0 : Int) ≤ 1048575 ∧ (1048575 : Int) < 2 ^ 20) ∧
      tempTrimTyped overflowCalib.dig_T1 overflowCalib.dig_T2 overflowCalib.dig_T3) ∧
    overflowState.bme280_calib = overflowCalib ∧ raw_adc_T overflowState = 1048575 ∧
    (Int.tdiv 1048575 8 - 2 * overflowCalib.dig_T1) * overflowCalib.dig_T2 = 4294803457 ∧
    ¬ inInt32 ((Int.tdiv 1048575 8 - 2 * overflowCalib.dig_T1) * overflowCalib.dig_T2) ∧
    (bme280_read_temperature overflowState).2.t_fine = -79 ∧
    spec_t_fine 1048575 overflowCalib.dig_T1 overflowCalib.dig_T2 overflowCalib.dig_T3
      = 2097072 ∧
    compensate_T (bme280_read_temperature overflowState).2.t_fine = -1 ∧
    spec_T 2097072 = 40958 ∧
    ¬ inInt32 ((Int.tdiv 0 16 - 65535) * (Int.tdiv 0 16 - 65535)) ∧
    inInt32 ((Int.tdiv 741440 16 - 0) * (Int.tdiv 741440 16 - 0)) ∧
    ¬ inInt32 (Int.tdiv ((Int.tdiv 741440 16 - 0) * (Int.tdiv 741440 16 - 0)) 4096 * 32767) := by
  refine ⟨⟨⟨by decide, by decide⟩, by decide⟩, rfl, by decide, by decide, by decide, by decide,
    by decide, by decide, by decide, by decide, by decide, by decide⟩

/-! ## MPU6050: sensitivity look-up and scaling -/

theorem range_field_lt (b : Nat) : range_field b < 4 := by
  unfold range_field
  have h : (b >>> 3) &&& 0x03 ≤ 0x03 := Nat.and_le_right
  omega

theorem acce_sensitivity_cases (fs : Nat) (h : fs < 4) :
    acce_sensitivity_of fs = 16384 ∨ acce_sensitivity_of fs = 8192 ∨
    acce_sensitivity_of fs = 4096 ∨ acce_sensitivity_of fs = 2048 := by
  have ht := acce_sensitivity_table
  interval_cases fs
  · exact Or.inl ht.1
  · exact Or.inr (Or.inl ht.2.1)
  · exact Or.inr (Or.inr (Or.inl ht.2.2.1))
  · exact Or.inr (Or.inr (Or.inr ht.2.2.2))

theorem gyro_sensitivity_cases (fs : Nat) (h : fs < 4) :
    gyro_sensitivity_of fs = 131 ∨ gyro_sensitivity_of fs = 65.5 ∨
    gyro_sensitivity_of fs = 32.8 ∨ gyro_sensitivity_of fs = 16.4 := by
  have ht := gyro_sensitivity_table
  interval_cases fs
  · exact Or.inl ht.1
  · exact Or.inr (Or.inl ht.2.1)
  · exact Or.inr (Or.inr (Or.inl ht.2.2.1))
  · exact Or.inr (Or.inr (Or.inr ht.2.2.2))

theorem acce_sensitivity_ne_zero (s : State) : (mpu6050_get_acce_sensitivity s).1 ≠ 0 := by
  rw [get_acce_sensitivity_value]
  rcases acce_sensitivity_cases _ (range_field_lt (i2c_tool_read_byte MPU6050_ACCEL_CONFIG
    (i2c_tools_set_slave_address s.mpu6050_slave_addr s).2).1) with h | h | h | h <;>
  · unfold range_field at h
    rw [h]
    norm_num

theorem gyro_sensitivity_ne_zero (s : State) : (mpu6050_get_gyro_sensitivity s).1 ≠ 0 := by
  rw [get_gyro_sensitivity_value]
  rcases gyro_sensitivity_cases _ (range_field_lt (i2c_tool_read_byte MPU6050_ACCEL_CONFIG
    (i2c_tools_set_slave_address s.mpu6050_slave_addr s).2).1) with h | h | h | h <;>
  · unfold range_field at h
    rw [h]
    norm_num

theorem get_acce_value (s : State) :
    (mpu6050_get_acce s).2.1 =
      if (mpu6050_get_acce_sensitivity s).1 = 0 then none
      else some
        { acce_x := ((mpu6050_get_raw_acce (mpu6050_get_acce_sensitivity s).2).1.raw_acce_x : ℚ)
            / (mpu6050_get_acce_sensitivity s).1
          acce_y := ((mpu6050_get_raw_acce (mpu6050_get_acce_sensitivity s).2).1.raw_acce_y : ℚ)
            / (mpu6050_get_acce_sensitivity s).1
          acce_z := ((mpu6050_get_raw_acce (mpu6050_get_acce_sensitivity s).2).1.raw_acce_z : ℚ)
            / (mpu6050_get_acce_sensitivity s).1 } := rfl

theorem get_gyro_value (s : State) :
    (mpu6050_get_gyro s).2.1 =
      if (mpu6050_get_gyro_sensitivity s).1 = 0 then none
      else some
        { gyro_x := ((mpu6050_get_raw_gyro (mpu6050_get_gyro_sensitivity s).2).1.raw_gyro_x : ℚ)
            / (mpu6050_get_gyro_sensitivity s).1
          gyro_y := ((mpu6050_get_raw_gyro (mpu6050_get_gyro_sensitivity s).2).1.raw_gyro_y : ℚ)
            / (mpu6050_get_gyro_sensitivity s).1
          gyro_z := ((mpu6050_get_raw_gyro (mpu6050_get_gyro_sensitivity s).2).1.raw_gyro_z : ℚ)
            / (mpu6050_get_gyro_sensitivity s).1 } := rfl

/-- C26: whatever the bus delivers for ACCEL_CONFIG, `mpu6050_get_acce_sensitivity` returns
one of 16384, 8192, 4096, 2048 and `mpu6050_get_gyro_sensitivity` one of 131, 65.5, 32.8,
16.4; the look-up argument is below 4, so the default branch is not taken, the divisor is
never 0, and `mpu6050_get_acce` and `mpu6050_get_gyro` always produce their three
quotients. -/
theorem sensitivity_never_zero (s : State) :
    ((mpu6050_get_acce_sensitivity s).1 = 16384 ∨ (mpu6050_get_acce_sensitivity s).1 = 8192 ∨
      (mpu6050_get_acce_sensitivity s).1 = 4096 ∨ (mpu6050_get_acce_sensitivity s).1 = 2048) ∧
    ((mpu6050_get_gyro_sensitivity s).1 = 131 ∨ (mpu6050_get_gyro_sensitivity s).1 = 65.5 ∨
      (mpu6050_get_gyro_sensitivity s).1 = 32.8 ∨ (mpu6050_get_gyro_sensitivity s).1 = 16.4) ∧
    range_field (i2c_tool_read_byte MPU6050_ACCEL_CONFIG
      (i2c_tools_set_slave_address s.mpu6050_slave_addr s).2).1 < 4 ∧
    ((mpu6050_get_acce_sensitivity s).1 ≠ 0 ∧ (mpu6050_get_gyro_sensitivity s).1 ≠ 0) ∧
    (∃ v, (mpu6050_get_acce s).2.1 = some v) ∧ (∃ v, (mpu6050_get_gyro s).2.1 = some v) := by
  refine ⟨?_, ?_, range_field_lt _, ⟨acce_sensitivity_ne_zero s, gyro_sensitivity_ne_zero s⟩,
    ?_, ?_⟩
  · rw [get_acce_sensitivity_value]
    exact acce_sensitivity_cases _ (range_field_lt _)
  · rw [get_gyro_sensitivity_value]
    exact gyro_sensitivity_cases _ (range_field_lt _)
  · rw [get_acce_value, if_neg (acce_sensitivity_ne_zero s)]
    exact ⟨_, rfl⟩
  · rw [get_gyro_value, if_neg (gyro_sensitivity_ne_zero s)]
    exact ⟨_, rfl⟩

theorem acce_full_scale_table :
    acce_full_scale 0 = 2 ∧ acce_full_scale 1 = 4 ∧ acce_full_scale 2 = 8 ∧
    acce_full_scale 3 = 16 := by
  unfold acce_full_scale
  refine ⟨by rw [if_pos (by decide)], ?_, ?_, ?_⟩
  · rw [if_neg (by decide), if_pos (by decide)]
  · rw [if_neg (by decide), if_neg (by decide), if_pos (by decide)]
  · rw [if_neg (by decide), if_neg (by decide), if_neg (by decide), if_pos (by decide)]

/-- The divisor of a range times its full scale is 2^15. -/
theorem acce_divisor_full_scale (fs : Nat) (h : fs < 4) :
    0 < acce_sensitivity_of fs ∧ acce_full_scale fs * acce_sensitivity_of fs = 32768 := by
  have ht := acce_sensitivity_table
  have hf := acce_full_scale_table
  interval_cases fs
  · rw [ht.1, hf.1]; norm_num
  · rw [ht.2.1, hf.2.1]; norm_num
  · rw [ht.2.2.1, hf.2.2.1]; norm_num
  · rw [ht.2.2.2, hf.2.2.2]; norm_num

theorem scaled_within_full_scale (raw : Int) (fs : Nat) (h : fs < 4) (h1 : -32768 ≤ raw)
    (h2 : raw ≤ 32767) :
    -acce_full_scale fs ≤ (raw : ℚ) / acce_sensitivity_of fs ∧
    (raw : ℚ) / acce_sensitivity_of fs < acce_full_scale fs := by
  obtain ⟨hpos, hprod⟩ := acce_divisor_full_scale fs h
  have c1 : (-32768 : ℚ) ≤ (raw : ℚ) := by exact_mod_cast h1
  have c2 : (raw : ℚ) < 32768 := by
    have : raw < 32768 := by omega
    exact_mod_cast this
  constructor
  · rw [le_div_iff₀ hpos, neg_mul, hprod]
    exact c1
  · rw [div_lt_iff₀ hpos, hprod]
    exact c2

/-- C27: for every raw signed 16-bit reading and every range selector 0..3 (full scale
R = 2, 4, 8, 16 g), the reading divided by the divisor of that range lies in [-R, R), the
divisor times R being 32768; and whatever the bus delivers, the three values
`mpu6050_get_acce` computes lie in [-R, R) for the range R that bits 3-4 of the
ACCEL_CONFIG byte it reads select. -/
theorem accel_value_within_full_scale (s : State) :
    (∀ (fs : Nat) (raw : Int), fs < 4 → -32768 ≤ raw → raw ≤ 32767 →
      (acce_full_scale fs = 2 ∨ acce_full_scale fs = 4 ∨ acce_full_scale fs = 8 ∨
        acce_full_scale fs = 16) ∧
      acce_full_scale fs * acce_sensitivity_of fs = 32768 ∧
      -acce_full_scale fs ≤ (raw : ℚ) / acce_sensitivity_of fs ∧
      (raw : ℚ) / acce_sensitivity_of fs < acce_full_scale fs) ∧
    ∃ v, (mpu6050_get_acce s).2.1 = some v ∧
      (-acce_full_scale (range_field (i2c_tool_read_byte MPU6050_ACCEL_CONFIG
          (i2c_tools_set_slave_address s.mpu6050_slave_addr s).2).1) ≤ v.acce_x ∧
        v.acce_x < acce_full_scale (range_field (i2c_tool_read_byte MPU6050_ACCEL_CONFIG
          (i2c_tools_set_slave_address s.mpu6050_slave_addr s).2).1)) ∧
      (-acce_full_scale (range_field (i2c_tool_read_byte MPU6050_ACCEL_CONFIG
          (i2c_tools_set_slave_address s.mpu6050_slave_addr s).2).1) ≤ v.acce_y ∧
        v.acce_y < acce_full_scale (range_field (i2c_tool_read_byte MPU6050_ACCEL_CONFIG
          (i2c_tools_set_slave_address s.mpu6050_slave_addr s).2).1)) ∧
      (-acce_full_scale (range_field (i2c_tool_read_byte MPU6050_ACCEL_CONFIG
          (i2c_tools_set_slave_address s.mpu6050_slave_addr s).2).1) ≤ v.acce_z ∧
        v.acce_z < acce_full_scale (range_field (i2c_tool_read_byte MPU6050_ACCEL_CONFIG
          (i2c_tools_set_slave_address s.mpu6050_slave_addr s).2).1)) := by
  constructor
  · intro fs raw hfs h1 h2
    have hf := acce_full_scale_table
    refine ⟨?_, (acce_divisor_full_scale fs hfs).2, scaled_within_full_scale raw fs hfs h1 h2⟩
    interval_cases fs
    · exact Or.inl hf.1
    · exact Or.inr (Or.inl hf.2.1)
    · exact Or.inr (Or.inr (Or.inl hf.2.2.1))
    · exact Or.inr (Or.inr (Or.inr hf.2.2.2))
  · have hlt := range_field_lt (i2c_tool_read_byte MPU6050_ACCEL_CONFIG
      (i2c_tools_set_slave_address s.mpu6050_slave_addr s).2).1
    have hs : (mpu6050_get_acce_sensitivity s).1 =
        acce_sensitivity_of (range_field (i2c_tool_read_byte MPU6050_ACCEL_CONFIG
          (i2c_tools_set_slave_address s.mpu6050_slave_addr s).2).1) := rfl
    rw [get_acce_value, if_neg (acce_sensitivity_ne_zero s), hs]
    refine ⟨_, rfl, ?_, ?_, ?_⟩
    · exact scaled_within_full_scale _ _ hlt (wrap16_range _).1 (wrap16_range _).2
    · exact scaled_within_full_scale _ _ hlt (wrap16_range _).1 (wrap16_range _).2
    · exact scaled_within_full_scale _ _ hlt (wrap16_range _).1 (wrap16_range _).2

/-- C27, at an MPU6050 session whose ACCEL_CONFIG selects 8 g and whose X registers hold
0x80 0x00: the raw reading -32768 gives exactly -8. -/
theorem accel_value_within_full_scale_witness :
    ((2 : Nat) < 4 ∧ (-32768 : Int) ≤ -32768 ∧ (-32768 : Int) ≤ 32767) ∧
    (-acce_full_scale 2 ≤ ((-32768 : Int) : ℚ) / acce_sensitivity_of 2 ∧
      ((-32768 : Int) : ℚ) / acce_sensitivity_of 2 < acce_full_scale 2) ∧
    range_field (i2c_tool_read_byte MPU6050_ACCEL_CONFIG
      (i2c_tools_set_slave_address axisSession.mpu6050_slave_addr axisSession).2).1 = 2 ∧
    (mpu6050_get_raw_acce (mpu6050_get_acce_sensitivity axisSession).2).1.raw_acce_x
      = -32768 :=
  ⟨⟨by decide, by decide, by decide⟩,
   ((accel_value_within_full_scale axisSession).1 2 (-32768) (by decide) (by decide)
      (by decide)).2.2,
   by decide, by decide⟩

end Pwnsat
